import Mathlib

/-!
Verification development for the sumhash512 streaming hasher.

The streaming layer (state, update, reset, finalize, block buffering) is
embedded from the Rust source file sumhash512core.rs.  The compression
module it calls (matrix generation, lookup table, compression) is not part
of the given sources, so those functions are modelled from the
specification, pinned by the published test vectors as the specification
itself instructs.  Shake-256 is modelled from its public standard.
Machine integers are Nat with explicit reduction modulo 2^64; byte strings
are List Nat.
-/

set_option maxRecDepth 1000000
set_option maxHeartbeats 1000000000

/-- Modelled from the spec: 64-bit rotate left inside the Shake-256 permutation. -/
def rotl (x n : Nat) : Nat :=
  (((x <<< n) &&& 18446744073709551615) ||| (x >>> (64 - n)))

def keccakRound (rc : Nat) (s : List Nat) : List Nat :=
  match s with
  | [a0, a1, a2, a3, a4, a5, a6, a7, a8, a9, a10, a11, a12, a13, a14, a15, a16, a17, a18, a19, a20, a21, a22, a23, a24] =>
    let c0 := a0^^^a5^^^a10^^^a15^^^a20
    let c1 := a1^^^a6^^^a11^^^a16^^^a21
    let c2 := a2^^^a7^^^a12^^^a17^^^a22
    let c3 := a3^^^a8^^^a13^^^a18^^^a23
    let c4 := a4^^^a9^^^a14^^^a19^^^a24
    let d0 := c4 ^^^ rotl c1 1
    let d1 := c0 ^^^ rotl c2 1
    let d2 := c1 ^^^ rotl c3 1
    let d3 := c2 ^^^ rotl c4 1
    let d4 := c3 ^^^ rotl c0 1
    let b0 := (a0 ^^^ d0)
    let b1 := rotl (a6 ^^^ d1) 44
    let b2 := rotl (a12 ^^^ d2) 43
    let b3 := rotl (a18 ^^^ d3) 21
    let b4 := rotl (a24 ^^^ d4) 14
    let b5 := rotl (a3 ^^^ d3) 28
    let b6 := rotl (a9 ^^^ d4) 20
    let b7 := rotl (a10 ^^^ d0) 3
    let b8 := rotl (a16 ^^^ d1) 45
    let b9 := rotl (a22 ^^^ d2) 61
    let b10 := rotl (a1 ^^^ d1) 1
    let b11 := rotl (a7 ^^^ d2) 6
    let b12 := rotl (a13 ^^^ d3) 25
    let b13 := rotl (a19 ^^^ d4) 8
    let b14 := rotl (a20 ^^^ d0) 18
    let b15 := rotl (a4 ^^^ d4) 27
    let b16 := rotl (a5 ^^^ d0) 36
    let b17 := rotl (a11 ^^^ d1) 10
    let b18 := rotl (a17 ^^^ d2) 15
    let b19 := rotl (a23 ^^^ d3) 56
    let b20 := rotl (a2 ^^^ d2) 62
    let b21 := rotl (a8 ^^^ d3) 55
    let b22 := rotl (a14 ^^^ d4) 39
    let b23 := rotl (a15 ^^^ d0) 41
    let b24 := rotl (a21 ^^^ d1) 2
    let e0 := b0 ^^^ ((b1 ^^^ 18446744073709551615) &&& b2)
    let e1 := b1 ^^^ ((b2 ^^^ 18446744073709551615) &&& b3)
    let e2 := b2 ^^^ ((b3 ^^^ 18446744073709551615) &&& b4)
    let e3 := b3 ^^^ ((b4 ^^^ 18446744073709551615) &&& b0)
    let e4 := b4 ^^^ ((b0 ^^^ 18446744073709551615) &&& b1)
    let e5 := b5 ^^^ ((b6 ^^^ 18446744073709551615) &&& b7)
    let e6 := b6 ^^^ ((b7 ^^^ 18446744073709551615) &&& b8)
    let e7 := b7 ^^^ ((b8 ^^^ 18446744073709551615) &&& b9)
    let e8 := b8 ^^^ ((b9 ^^^ 18446744073709551615) &&& b5)
    let e9 := b9 ^^^ ((b5 ^^^ 18446744073709551615) &&& b6)
    let e10 := b10 ^^^ ((b11 ^^^ 18446744073709551615) &&& b12)
    let e11 := b11 ^^^ ((b12 ^^^ 18446744073709551615) &&& b13)
    let e12 := b12 ^^^ ((b13 ^^^ 18446744073709551615) &&& b14)
    let e13 := b13 ^^^ ((b14 ^^^ 18446744073709551615) &&& b10)
    let e14 := b14 ^^^ ((b10 ^^^ 18446744073709551615) &&& b11)
    let e15 := b15 ^^^ ((b16 ^^^ 18446744073709551615) &&& b17)
    let e16 := b16 ^^^ ((b17 ^^^ 18446744073709551615) &&& b18)
    let e17 := b17 ^^^ ((b18 ^^^ 18446744073709551615) &&& b19)
    let e18 := b18 ^^^ ((b19 ^^^ 18446744073709551615) &&& b15)
    let e19 := b19 ^^^ ((b15 ^^^ 18446744073709551615) &&& b16)
    let e20 := b20 ^^^ ((b21 ^^^ 18446744073709551615) &&& b22)
    let e21 := b21 ^^^ ((b22 ^^^ 18446744073709551615) &&& b23)
    let e22 := b22 ^^^ ((b23 ^^^ 18446744073709551615) &&& b24)
    let e23 := b23 ^^^ ((b24 ^^^ 18446744073709551615) &&& b20)
    let e24 := b24 ^^^ ((b20 ^^^ 18446744073709551615) &&& b21)
    let e0 := e0 ^^^ rc
    [e0, e1, e2, e3, e4, e5, e6, e7, e8, e9, e10, e11, e12, e13, e14, e15, e16, e17, e18, e19, e20, e21, e22, e23, e24]
  | _ => []

def keccakRCs : List Nat := [1, 32898, 9223372036854808714, 9223372039002292224, 32907, 2147483649, 9223372039002292353, 9223372036854808585, 138, 136, 2147516425, 2147483658, 2147516555, 9223372036854775947, 9223372036854808713, 9223372036854808579, 9223372036854808578, 9223372036854775936, 32778, 9223372039002259466, 9223372039002292353, 9223372036854808704, 2147483649, 9223372039002292232]

def keccakP (s : List Nat) : List Nat := keccakRCs.foldl (fun t rc => keccakRound rc t) s


/-- Modelled from the spec: force a Nat computation to a literal before
continuing; semantically the identity, used to keep kernel evaluation
iterative. -/
def fN (n : Nat) (k : Nat → List Nat) : List Nat :=
  match n with
  | 0 => k 0
  | t+1 => k (t+1)

/-- Modelled from the spec: force every entry of a list of Nat lanes. -/
def fL (l : List Nat) (k : List Nat → List Nat) : List Nat :=
  match l with
  | [] => k []
  | x :: xs => fN x (fun y => fL xs (fun ys => k (y :: ys)))

/-- Modelled from the spec: iterate the Keccak permutation. -/
def iterLs : Nat → List Nat → List Nat
  | 0, s => s
  | n+1, s => fL (keccakP s) (iterLs n)

/-- Modelled from the spec: squeeze phase of Shake-256, emitting the first
17 lanes (136 bytes, the rate) of each state as 64-bit little-endian words. -/
def squeezeLanes : Nat → List Nat → List Nat
  | 0, _ => []
  | n+1, s => s.take 17 ++ fL (keccakP s) (squeezeLanes n)

/-- Modelled from the spec: Shake-256 multi-rate padding of a message. -/
def shakePadded (msg : List Nat) : List Nat :=
  msg ++ [31] ++ List.replicate (134 - msg.length % 136) 0 ++ [128]

/-- Modelled from the spec: split a byte string into chunks of n bytes;
the first argument after n is recursion fuel. -/
def chunksAux (n : Nat) : Nat → List Nat → List (List Nat)
  | _, [] => []
  | 0, l => [l]
  | f+1, x :: xs => (x :: xs).take n :: chunksAux n f (xs.drop (n-1))

/-- Modelled from the spec: combine 8 bytes little-endian into a 64-bit word. -/
def bytesToU64 (b : List Nat) : Nat :=
  b.foldr (fun x acc => x ||| (acc <<< 8)) 0

/-- Modelled from the spec: the Shake-256 input that seeds the sumhash
matrix.  It consists of a parameter header (64, the number of rows and the
number of columns, each as 16-bit little-endian) followed by the ASCII
seed Algorand; the header is pinned by the published test vectors, as
section 9 of the specification instructs. -/
def seedMsg : List Nat := [64, 0, 8, 0, 0, 4, 65, 108, 103, 111, 114, 97, 110, 100]

/-- Modelled from the spec: Shake-256 absorb phase, returning the state
(25 lanes) after absorbing the padded message. -/
def shakeAbsorb (msg : List Nat) : List Nat :=
  (chunksAux 136 (msg.length + 1) (shakePadded msg)).foldl
    (fun s blk =>
      keccakP (List.zipWith (fun a b => a ^^^ b) s
        ((chunksAux 8 17 blk).map bytesToU64 ++ List.replicate 8 0)))
    (List.replicate 25 0)

/-- Modelled from the spec: split the squeezed 64-bit word stream into
matrix rows of 1024 words each. -/
def rowsAux : Nat → List Nat → List (List Nat)
  | 0, _ => []
  | n+1, stream => stream.take 1024 :: rowsAux n (stream.drop 1024)

/-- Modelled from the spec: the sumhash matrix, 8 lanes of 1024 words,
derived deterministically from the Shake-256 expansion of the seed. -/
def sumhashMatrix : List (List Nat) :=
  rowsAux 8 (squeezeLanes 482 (shakeAbsorb seedMsg))

def kSt0 : List Nat := [13897869330612789512, 15236484001523636518, 9345190331054343615, 10503284427283880079, 16499892121489907695, 1690754364458908415, 16398879353591431836, 3397949981178942935, 2218228126224174844, 214397111083662208, 393899949019538452, 13071973958776851013, 17738646329252089908, 15624466451288592663, 13159658820518447764, 9204340462297677060, 14100539180366320649, 10599592134657982486, 16561921171616651617, 11251271218147390692, 7667859905490749872, 17837135438922343596, 728318371821630208, 12733073929798233917, 17110339937783324720]

def kSt1 : List Nat := [13842433261627351901, 11003785849293087713, 12064101814480392344, 7504122383001662412, 3384449652876711943, 531972266343494043, 14085973681489691176, 12701867288679889783, 7552884062640196154, 3837256064088738318, 7959596639186782906, 11166567956873455175, 7414434410893015955, 4253772423675396936, 7688580945535657168, 1092089527119769844, 11909735831689803236, 10869113745676788122, 10352771795320047703, 14604390185034450001, 1262070413785776885, 17766095712021660765, 5613673318915778260, 8740440845778374772, 9718189461629981601]

def kSt2 : List Nat := [3579054455730717565, 12718265086827318553, 16343682866912335816, 14087668202917662641, 8699155913199690095, 2524724394142765184, 2765804536881420239, 8494574004638229999, 14725745415092617214, 9298389617980888062, 17060023707313902753, 3314127311707841853, 11156535636996329729, 14539031981139124723, 6863761922221868319, 13331237185119487418, 1360755281712878916, 10704071943571215560, 4990347306074806395, 13523839500734189015, 4843116734527864879, 15393129925279770012, 7283942408769375921, 18110353779246702525, 9690321039831633016]

def kSt3 : List Nat := [11675549544810713634, 7817036426142778096, 14240372784139629417, 12083206196940110277, 17309675971514249425, 12520216537464684029, 8481800168583240893, 5764090853472532053, 3213973818090988766, 10231098815046296670, 7857661832709490291, 15813044455412685678, 14830175330780957748, 7030143662256913699, 15404342278134590221, 2419443552532757660, 18393966673777322987, 16061860205753685897, 10948019839415158178, 6258552996278881419, 10320525695470385306, 5853377836843379903, 2774271953810502225, 12502399623433684852, 2690663909659574200]

def kSt4 : List Nat := [16513542983703754717, 9861538099837959359, 16766187920470974315, 6460514825195661353, 5360806598520473252, 2406566533152790307, 6832223971957819404, 9329690491794294617, 4948944735999086065, 16680448590079289955, 11239478821241401992, 10825720418961860384, 10739782108632750875, 11824941248420946571, 15792255376462356837, 5204357625490324129, 11864444248092207641, 6890995103235552142, 4075349748582849980, 13469461737960284318, 5934892993221713439, 1205933915777508447, 15472976869962666656, 15353550255106098953, 9976243901104910407]

def kSt5 : List Nat := [8093964655529246506, 4285041695384685199, 15233065812717089266, 8205042300797895892, 6306549337950914755, 17267877018012000406, 3851808314885518014, 7011673526916306437, 16115655373696498503, 6419009546395202267, 4851918261440178121, 13345070227310427532, 3469127122239206196, 9277182751028757515, 14685853251844634951, 14496659082280519035, 12731738628685979984, 16700453247644648878, 3890901176527547420, 9496198641609041496, 93270205467826566, 204501553792977868, 7575890632830007692, 5806358562625151297, 6552310477025129010]

def kSt6 : List Nat := [6209724393842883982, 17782932088179108268, 1826393674449259245, 9194093621306261702, 8813069274230754474, 6477288582015673959, 15047978290438887430, 4079686027172247163, 5552245054739968911, 7649445000690648737, 17645136987569268488, 7828328145571440780, 7656180163507273023, 5592964935954712197, 6763588688140844514, 7295422307616176105, 11111637419865001908, 1645932221416041365, 4228608361594904726, 76011733020785394, 14259437411651347983, 17249216452629039437, 6571786990001251828, 1228335104873345190, 7409332572626189626]

def kSt7 : List Nat := [14817500653380942879, 6993685337741170499, 13671865110852935965, 14571754255039131814, 15260414231838775817, 14649032821281450891, 6981552343018761548, 10341599999133771781, 5071237918949663392, 4336284814721037343, 6553389742231106873, 6496702132703583279, 13730841599190468015, 9959987618333949048, 2101076924298091173, 10642807218390058384, 10120284374503278555, 9068081442075913061, 13487041864440848795, 2698232429367239107, 8915824892334810612, 12856464982372605809, 17748082906683998005, 16317011309022236277, 849690560790034974]

def kSt8 : List Nat := [4501202697078390355, 14360065839789357939, 3964869052874932986, 130995089938319756, 14868687784759941186, 7890070526264166512, 8090436654510872702, 15925182667665388415, 9941684168508955779, 803982429072831938, 3000976555040959350, 14291807075147024564, 11231701649736597093, 17678409316353681758, 12758495341196014744, 453491731207656988, 12055022538595483232, 13156909478444361609, 15414849483300745170, 4973508348862742994, 3869600956049678776, 7001995758634578356, 12277734024061694965, 11705542904064423983, 3574401419479182046]

def kSt9 : List Nat := [8300495718100312991, 2176193952472027111, 13408826440191011449, 912202858399677672, 12882462002966220417, 1673475350665590265, 17095825027461887142, 119228271031670741, 1054541800474160309, 9626547098750772397, 10536440661732123638, 15506296359181616251, 18226154941965939524, 16933372919334606622, 1936431657216049873, 11962214613404580516, 4550887553882809732, 8841454467344460623, 3185547109698032907, 12821562386007469140, 9652797846135174822, 4514467533175341929, 8690330097032878531, 12047632461038376369, 1243754063308074225]

def kSt10 : List Nat := [6783452666061978054, 16951017192118259179, 4484340502282708620, 13546448211866742114, 4973579801078477279, 17244106696677299427, 16931834973525202819, 10303784242438877500, 13575277856332900609, 10105391179054308415, 2862074226244836831, 6620781099332206740, 3897452870673148187, 10855875458864810333, 14498944523663200918, 12828944534339561344, 9999491443726513956, 4257571779137695031, 9753154686709587307, 17267352469565490016, 6108752509073522097, 6418203641754057058, 14034137076127237178, 13805486086404470858, 6769880614701839604]

def kSt11 : List Nat := [4703166714838541062, 9864651815031798429, 3062020575151131921, 12006964528819125027, 16777382237204541337, 14317555897797188170, 2813186272310054988, 828572863720911405, 8403850651257707597, 13228295139176702865, 10787599621679354238, 18208930236233690802, 17569978068883967968, 15868877113937261375, 7923783252089430703, 13551245330124736285, 4304840215321895914, 6859005272931025489, 14049405732757970416, 3005506139316626148, 15036719279353704133, 4793718192491797737, 5101115477324495613, 10894276553414691365, 15835656635989750541]

def kSt12 : List Nat := [12430160209115823337, 13196962122194949849, 513871163484465084, 2403072250751868448, 1291732273800170877, 7476609718596982624, 17342230083259672493, 6174992048779011720, 17229839831166282582, 17643060101977641759, 15480291977820122170, 5001288841396397324, 15494743300175849709, 8661409602033679287, 16322215743080501882, 5716217526116270619, 12941270531729378410, 12577029553105989682, 3355700577133318344, 8641901109198232419, 5458204819985465366, 4702341710208493324, 4154669005833519534, 3057856761676770756, 478528511168348855]

def kLanes0 : List Nat := [13897869330612789512, 15236484001523636518, 9345190331054343615, 10503284427283880079, 16499892121489907695, 1690754364458908415, 16398879353591431836, 3397949981178942935, 2218228126224174844, 214397111083662208, 393899949019538452, 13071973958776851013, 17738646329252089908, 15624466451288592663, 13159658820518447764, 9204340462297677060, 14100539180366320649, 5736958020830118941, 9724468713713179668, 5308779271768302300, 18363078560010851650, 9190536534244919619, 15391880054937367555, 16558251495508577738, 11853768395742003533, 8018797293036907218, 12193727096749322898, 3928051616649120585, 8386988047654079395, 11934278737196339460, 6305177852303101342, 11134011133043853484, 8621654192791103878, 9734538883825954255, 9825465098097380421, 9995747243772999389, 4036465600818228768, 3859961237152906109, 28025781510733902, 18323282057352173686, 13787831801320212751, 17680221813627664225, 4540161131827034568, 12716475003723904845, 12391756598504644388, 7654229051140227245, 13363874164596776589, 13912994076100549255, 16827941789183071707, 1039381309215392213, 2844266221755394115, 3609687283127701916, 8307425181742029886, 4991541892101053237, 18274387445592919111, 15822039781016387716, 2207669597762131845, 17525014912531490596, 12980240856310005851, 18086460074188949812, 13212241201703258551, 13914446848989750355, 8960688488680498185, 8280721304693125586, 3168091439330233347, 7459624328254519875, 8722181527923329404, 867524055345642071, 9781087113036429303, 11463588064264592703, 6460062302513217609, 14641300705631265994, 14028472759237614493, 16407604862653597866, 14698624311502517449, 9699644206637401952, 7819642032724311471, 6648184194651873796, 6785652908429273893, 12034713198904631700, 17044042000294285584, 17865270439471847274, 409459521139215119, 17169349030538675331, 13397460409500254400, 3223086155834463872, 12806118791502011692, 10945251653473391593, 14187038181893201528, 1379062842228584048, 6572877579317452161, 13819639925662201695, 11751997833286250131, 15305653879505866983, 15937318198600994666, 3916834520177810882, 136455777098086919, 1998906674226254782, 2678793333743071546, 8216505304030400778, 16410392375872716009, 10696709717341541143, 14534369826975926803, 4545114941919836358, 14455912067848867623, 14825182987747512617, 8625742927047872948, 11888930909029364421, 1923448645120520004, 5841585361642677855, 1678902994700570763, 5575487025172274200, 10820235401970218881, 18357042741456256424, 5398608110554953427, 5776060306215928079, 8346046412894917260, 9590705952692796393, 6169065315135200679, 6974402517261733402, 18112755714334821132, 16649672163850151110, 18254641512171887481, 14417386285059351999, 699374743449804952, 3471221975262121164, 7904413474493724967, 13813292031421262261, 4070472811790831135, 3984090995610882869, 9828488170535730568, 17394498119554055457, 13120214440478505250, 2552331404476675339, 5561458581140697770, 117165289830882982, 3106477817777300965, 12377685574781036350, 17659136652474921579, 12560363184995143724, 7564881219721786237, 2337673323384728786, 14633997241114115044, 18298918557838805978, 15217821505246848112, 13587214655802923911, 2769877806473887856, 17643631995769080251, 6608893619598953150, 11383547209955994353, 7913741911467531509, 16955348533900307691, 7912871158238722067, 2306409045493514004, 9654720534114336576, 11750430298087684598, 7383226548962220090, 10367987665593879503, 11952189214787471228, 4463830292088995943, 9230307053615750442, 3689673641424018766, 12723594305768251358, 12135343338258158890, 7517032632565434287, 11751732089663537745, 17685290238304503135, 4580288029152967785, 4769411382926275952, 6992135029727060478, 12546011918097521001, 2843758626747610515, 14128533006723270602, 11000393529169404034, 990943371943734204, 2196914005302037662, 408843253044400545, 16254399530619173257, 8300781925194590925, 7500674541908121631, 10748859545990353640, 12887969103459224585, 7078767787246602297, 2951170328484254664, 17538388248022991791, 10116613205596479804, 10772554971995564719, 7995734200135276740, 15824138089901673749, 15780380203898606246, 1322933304157407373, 7209325991126379929, 1389176812683311999, 1969456784877852711, 11991076752883355085, 3945801301803070313, 15843478349021554507, 5814119372058649043, 15532150807155834196, 11595151095950895819, 1934132775992293141, 8964599021986374964, 11337763862981219386, 3572401394681577, 9887355013740216361, 784739356397289197, 9257530338993195180, 3095341794017186589, 1021729553968607279, 4668584194212275164, 5841301428186152354, 9086752623493447619, 13910715971186147678, 10736261725362243094, 11403867932374575642, 5109303607698979252, 3067472194077675426, 11622920477498068073, 15321648001185591647, 2391061809040774487, 10627932706963823381, 10588148045286852159, 5274861230288302201, 4151967536750488643, 18114818878629760435, 7240831508145556883, 7604916641061645054, 12164838642178670908, 13611788573264323832, 12900158261621386369, 2265554563156516832, 10699675047448796034, 15706410719826017494, 889838421406183940, 12064023802649838961, 2106859537330416926, 12856813586287232988, 2904346097058900128, 12824312598834173226, 179073103297998766, 16377760214227788443, 8774649801819524246, 7416866834026023876, 5094344231628219243, 17773065153184293979, 13612562571842105583, 15716973719957732470, 6271058198188241923, 7225575574990359038, 14556567014976556461, 17806842336955484376, 10275250812389808563, 2167105634111053714, 12249919580681418338, 282341424633420216, 17427810997506935288, 7256526598837382405, 2910438164002417809, 8172812241599801800, 912633102961367007, 5525159029627619432, 12112127477922441222, 8349365708327985442, 2876769562008630620, 4130319271259320458, 6646219225894982360, 14501429457962816496, 6999012443816113806, 6938362421540460138, 2552478771695773599, 16640753127234554689, 4367614088469397870, 845077469813105953, 8565969344966799556, 14868373943617718435, 4374289632064122004, 14179390969127699037, 3746244072641991738, 6650684170366529969, 1156776226344536320, 16569048598507997702, 10500904323995667803, 76404609390957522, 3204107627390577776, 7919752185603947070, 12287058541401227907, 10057792968107412926, 3313493207448760060, 17321668743936692010, 12428304586166922333, 8214811911711406475, 8187994531964362117, 1399288766347374372, 4303610185796088043, 9902500046629634540, 17134362388619609547, 7245537949234038150, 8798128670566703439, 4550705649346233231, 15900743787370598971, 14349206976115939968, 13237319809453565703, 7986218718197633840, 4445306913628174982, 17523377283478536848, 15869175296589138189, 6875866836096651742, 4729714721957214338, 12295038434421991393, 15071182355200368343, 6230417517277359472, 8658921648194997479, 13581246485097230120, 16848497415726011185, 14596767993653657056, 1112751896751992049, 10560305434142215000, 6670174685842019889, 1140398884920323835, 16095548541813098155, 7879806146338010202, 13657067999088754584, 7856489932816764385, 12871336832170357690, 5686448293353332478, 2627116174791090427, 3692023182949837016, 16176141197415217523, 9201856292034811612, 926807372065691448, 12450973751451148371, 14937781066378006669, 16062988608962291220, 14956832395784021123, 15475070517421877199, 4388553799040905748, 514981036929493980, 3320745853754517953, 15094323840878378883, 7909086258133820627, 10682497835270137882, 17394987675528797811, 25355038529676449, 16834042988787234418, 13235483300242158321, 7468040834600917110, 13862612402694427043, 3348877881520513104, 5413456664125739577, 4137413977380314299, 1768428876082451011, 14324060255576964855, 17733064329722323014, 10904641258831862194, 1149546987623694426, 9109229545316137560, 12200582815616469004, 2398747504128161110, 15327274918768290792, 10762166278556566159, 8524205176633583644, 6394606860367814152, 7405507880522957328, 13112313044313103818, 7931316762571006344, 1049832388515415194, 3492564241824383315, 786331443930008558, 3507567181301102205, 2687877756015865311, 2772834238856773970, 5167853163837127726, 15759397285491541412, 2329975229431437168, 2604342499220657208, 7408906871097379482, 10521040265103316187, 7887973066491401875, 6391751211433288844, 14914790358628123597, 11333325361673093748, 4642148536029813018, 12300882694664625588, 17411398249809294287, 14333123980946828379, 12309368918462069452, 15826816811681626606, 5296580153534588014, 16278266287058038646, 7236173950767881444, 17727175182298061132, 14944847113706091420, 3578470322777963183, 15025840902510739850, 16501299091883145851, 8719025082635333837, 7899485356378876991, 2355711458893687531, 17588865521019036707, 3830682242990090822, 11693183063751536846, 13631752182914208081, 2123524190463011807, 4650553808564524907, 8074350577195153054, 16957234614883724289, 5474494560402078708, 14435632309789221908, 8324659940685893352, 15124706564794685713, 17262166696099225516, 17425680338650751875, 14949663672500205849, 15230629423004226484, 7274218845048209009, 11704801633928369460, 896555431441349362, 4280034659312279965, 16875200820782602118, 9174970307498921653, 2050215144604993267, 13359977367127407112, 14711770211520605009, 10305883990514053652, 14243668914044274939, 8962924817913079214, 8865197412138463237, 13452753020692999719, 16160908983680576837, 4527606598325593866, 13393629820910830343, 3008483664676551562, 10429824536350512060, 15759773693202435006, 4122362486154258185, 4930973185666129419, 4967904752797286356, 604963844285921123, 6033790171604861512, 12995899222527209150, 1361820731690624374, 17954047256929389892, 6084204499072546000, 7373760755277647599, 757834431533960093, 12519595897143203022, 11612181840974938965, 11648421016614858052, 7847539588650547192, 15174214862630525998, 5208755911153244736, 14735305724375626703, 8416770575884994074, 8079627489782250993, 810313000358820463, 1551526950144471450, 4372009068462195713, 11746249718881761183, 7689819205974227706, 17706606773327520602, 1026019783549249932, 17821408854191229524, 1608642338721240819, 11513845358338617735, 7036463096241111768, 276142253289084245, 12025045926021677477, 8919038314400082772, 8522021301062339335, 6790640129312018157, 6650561175312982521, 2872461959208459781, 6186659436482600552, 7383574082159331498, 11079943528194619626, 15169122739265039875, 4299431396595643064, 4171528693839673837, 5296351955506997449, 17281574886192116712, 17505521084744681536, 6505802468568135923, 15438016827959189698, 17798484637477674296, 3458310176238002976, 4840655895591349675, 2945363108486088317, 7905974860375731486, 15617898255242479331, 10719697479270618634, 13230766175027884452, 1427265921829621053, 13529137434859697895, 8496551399499286740, 14902393660389134493, 10370405810382191496, 5597770447406803347, 906416015126826423, 2923430763553847320, 3717127356415189820, 17642697277032721445, 13226411833022622669, 4657111172277953937, 7510326897784648042, 4976019470382810851, 12409370753055737912, 17982501365577631236, 5167250117703819877, 13795780824732185371, 18375721694083910193, 4305821651537959453, 9042736940191119838, 18012288760503407961, 7780432766160585086, 3631395250074983333, 6917784392834614378, 3269364253652190459, 16216244974361045340, 12462052877380985523, 13429337396874868238, 2901995949834007423, 8324912604107249136, 4046041213515691403, 8532041554620593015, 2691914585451529652, 5657657248678354145, 1615491109570394758, 17068388632185410783, 5785776953807808055, 8542607809462668358, 8626218530250866226, 5694480181765273313, 3253768038086905176, 11442299070830284893, 13213351430922904273, 4845457452699244267, 8297014681461173826, 926925108586705612, 10223424826713644713, 1107164125589966550, 12808267190491625196, 7719999629155591162, 3745040087919610515, 9820476130442509017, 1092780349881208870, 13230987022911817958, 6374861197680867003, 15158965827434511842, 4432174247230402207, 3985399506268352575, 13014317424491422109, 10786051313160783342, 8209432305695297754, 7650347535434915407, 7228316052019031759, 15115060926505285731, 18041749756714163697, 13805421124941276964, 15626187196831841385, 12000983689541280892, 1869465635944621055, 8186349365092338580, 5539494636523652234, 4119005348859068540, 9276680146723612338, 2782692826846348494, 16255197737222935782, 13829688979505629071, 6466799041989111910, 15323154212256675135, 10929466527185751896, 7462344219259644327, 11582809705327443973, 1574861213819188567, 12488139299949259808, 8495765337151339972, 4116157927349021884, 14567373431175254380, 74592506015368356, 14395973598404780521, 31299444016300473, 3897075034585225473, 8220893903367471911, 13995701512595197266, 5894590005918217154, 2292982799369703537, 16757626081962612738, 7230191469817755090, 13156196644231886378, 15774296029175038492, 11610721118176171447, 8758463007081061574, 1294009792595780000, 16882784351121440478, 17178841163715958000, 8579841626640635891, 909128779016119487, 17718149046956472279, 6569929665091731306, 13388580452599061165, 1369232660968692869, 3618707707250231687, 1872858610671279949, 16081029209090331700, 7681381066653240346, 5091329012735733982, 4063104581536926, 12501336305061951491, 3814900233519619427, 8942243765217443635, 2100629788442798040, 688457528011175768, 2796544563755412616, 7664305686928416295, 7141314807693813958, 3314870937282698344, 8754370440208661375, 17943037319061184690, 9011604919656442025, 5201529408853349227, 17578563323844990188, 18132385439321414897, 2095090717331241653, 10464760013960411160, 9855955716538124218, 2552713678583463303, 15899372455722512138, 14691886153112551412, 2658848558814864886, 1930877146043124652, 1101187125370927245, 16876082484755302112, 2399142349212663439, 15326754954953449524, 9823807421716460426, 11958298553839390111, 12987594370605934668, 4623812494583413857, 8086181835757565103, 15602478693583248029, 12338384936999861877, 7257102844287971859, 5569364664289325136, 9693437747324762683, 6124221249978735256, 4272824117789590437, 7564134917091153406, 822190601621341275, 17436146111154492940, 16260403461547809751, 11424156871572914914, 3794594592840828718, 6632052874424669580, 7843344822111002637, 5809600739090635531, 2408133071839085376, 13065582504473053282, 13290307874480486902, 918451918740548786, 11706034288094398895, 12715265124302693074, 2103354750038410033, 18060433131389443669, 12134131584748253056, 5217145446395674927, 12041817808417193868, 10029387751849386510, 2676854737356439960, 18168618840791349556, 7930445957413840893, 2137610685391114046, 945615567223592276, 4496864498256697390, 16288525329844090218, 8483324347732752305, 6037078012831478134, 285678617663763374, 10717396691326326934, 5406209629114279769, 16125590500750364736]

def kLanes1 : List Nat := [13842433261627351901, 11003785849293087713, 12064101814480392344, 7504122383001662412, 3384449652876711943, 531972266343494043, 14085973681489691176, 12701867288679889783, 7552884062640196154, 3837256064088738318, 7959596639186782906, 11166567956873455175, 7414434410893015955, 4253772423675396936, 7688580945535657168, 1092089527119769844, 11909735831689803236, 8809537746241995505, 3422440025403003754, 18143365094020978348, 10668312252712518218, 4502711746050327587, 14925216095018197428, 3049025110088155047, 2586636505992662969, 8902598387750622762, 3182305618329935037, 5922625584543807965, 4898377090331049014, 7012508624278251996, 7243901457653477214, 13613327800910993692, 12687265594002561638, 2188660512281456595, 10669296223572552918, 9213226377427865372, 8122312151773438975, 10942542372589414665, 1676336874972501348, 8052987718980044096, 16546314993864689883, 18334277793867555801, 13414343933881068351, 7676329066078798239, 1568153778627619971, 4618390302613487092, 7173720181281102367, 16758478738983521616, 11216492912956998299, 8847918951237948444, 11799572070973684865, 10156950115502293061, 2837494254297809151, 898387750818268264, 13753524389757736875, 6060057160822243690, 6895788967181589907, 6265412992779066124, 9742751946066344320, 14560399871683567772, 13794212560032948873, 12418453511543519539, 10106899331623928526, 1272909601542473331, 10436795756672963770, 13373217697405646747, 17266253014676307490, 17454487611921681942, 9419055251439820376, 16853818292546500141, 17039084896498788406, 1035354251313546338, 11543266214528826361, 3231115551492289822, 8707082008352657974, 4836598150501963430, 14522894618341192344, 13433503956469065168, 17997740849010362316, 1536474078456739397, 6691764265611188054, 8540328025732638074, 17264508735484853564, 8343976860130102235, 13212622434761326555, 11954482424086157390, 12730097939730791708, 17802641068754604102, 6113343031545522950, 8516434570237802554, 13748101746442255372, 11067085686631469435, 1319612134044987953, 8739208268078262984, 11206196069188169393, 14727014894962417634, 11725539761928479463, 13833543034602715588, 7332064607379864750, 12897682808616942699, 18192842181436188588, 14679845557523226903, 668252256108300709, 5702583609384057879, 4987097381030347239, 15923696882416697802, 17258487541021900255, 749035809053298220, 1539921573194115147, 2716826114670065811, 2416195127627150772, 3024202877326128885, 10028840671252423780, 15485301036755036055, 13138483118805616268, 14206225685692566449, 12951922123567691663, 18371166372257235689, 9621665064569908373, 5403031435806475388, 1501590566155573779, 5640719406109009150, 10584165044176226585, 16657838907823876366, 4644357703433473812, 17612398893642069314, 5712421290945085084, 5124514439522692638, 12876137231677817011, 4566188834251467608, 16089523462853938288, 17130790350718376136, 5903191421147944408, 9565268897650038481, 1082695567228542482, 2081683394574056233, 241385677184426115, 7362970406339589622, 10412958074345396702, 17409849387764611820, 7507767749824965110, 14246446530470348661, 3416037961736050571, 5252015640441657989, 15888208215824684122, 17156436661836939262, 590890889133335545, 2551036643066577249, 4955769196164555130, 15667482544404857585, 16830036586013512946, 18024037911375473224, 5491581861486138003, 17668298240472038006, 13761339790228186290, 218450603100081938, 15179419088504748098, 4211292758768749320, 4829870044542484171, 9446167550176652084, 2204879211340461990, 794936075859138407, 5016455230960030058, 14796545484161255753, 12401511762075887115, 484391437232864980, 1911582356341943071, 427797905232461339, 5046441510012626616, 14078475327600520915, 6967573327007898873, 2470899245559387295, 11576510412599839510, 17201601367421704821, 13783078157908997642, 5251208653042342775, 16041570094542820370, 16854180683167195643, 17189956011747928700, 18313071620062070105, 5659226695758808680, 3017354663606978036, 5737315275978979046, 6128396100125676505, 10472465004457632636, 4232915290959156414, 5396063718031964709, 7605183072766607667, 15968808929013939004, 16858774394351602535, 4499285770679440272, 11511199788373311641, 15412520548193742798, 16044132317095640303, 7509849485068978587, 1763303953125261098, 9213162022987682447, 15856895152899615124, 17575642870798669062, 9980955963550193792, 15087051910670956692, 2003893491545102690, 17580899987847753038, 1525503931756709529, 16549271669207929851, 16838249955231464982, 14042987575345806016, 11010677119035566545, 17461431895075819617, 8436807498049698405, 133012895633646595, 5507452061056947732, 4387136171929776010, 18282812567911018842, 4221083170387769802, 16366982444431130089, 17576115702553707315, 7753513664210781929, 17612934512841737022, 9478356756129378819, 6816458598988403961, 10129787969472409687, 8092057032816238442, 9534382642724683250, 10987352512697878250, 10457974568413793581, 8707931971734832866, 12478604328746418161, 5957950536383025008, 16225785074708859394, 7370965353635623936, 6366386726414972967, 2674319303861975679, 4628132531321288211, 9965649435377910850, 905588742662541228, 11883595123948248646, 9333865505234109758, 14792125788656327675, 175853470089581421, 15536453505655611525, 17101740278474077866, 17090478301842161876, 12666501893604850767, 16071712614909037596, 1478980698048305673, 8171757669097459915, 919158790654469217, 5218749854007737358, 14308086757791109859, 2078628087802692431, 18375433647546730498, 14353567409419929740, 2898134527854098291, 7497449255251088994, 15979856553725557089, 7424598828529209084, 6489285353102843540, 15875048394793133131, 9233794148745105256, 12228244566162244845, 13188344777441343024, 6209469624894685474, 9309883632996087286, 7176459801558533126, 8845517180061638341, 17160497491205584303, 15136883788588925039, 3173986386032339114, 5671167211364647516, 10509899051434987666, 5513873518575939834, 8246747378679254880, 17954197339530032920, 18260954300714352802, 12444649456310908917, 6365579402082882024, 10059054467755315245, 7651167464660607282, 4009111301136435092, 14268243658404808773, 15618771187866812762, 379594580763549053, 9415269990261086265, 12143804321696315338, 12709864137150120460, 5105991362792652949, 10419816537764074100, 15489086033907060327, 7566395238772411130, 14253702704921482317, 1618403686015586330, 15412548516431209227, 18221965139371757270, 3591125792664376742, 10879783058217066058, 13309343247289375546, 3219438289860709318, 18351637560417276703, 6447726557830033098, 8835692756288996805, 8705481280658812271, 15606017340768851616, 9622968433368668796, 4293520120476329587, 13002400581380696217, 12068160497758735082, 11727867585763987695, 10783868154785926890, 5767578970921454850, 9899918059192859316, 16297787157390721777, 2976419322202001655, 4317503339961527307, 12826478822732867526, 7452967306257367699, 90709441710404203, 4575526442514489881, 14763571039322080284, 16574210293666292919, 15664471952499280114, 3100236944872922860, 3705545229128268936, 17624607131917163329, 2393492826645306443, 5910645378835092717, 2391103338366628356, 6846892136114512739, 6357475047204839752, 13080031004965253665, 9430386423769402779, 8661356014514808773, 18147581370117351472, 17187616731448483892, 2903285845164230057, 15376745277475487249, 7477252423118749527, 4090068408166729063, 5529961814228567741, 8249127426592518391, 17757420810085089763, 8663317633982052478, 11900685720532910716, 4534176323007182224, 14481620772863810889, 11764416254422327927, 10679423277898963787, 17094716449358865315, 11775578671516428440, 11618783002555986061, 9049785989355254615, 2978418946522303223, 8100854566363170985, 6001846001394524509, 1952964676881331169, 17076571511520364767, 14113243075801053510, 14704459260574723469, 7464326169577660941, 3092675767580284097, 16542326818872584151, 10956838158616420455, 8302701295006050240, 11775370671975468702, 13695546814582888611, 14180600577682550971, 7386927705214320264, 2553384225286459987, 9270620868877653608, 2045802125998720979, 16963368463768059880, 7253420709415993769, 5371633172195818002, 7791893821215481374, 18293200541706832185, 11978940347245521866, 6641773716600070389, 12760720312687385156, 131960489422286529, 14282844353036202783, 12224542839111715477, 11729787291207047042, 18102366159931732424, 10099464983025334187, 2881182693896297089, 18214278668593565515, 6517021461546647731, 10180777606846665318, 15874410163990817280, 17108479861274734722, 887523875457237526, 13633663707209913260, 465902254531905339, 8040819994458668438, 349505364282346192, 15530285913535390310, 17344607954266194861, 9681915343621010336, 6630248319556100281, 1817295372529059045, 106563667876172509, 9630752979343803287, 7817850254878580306, 14144756712946586051, 12619496330432807173, 7548288033461591369, 15826385069817009445, 14390108855297385210, 6389455286954242730, 12508056433682523392, 2235245228692298887, 4126816774620336266, 16490664155481675525, 12910053095701683001, 3507526445245439616, 7202961264283355374, 1642606360911440258, 15345708562506025781, 2358053382267998957, 2881216913530058091, 11638652985291375606, 676229795682153317, 4878684636331039626, 13045905014795818501, 15609911228555774831, 3758251101561739529, 5636728794959062589, 5908426622663510088, 13002124261527923488, 3080514287248879662, 16316542562605348006, 8578662911076932201, 9598309056190783984, 7471019501286940973, 2477182179866134714, 10885484540574809646, 11482802962663934975, 788711168881909569, 9454759604724266743, 9842677498706014750, 3446781211889186646, 15855570708120897803, 10476134903198169257, 6475564654777814956, 4695192881690530710, 6452491768632333611, 15151464175000432539, 10848753700788822479, 13509264738376223544, 583191193717440057, 14887721161442938766, 13695937471592949983, 15450455194424815512, 3571233090994441831, 7006456348217338272, 1357581957554145339, 16836273407393736787, 2587618276650982652, 15993022554538344081, 1516869226773324747, 6478720156622586180, 12471605355435853255, 15586073161916695227, 8561239880533848056, 15482590038298759840, 3171662706237854288, 4183486401939846983, 12329909761899226371, 11265885566859936844, 11233679570569536136, 11182229507757263020, 13362736889592803785, 11183224449175662648, 10164396876165814694, 1070642570387634544, 17424582091649826747, 2236012246990361420, 16604562414561266724, 5736350737363136980, 6972414545074095249, 12956684258800474329, 15604752679639411957, 10220178913755755968, 17100713104014514378, 7664914081025597361, 1779454499788346294, 2813664381178800522, 15123040107620544057, 16867277638992556837, 9519430881182479577, 16262128257029924976, 2513223432712427914, 309329159215263323, 6635408376795165357, 3939965458713774403, 568161186727418462, 15213862227103807365, 13635027289980900946, 11210034748219836696, 6982313810572527594, 4253291355237009576, 8337113519409608794, 14486975473196356063, 18388672475710265914, 6793324159408632436, 10342825305113765725, 7679183169762899031, 14969861380372738377, 515372851642595829, 8961163167317711875, 6459932832939573654, 11143004561576100783, 6826298179252030382, 17647538921618942650, 11024975008185860774, 15687561116246277532, 14485557505257205121, 5291219865543434810, 11510071321363330225, 14361969924641576809, 3415359247244698755, 16711044205464610650, 16827194848637893726, 2281561756322068809, 9453921125678911572, 14213836551755732508, 14495118267477455394, 18169125878357811031, 3340163955037727190, 13666369662493376621, 8121320864703471231, 9388299745871832793, 16439213135361524088, 8590351059864511251, 16532881650171496376, 18035650230912530085, 13847341749581873874, 4619622948566857121, 17001369161909310643, 13610490516910716441, 16987312146740354101, 15905234422714284364, 5776470809360787601, 9927912786266855896, 5978536023902739563, 625601827807246338, 4239751455302385854, 17599827779653807565, 3080385817890584993, 5267715174289360245, 830672036702216394, 5853366595588747635, 13969787702246475112, 10274281689940406949, 5999007867361091291, 5688029655459706605, 8718663624389321924, 16775210783817569469, 2030139082966764616, 5801189586567100680, 530246593919640856, 10460250790744167618, 6246380619820771781, 6983367274719299668, 13935963875505178862, 5030276975710809610, 8441533721749931202, 14161944526548883274, 17763047405864151953, 5760520356543644652, 9052163437472977183, 7855015864671002606, 11548361026045923670, 18373497476968413227, 11791153611821770465, 13919521813711567527, 7510340382660032300, 10536227787171637805, 15277003669373498040, 11260698566448751002, 786219868939877460, 245278387170046373, 17334530915770363317, 4677830897438768940, 17378586231096616865, 15098158952622140338, 9089329774149275291, 10514354761725771625, 16547246467906158611, 18053127987057944024, 17794283887000415287, 2805120323100185375, 5139461679144104724, 17845818943027293537, 7801082181119648110, 10515352705764188357, 16292017902278495681, 2406716194257361781, 275168220922654728, 1228987977985486859, 1922112866550368739, 17524829059095673695, 14352196480018190695, 8435940913074167023, 11076512815837207906, 16238662830617190339, 8195689902781141945, 11554229684142479553, 125499828421725770, 6265149306901206077, 5298442058808963290, 6449117193798416804, 10093519967384557046, 907015592558961658, 6982553078438567884, 11590617865085102538, 11990039952184055328, 4939998979302067911, 481468135225897532, 12197571240102996500, 7507012386811428439, 9896195984154444962, 4068727663537747479, 12166248287622193356, 12349410176441556169, 8350430288886334949, 5296550785983843695, 3892418888163043799, 3092416712803446360, 14821624432892742176, 6836026613499340016, 4740560583729592912, 14011096604711478445, 10920846960627562756, 14009317992305968531, 4940731149082812618, 15583437209384373068, 9744647556517372324, 12814075033087118295, 567876290595100889, 1396054816677404573, 2886181753873445934, 10574714039451395743, 13554339408420484600, 17232210665934959603, 9567155553438975486, 12595309065129840193, 3491228770729931394, 2713915892162292147, 8488473422375875698, 14427670777448317974, 4959408815124542404, 8788025390773987265, 18304012067653166299, 9190226979282898325, 11243720683030814637, 13584070919559424007, 5384451253014194723, 9731953393792979801, 7473653307014068133, 5188187764565702720, 14109884808627125232, 3602061183962744222, 16259357496371599914, 17918739978836172903, 10523207916268962700, 12628324370252471703, 12171156856915868808, 12486621932266218762, 17839229632829371817, 4780902538783380289, 2332391254551983071, 10441532532603533554, 5789188575141042192, 13692263260142021843, 12150598305324643315, 15458067550119484398, 6630675395930513233, 10311956019554165538, 15015141305016501423]

def kLanes2 : List Nat := [3579054455730717565, 12718265086827318553, 16343682866912335816, 14087668202917662641, 8699155913199690095, 2524724394142765184, 2765804536881420239, 8494574004638229999, 14725745415092617214, 9298389617980888062, 17060023707313902753, 3314127311707841853, 11156535636996329729, 14539031981139124723, 6863761922221868319, 13331237185119487418, 1360755281712878916, 13914664345887819567, 13559514140912945693, 6843374883174074459, 11329098928044861882, 4231269370948997901, 7797571413156293194, 8239092346113851034, 1698673655911709634, 14646307755013828228, 8603417928570173332, 1462811042843528304, 17666568079717803421, 7594795278635289245, 15597232432946461659, 8811163176972120439, 4970880223312703216, 7922091442626966511, 16435481259022088789, 9272508463178283364, 2114006308169190129, 17582203657353166697, 10469020332305450175, 2186434386448275139, 17298347055539692705, 11624492950005494502, 1957781159670568150, 9262424806761472300, 1405182482644977788, 6598229976325254315, 7186149360076772504, 3189743614194174184, 17322285351930496532, 7296015805310939688, 17581199278366598753, 17810797573885462500, 15222580749470513542, 13991867758382785482, 2337528904021418288, 17266643117901494567, 968532990345509816, 4496193940074082216, 13892664557234343829, 3293914443818230, 16735405155207245111, 16055423194104226912, 15159975205498632523, 14046934248098740009, 16826054486823916373, 4159529732167126061, 10630935712805182327, 474862138281924279, 11986393869992333431, 2678954690700310147, 5628740356961671407, 1374505867293535013, 15870978320742617908, 6321276439085753484, 10325571781242300734, 10906248670148629161, 18249434202403856651, 6080528118067362731, 13960242997935248743, 13947749551077873067, 2668538613547158220, 3500305142744982147, 16199882416090640461, 12515756263517338134, 14098332098179290237, 4634162187530824626, 15616846475424428065, 3808856743935174762, 8952720478909609887, 2704124442385514025, 12672052417498388510, 9694372725386009936, 6566309119944349176, 8506803685606317518, 16049626726985036655, 5773405186852156280, 11611874318712432822, 6653095370721116461, 310233177253758781, 5670931599136396122, 11596458146667029547, 6965055723532819798, 12567369686001745227, 9635258286401015759, 12866760105085909602, 14861237993246857081, 12165454112026547926, 17736146789143448009, 12105323520042969137, 16168138662689621519, 4430112981294371429, 1201066349000156371, 16655476449124068036, 8625531117812059007, 3440217933293810145, 1740310059857973906, 2667046023202583239, 1437828794452801402, 11467258120035164568, 12431937934898894065, 7021010876805666862, 3209691748882772717, 9799187277183640089, 12092546413334189221, 7857163024623748021, 10008710046061320571, 5239858927787069026, 14922180224554183206, 11198960662990839695, 18164542289887476412, 17114592139342259043, 18261412950869149360, 17090604482043555032, 9443996377588856445, 2141826431888807505, 11418459168295330284, 7868993767581653770, 6272045825606284202, 12448634967661866379, 15413626698829920501, 17332307737818051547, 10041092392187470039, 10966133700984776174, 4542587938478861963, 9227868027674931164, 15019744997681872446, 15304911246404348518, 14559019735354219341, 16165807254660731587, 9395895682605349829, 12973254285512897768, 5407640348814886400, 15032377200937265488, 15882178638837101841, 6393423231073094454, 17007471449438677137, 7635870360028657366, 11816894793817947399, 5844673701596546997, 9454288433997980482, 1065864645155748035, 3402001632375294973, 4229806578672237308, 7310220633403487348, 3767270586959805446, 8206398063917120264, 6275897034997974043, 17659218117958360856, 974557929848645658, 5261151742412746171, 9818922096468327816, 6802162021206090802, 12387176750363690402, 12063451631678997203, 7676107371384011805, 9486759060856310736, 13152194084788589568, 17783018928272007171, 1686542451895188400, 15552058358632913064, 14105224672013703689, 14854241581059128695, 15615271608650873139, 12288517440493452785, 7847128782056603662, 8574771755077835943, 11494064827567779225, 6925094396546795984, 10266864823236570399, 10207242300002249705, 11113987833474290978, 7806849365476123435, 13134992192907775574, 18187898726238654431, 469107578443952544, 1386892480448242578, 1448356641489143212, 16236158745810371899, 9126853576410294158, 5645431941665631582, 10417998208133501273, 1246094903463324803, 10853007866494051158, 1095330498162217113, 2778321233238713035, 2102789083155957649, 16561244360708796842, 17442405209870457982, 7458159249021245169, 9095313109912215769, 16628823934504849651, 3714144180241734944, 16133909142342630258, 15062336293511056613, 8197292698937771253, 13223486759528926091, 4970847707123851655, 17942929704262383383, 11291375349021669791, 6695479656152809799, 8833742156397379867, 4190695751166649338, 3488264000962062702, 12417112864161807700, 4094237733521806969, 16032523239420661692, 786165798193218478, 9896245354311157329, 902420169331229334, 636294990926329805, 7568049157669669389, 12252547514973727384, 6906607087836381604, 3327743713065581773, 3415117543871382786, 1867455785855416961, 1188530006678533801, 9042329991869715625, 10672831330205844189, 9279234665527581089, 14182599409559793868, 10808121391848256950, 5750461902009093935, 16448957502068633880, 16585130403308638966, 9395085068351740361, 9060222459929878983, 12134303536526889636, 8427678682975892301, 12141922383804315042, 15552115713293388703, 17432042287279579762, 15052347672293415830, 15130598322175520529, 16926173442967582887, 11934741316328572661, 15356957349446736107, 11165662521367599320, 3375039812788461118, 7136693216955967259, 16433863580012921142, 5902093889565018512, 7778146406498417364, 823770817273062967, 8496708334917798449, 10646046859810914806, 12741702532874964356, 7199184979948345801, 13404826252190533110, 15798897522317170220, 4874634766175453025, 11726742135189582948, 12885508053953057762, 8865680536905248981, 7383110149931464799, 10458529306813615309, 18130224918178970229, 10227478207492929331, 2303000702134461539, 11786366307264142994, 7817489605419134998, 11813317835036862676, 5704888190258695505, 6719710785830791211, 10972188439763942065, 438264225836799554, 14326097907475857551, 4481898260584765727, 4775162019473184899, 9226528748526478630, 610423641666906364, 15223833716655279611, 11987550181600063891, 9716857835402372086, 9355834216490176287, 6618378382147251457, 6326494000580983484, 13707951254275726784, 13101727674694945687, 13904111698259147868, 12241446741675196736, 6670758452787491429, 11298107916953464738, 14724821821075283916, 17689967867296983658, 17629138608049705346, 17989167198183507926, 12789436348079881502, 1314393657523373899, 8171111870749318767, 4143772566116784342, 16895555316715526192, 4947483592557173774, 7905418372472827818, 14383245116660791007, 4372113670388725069, 3587632212443385731, 5656200029145423279, 10491931688463389172, 16689519318926243403, 7017674715742974176, 279533988151718828, 6086946752252429340, 16960092750389846083, 11845787111012746943, 3755278651365790886, 13030769519107731902, 14736469142816433848, 10462065507703471332, 9853959590237766844, 16747878644134412849, 11132602414122447554, 8302517173152536140, 15207240593967954486, 3626117652033141750, 10427971326970025932, 15753738210907209709, 6347203423482356254, 2941248986882221759, 5948092268726719339, 2280408923147909360, 6221560564379096855, 13934877504321058541, 17045179806724885209, 13124282780433344557, 4312085171533614191, 8323549855223570899, 16127658611367826018, 18219760851734219250, 4425126435264597262, 13202386968591702312, 17619770125284930540, 2291626692074904381, 10284428529581503529, 15202747574447869710, 1489821982418092642, 7976664133544379337, 16097671748605273016, 7902702401977001823, 7893562755624061451, 10224357983463285423, 13346437720544830088, 16049773443722699977, 5103783906710733165, 17049023101728797085, 3834613396230123215, 946467363118732387, 12680090019086091166, 18104961390019870700, 14793080967590092729, 17709658579565605279, 7286118087058390726, 12703903145465333473, 14821657215998599939, 11702156757423205784, 1573575945049537737, 7136426968073556176, 2259335592195500228, 2936373995012788769, 17471226946013175713, 12954752805398564784, 3890662366882425873, 317916010669849777, 6884440229451676336, 5219336552251131286, 3616106607206424130, 2945948457077518134, 2912382162450960800, 16430636854362723012, 16154772154284125835, 13117197860784885782, 5067966148106465760, 14088873666867416765, 1387670605432707805, 1069627010849852427, 6233531580299748268, 3507454920852950242, 8105729581447332840, 8206795249674330857, 17509367929329993875, 16009810436867901465, 386329611979733451, 13066487116037171126, 4528199304160747192, 15760720707158594041, 8281264364706455701, 4480525422142827545, 12011009444236761236, 2319428838110490813, 4197349930073819961, 13529651601809711057, 10054506441245782534, 3833997255094470462, 18410878229104846433, 17788388894547441411, 7239586719443158626, 8411124332611832760, 3694299300430783864, 14254293252878553007, 12708002946843556566, 17273740949978996533, 17315103957708678685, 14593503286609012137, 16965005457154947583, 18204497545456689853, 18311126391924165194, 9082029189375193938, 15196157004293287091, 1068877535765480388, 15494655263894926253, 17225366561006834732, 11080105007342868602, 15070752590704958524, 16415320829574841549, 9779525523875565806, 10814479296841057341, 18107802400178107851, 948132975891113717, 12688849000224970675, 13725067561691413108, 12081348351836570983, 14498194397617777540, 6261143378984964967, 12251401430214458018, 17419939034211380744, 11497273815632215818, 8207587933873978848, 1559203695894240071, 9326512430222429055, 11313846555000060389, 16237669585720244866, 10785506478903232200, 7198272937592835103, 3239192182160188034, 10551496629450493799, 13913223048149551424, 15295028033804809476, 10731814476025920743, 14684528043991102900, 9344619829323483438, 11656549876311446172, 8505740522460137347, 7788039648541960254, 2988372961452564662, 9803857511929850929, 13983731973935443090, 13476834889976496748, 10446432429256899577, 18389248697412398789, 9846847651231286485, 11428501017933172676, 18062522587245383331, 2425770668476229766, 11142363020490099316, 14203336396590040103, 612149867592573290, 677501692134512488, 13381722050835567112, 1065424431860335943, 10587894161663921210, 13576344288619808429, 12002136969479759667, 10677668993803204816, 11384934913938840788, 2183946500025672930, 17915063005561479675, 6446965912362854766, 1621300305453576616, 10387684902639490632, 16162165414166938731, 6457460475882122106, 8352034631274052308, 2283253029610852466, 909062554223613837, 3798377495840755670, 9881660445465188681, 4456663678947519295, 10934951881240014658, 15781669339585397971, 4202079327485346951, 11321216083533628492, 12146439031452398101, 5859025696886231394, 10926343573695851924, 11366440545407510673, 14600455217228689104, 1661944134896146518, 764119658446524454, 9978388350212387744, 7248489672858493905, 9197029403213233399, 1838026535236064804, 8711540049392651471, 9023661127217480243, 15879407939977985350, 7164589589902590457, 5770460762384650651, 10890165267935736170, 6536623194368400661, 1948709632083038120, 788514886387768504, 6900113230849037171, 4658531112285931502, 3309812936515161855, 2554173919992263552, 11147397357585391713, 4916537862488749781, 11982026442153126168, 8873383709361138839, 11754526687542550558, 11350892212583066412, 723843639075653869, 10566210808050417355, 3295640978554071112, 13241229421232310707, 4961635326101916821, 9267536177130057151, 11131953953769008442, 2063911855220842263, 8942414018414165123, 4925760424325324545, 3956520819147267553, 5370136272797817336, 15122820373002688566, 6342602528013003311, 8367300156349292709, 6934551694248852089, 7093072199895983063, 3951295882073882739, 10639217157667358217, 17479053527838661763, 188906738246342847, 5746971290041492360, 16326936203059093264, 18017629562890637022, 12898796044455609343, 545015768348206928, 6823454693952837268, 10924024240884805232, 6598458995514500416, 17759550640622926252, 4171071462010290101, 10309545204185249086, 5969299225686433853, 6320248490603073381, 12968001977901602091, 10307142587295781678, 14428071308616659605, 9449819712477611132, 11565982045274237968, 4216165185133462304, 9103323027580917824, 7398494957687927601, 17747630715170371358, 3753650644429762559, 10094421886877467181, 5300498158320098458, 14919712611697296291, 8189285661639463714, 11356655498075160514, 2064931987773798039, 9312554684907495128, 15428509787732961481, 5662482782824158511, 18370419633504702480, 213595188617306918, 11142928530455793720, 15208199134768149822, 7207099779089701860, 3970948885246354030, 17048384594814047702, 13567863614319893964, 11758272112243567964, 1621276042224912493, 12886905459383204725, 10438516376735646998, 331518420712617834, 8384786567445487400, 3709816366473137157, 249947763466304859, 15710986799226562672, 17282986749852195350, 5209844000117440391, 16581613893564494831, 8456644290414522049, 16211840953142117267, 3320844983597882102, 5209940246578700715, 13077024109538686495, 194703558225917937, 124086207072204256, 11032744059554054083, 6680011483468913684, 14235575496951199627, 13682537901945656351, 15732758089728910285, 14138914181515879670, 12066550016663716382, 14687791620870570094, 8181774306064394731, 1156384932264023997, 773056725599274701, 1747040404826791716, 1025248203899162177, 8051215211473827563, 9591922345818652504, 12097634824861523209, 12667473960118429855, 16673550005338768122, 9261342159721894817, 985720486731282110, 10036150634261353410, 5106331167357874265, 16695918857939437302, 7303336228867085154, 1798958476661134419, 10666824830021002447, 7582463778490116963, 9542945121440717436, 8602557053199926581, 9908430190560414643, 13991899154653573684, 2133082728510143146, 2642841447808743007, 12153136792324478156, 10270432573605009315, 5768146604390645339, 5763500703828871319, 9650245097658274862, 5772053502807467813, 1688491319008397161, 3792010831681263185, 10303670230654992053, 14622857205630968811, 12602854811128056754, 12009305581426432923, 2942245220631229162, 6175664107135898733, 14113128109815480702, 14165003316144896279, 12590202269988072251, 5023454244723203413, 2701295964912260962, 2028997641552943377, 6173431144745374265, 8733098949482334322, 755595194030349840, 13247914281814148520, 16763940108541754312, 4017079365598177671, 18078563991610205249, 3163814044573842527, 11007630832082564447, 11702035232219185249, 15600191184033862514, 15849813232858836225, 9251458601466821983, 2952223960394436717, 15894397095363022416, 17307501599532140121]

def kLanes3 : List Nat := [11675549544810713634, 7817036426142778096, 14240372784139629417, 12083206196940110277, 17309675971514249425, 12520216537464684029, 8481800168583240893, 5764090853472532053, 3213973818090988766, 10231098815046296670, 7857661832709490291, 15813044455412685678, 14830175330780957748, 7030143662256913699, 15404342278134590221, 2419443552532757660, 18393966673777322987, 9563164935426451893, 3091447354492541523, 2398973452083347674, 8461801166290012170, 2902951474291046593, 2270938436251607441, 5174699545360857735, 17957293875141638041, 4402950137401695897, 15229661245359758548, 8450777926180027643, 7450183271274120176, 15909519124377129881, 11613987655082459854, 4332439760578220180, 6326810449553059763, 4905811536996920652, 12299803023735883047, 4083036178204375076, 10913382309430719208, 9011741474951822286, 13624767740357164379, 12978977869633112963, 14749449044329645683, 12130392623934373878, 18303686534657649070, 9976891852175692953, 17706269521781366754, 8050350325052561034, 9492494955878730983, 5928037847502389338, 11114168413462348078, 6964302141115834932, 13837635489756282853, 14637836719898864140, 1970345493053539448, 5919947580634379277, 2376345626538962653, 4220238463702279276, 4653673727256679015, 4059843844080635590, 12144693506658378344, 17043457167138492585, 16144395553968479186, 790305116449681504, 12716196802794639222, 14308405255651053076, 7998148340953874842, 4582629573312723427, 3790876144008499986, 2606371389781150416, 10932993604985323834, 16788173088110456966, 2454742835333427126, 3550094400557896125, 9593568029548559883, 6927411375867028738, 12665785781240606696, 4715856037342842392, 2877907811694006408, 1079444041670712032, 2226842766188875906, 10715220552113640910, 8967301659338413193, 3525232693434501065, 13954508338764481100, 18223245204387616971, 7617591208370913570, 8377262195121654964, 11857963615295185586, 17560714261459787022, 6474407565193590086, 9263821657711639922, 10990104392639565324, 1700738676732859022, 17140809364757219402, 6302317182506378312, 7331819494587828113, 1714667983625971918, 12254519874881796771, 3900507445984534490, 3266551211348270604, 5181202794415187701, 717374301091551189, 14383319692328414731, 17263123363860225278, 17955234781986973950, 10898505594080821042, 5929474034631635819, 226594928959318198, 8235855226768370540, 12252261287360973156, 4500433657565470165, 6554098889593785794, 563577738937968269, 9310628617358914862, 11518251764137572973, 7696512605275953968, 5095587898663661001, 17928147719925839533, 15948293155239321075, 1701093034908658563, 1379849687142927468, 12637071785524798722, 4734488397361208038, 8224027993663466522, 13854908507350555245, 15107031078443741931, 14292061309712639434, 13456061608438224786, 13664398624266520131, 4125939404352111329, 10323455782999899822, 7906059515626111895, 16625711132179888838, 3499010416576511708, 3199089990211661595, 2753121185700011551, 862078167437444565, 12255461508301617868, 16959779943739479809, 13364199766156902971, 4504414356871183955, 2715163429335966021, 16214885920128643145, 8187439582932319649, 15086882114457121536, 1370151081022721103, 2142134915890073380, 3047932429461690282, 4074361775739506315, 1635861722413297126, 17054810714060581218, 6525898421433292777, 17969415792251140390, 896151268510990772, 2720206118072834080, 940045838231781359, 11748179334230313826, 8341645063351102378, 9694964261308385083, 16541721590792972477, 16281746140639995077, 12620615964426207909, 2659511320825479916, 10472626522256290713, 11662151748312431513, 14924393146966256107, 16118763696874835112, 7387615392423868613, 11460278709926849523, 13316579036585515519, 17280419972697459698, 1289675085539472563, 14498052270547512535, 14702854379302562666, 13935696573419200356, 3161327661962713688, 15162059930008013002, 17993468709722029318, 10934931336293035736, 292156234143744741, 950165918946275768, 14807287382076142517, 10610267566693103697, 11666998145885754338, 4121909305680616283, 811118810579573243, 7364294694485974633, 2215688345295949443, 3281071635199639544, 12297276052378111051, 7403072396865240250, 1023171447513988343, 10032082511591464850, 2631906594721852108, 15617122612194247524, 14456553957959867630, 6666216384876778744, 9515333046945692100, 1806659728868015608, 4762720529221185337, 10153824638321471778, 2101911087467716087, 3500334240896766043, 17134159042269790052, 13940555088132978781, 3467496096038561702, 15007194419635103601, 11963606610607030779, 13693590014317045773, 10576332658272696458, 10630420656955269755, 14568485667998736968, 6898755582803451777, 12302912008348602154, 14896472452473955286, 8666098635737104599, 18123648564971439681, 13331332815511148708, 12538975243889460033, 6987303403665216671, 9464632272507557145, 7890233949656267001, 9609573012896086498, 16483645042875170618, 16463036115360458270, 16265234573768281608, 4650424641280841022, 816721836382150024, 4943042066544289678, 9263971749141884520, 12928352915239550579, 2498688764996477225, 18139045106680220257, 14036242451600462242, 2738688428773676649, 6325036523240816375, 13298718373376972766, 9293004759650360642, 9647988713841469254, 17850861705982891616, 17513113977061294624, 2431704189961475338, 2278111572842320833, 13061590869188234389, 11552225325932716983, 17504621469682950364, 9639775783949298680, 3029016093831512076, 15288330618588502948, 9807948033267215014, 2483232485307763159, 16790031346938500720, 5202071965142765559, 8725979714082866632, 10358245891582590816, 9392440923305847183, 7532583128705050672, 10358740522776114019, 13581983183510923695, 7142771916284314739, 3021245895506600311, 1553218282798040652, 3690189979386261783, 10236300864511504302, 9721578050339524464, 1294883008354764321, 10317620557829331363, 9986785598024361872, 7225387469087108091, 2322526874482089151, 13727919967351344379, 1177043240737487826, 14674333101522739147, 13190776716047652456, 5892840027710592262, 3778332858693955190, 6440702927291390304, 12698198157569620723, 8603389685122802452, 1823689211682324274, 11322771185448456058, 3485717978383272903, 4787785668373702792, 11070025193287429774, 6909840694373581796, 3254989649136476564, 10363111133584659833, 2946616576983300618, 17697374240443318581, 4796206333629826419, 12047076011379701587, 4291840612679582470, 11716846966380898086, 16565103093001100542, 2757581785923423425, 4981358743711213866, 11745746194484171868, 1371728432165755353, 16533110817463489673, 9458211399445588671, 3552762759198386991, 4600312565167783865, 5438821570501281835, 6956291090987252334, 9162971466828484037, 5062659540202646299, 6727698322950101710, 4845911488659100314, 12117527212786804070, 2167178138245833763, 10427261446157009441, 16932633324752695255, 15848252667412318369, 17016657496788270239, 5256533171684897262, 13920448144621697048, 11042832453030591710, 17055853045616189564, 3448156749632836714, 5415848320179062583, 11333351702037084362, 17573908337012122445, 15949510801561557887, 8231403758516136150, 8873992061581106334, 2775086208415763390, 7091460490553769414, 10199071633704416264, 926082977523618511, 10312989967106423138, 10616036199248099599, 4155447057883607374, 10807828696691689330, 13664441667609087192, 2125206464241045895, 4429716421591390510, 17000817696343897720, 6925248691681905588, 6717392917457721816, 5229203957548986428, 3919338670056964146, 15412637236757628799, 5819482112924856262, 6236626045630882025, 13971891726570851446, 9894653289475250282, 10603745470437984481, 11040021650466560729, 10971764090443511592, 4751539703628655109, 8531768111020655453, 750592646284654733, 8336609632912398034, 16182027978569432219, 5179395141750205621, 12206192730303921951, 271379115654024838, 12246917304141065982, 12014645310216424965, 13937694771651792359, 2438038966007951948, 3373273826382162693, 1969403969100406156, 5456709777025773431, 3301794212663486977, 17088799203189866596, 8924528712169527716, 16049707846087451918, 14470910104064638363, 99043618957306007, 16608665208475284198, 4196165166076553253, 10749513410158433469, 4848376732391365360, 7417384472224050747, 1330744589264397474, 5114639321250675346, 3686262573950701258, 1494044157536289005, 17757220608796678768, 6330578481431174361, 8345914662911629434, 17553066896694170389, 6666113526028093399, 4650861560776055566, 13247178851661790818, 11063475567630240420, 16939192029697412895, 11191323152425819074, 14124933966350298500, 8697605650888233267, 13157305253816365410, 2021456825545880390, 8907345949277307742, 4903452924539297228, 2692708728510037908, 3931918901890095291, 12325921967397592870, 9754753603844403135, 12933585839554514817, 11320409356205421949, 274802703973395632, 5663793819411269252, 3751230960988746411, 15544488573854310417, 2098378631854471890, 9373675655756389502, 15324319329810753483, 15555194898032635380, 12945289851515217527, 2262936545134897178, 10176088070312344681, 17738393214738212792, 15208900498021064486, 7552509894256853089, 12116258127472895378, 13496190280147742329, 12115828592993090486, 453848728588084567, 5165116972806205523, 2744604138744719312, 9079972992930319727, 15881918695556715049, 8007902252056426067, 1220370075994585431, 154364624362210361, 6764686813250123022, 5978669140127252635, 33396214251687080, 15107577604459352295, 18409218754952762438, 16337715388559199396, 5104580194774034617, 8897214173036964247, 150987070713909889, 10287450513219902050, 7890964021767164758, 15908241735879478189, 6490585300510286184, 17074694965397074727, 6779911545285159552, 5551353455120799514, 4050770878834222652, 14822992087833057632, 10083566305251965410, 2874958226294847479, 2343037652160889998, 1936381753655168696, 18135628197207306749, 11486440178561053070, 12781570307790339652, 11300062163492342613, 13365554835862194344, 16895353444987998479, 17991517782813275765, 13983873949911461272, 10524323105768829774, 15324544712989742246, 11969998545689194862, 2328490443431529811, 7418132646600012662, 3944644541229436406, 10506976065873899678, 7734543624798928845, 16801729126706225141, 3133480936092269264, 5645903636459245905, 8217196748069382748, 18413875820644653186, 6870092200039913728, 4171149111980115986, 15554454741627452721, 5090779939561143437, 16996704997701121671, 2099372560533384226, 12532121797275857980, 14567247237129359507, 9717437538789514476, 1468058533920840033, 9371960121238606905, 17338107542594326027, 3844930047146243166, 10032667817578208460, 1615116914249968233, 1809216047696272869, 18274935086015257782, 11695691529278075916, 17848626041684079370, 8409419477468142976, 12248181979548070647, 16832553184982063922, 2379708342769939637, 16048118532355884106, 13201732745159480325, 3648290826903951535, 5604881183941483232, 7960916221115912600, 955207741501736884, 17150628262369672624, 8914588374177825258, 9948692294185111059, 10771230088924119752, 12631712776218147152, 7650385825746062387, 16572962236813612260, 17561423608611395366, 16296125267635184361, 6637693787223839934, 2292121677452593876, 11193504053675611773, 17959261455595868963, 6889668537111396279, 121264368222205139, 7184899092232940841, 1691979164858085010, 5816807128684004323, 5142442996640691194, 32934903954339722, 17381727564974300014, 18380218065487163612, 9631332595730920720, 2171014185057840702, 11420393656612726937, 2236823067409223985, 1397517659819449226, 15969918667628584134, 200957516559189538, 14241798041294261972, 8317278425976473241, 2837707644631484551, 11685406994812115751, 2460561312954719239, 10150144103759340520, 14864118769917131019, 17575831252784026534, 15116425283206014394, 17006773925388187824, 15703296368146970068, 7925548494364789075, 14708922362758731473, 11917474055011449660, 17646783434527582391, 15227240576989833611, 13438635161331667093, 8752130152078136757, 17901740306312530323, 4256311203274641793, 152937512687921025, 8655871045051122829, 4260098507834951991, 12419497322224699628, 6605482434967622255, 15443985333867764611, 16303279091446598998, 1591443825829038643, 1114986322651629910, 10365347006383161842, 6584083269155933065, 813312337121995646, 5416816338787009541, 18335640804033993042, 4387473544672943611, 13477025376851100290, 1335083848312024822, 1281163682169951823, 13305326818010040891, 15586702785103440703, 13563284117412595666, 9476298616924804718, 612474930105427197, 11336158336204074112, 16429299355412918517, 13369250184429104644, 7646557459469558892, 15308532103985067002, 4295767403426656324, 4539245186987048314, 3866551094667687299, 2321030491924782466, 9388224202918863907, 1710041982022931412, 9961658669402216735, 4941423198006851807, 5735802012884613794, 3019497416766312870, 1907614760940119744, 18419426780186841318, 13069156838791475869, 17126955573345701342, 17043211606524285223, 4622581589294734939, 8752858528618650250, 9746885852780762243, 3758263718626781808, 9324918091177971951, 14914537628271299225, 6684235866424704632, 17772422343104749517, 10304949616258471182, 2767870964331810438, 5854585755732227356, 2435380973505346313, 5741550303457909079, 10345702286183056641, 3254974961226179335, 10712435986498641211, 6691195581085643071, 9681893624457716474, 2514354642053886931, 13781905621129437214, 654330910545571554, 6829910701610514340, 4029355515722586779, 14282999389016388775, 9310239657899688130, 7797877906709531891, 10946018766489902005, 4871716642973489436, 15962137066428704999, 13865009241386225497, 10651436398361987264, 16605084874163805996, 1333272996144103539, 1974815167576171064, 11801601843752894467, 14414402194075736868, 1683634087333970935, 14829670982263955973, 10290357989450839486, 18318102201299252826, 85563001742184438, 12851488741444083930, 13180080314160973509, 12760852850474666628, 14192895128314451686, 11543121412001425691, 2869747678256773208, 7763658918883031656, 7727173531028945562, 17745270115001239554, 16903323063728090479, 1393989020693864263, 7071007462998405462, 2507969138704147780, 5209068074629301199, 11009320946554627427, 7214840966502766235, 15280590329091664844, 10008595361311869854, 2581352315007308083, 7023317763492260580, 904935778266344848, 177979382944506304, 6366518624747560047, 8990032289227559355, 15618128824221763868, 5188580203200043054, 4447189318706731302, 7800044237339575710, 16480316504742857967, 14891543358211958857, 13291902934096759646, 8134102446177990044, 7822295994003498150, 495452712051976953, 9343592705149600783, 7713935517210265363, 12448737623610020259, 7891188567261331265, 1087167748840922060, 8332366968840079451, 11873083874177381664, 13664065605540505980, 17093937886222838909, 8992735036746159773, 2261205700811072696, 18019927672331256788, 3831232296885902370, 4847930710226790751, 13532762257228191121, 3496407208204099650]

def kLanes4 : List Nat := [16513542983703754717, 9861538099837959359, 16766187920470974315, 6460514825195661353, 5360806598520473252, 2406566533152790307, 6832223971957819404, 9329690491794294617, 4948944735999086065, 16680448590079289955, 11239478821241401992, 10825720418961860384, 10739782108632750875, 11824941248420946571, 15792255376462356837, 5204357625490324129, 11864444248092207641, 14777530156173080794, 2442613828403884260, 6194602692263594366, 12114324717219137980, 642934801839088498, 10423765603266722362, 15352450212972885499, 7911565105194896192, 11908546663204083108, 4069259519654232173, 14782466697846204797, 6238782414103615251, 6998715157284904909, 2581191508777946770, 17723484940431839310, 2428698951234396421, 14247427446498240400, 3613176258369472633, 193789369413910923, 671911583719108971, 6393380827847664231, 16255990474117103156, 16265321709663217569, 5551118385664244377, 12757765559441473729, 17089965111685537357, 14304210354097702702, 8563309084016017351, 9697622445139830657, 4504893976965231938, 5669569180333998382, 10733928131917436317, 4741486056046604129, 16558414112718938177, 580084279809815253, 8520928437750616777, 13725318314404678797, 6467374432791397550, 17083660788273576484, 8703525151230773648, 9799483273337867055, 948808615546874811, 17429699926984038064, 5372309537390091815, 5033367023529486503, 8403775491358727681, 4295645756259621696, 13659199451119066350, 13044657483808020355, 7489833918735895619, 5668634152053822574, 15901556661948908652, 376921283684286630, 14134140897918182564, 18147137581414683981, 10497379497686606359, 6919094617839795039, 2289931891143224149, 6255543465706457595, 2376958868002647479, 9502573860171544234, 712159556479876933, 2020942108625137021, 18429857440073623659, 5869117308688775471, 12300554458630644161, 14258978732934304948, 13183291194814842495, 14824538435502591169, 13061461554054332742, 8455628563421798605, 8496962924024278005, 1051116905008628755, 7294893999367145847, 13743702415743542108, 6617083083939660754, 16781846544872944735, 1094993710457328837, 10186825817690199566, 3931219362055582469, 12704408645890684766, 4499347972789077963, 8165234756140680007, 4875275651618272116, 5017838330715371505, 6567017085047172074, 12934503468254791423, 12469372649155284041, 3679226959793283498, 13350825762644654452, 10753643412618036683, 11954294824287040804, 16754244505313194630, 17347729284084392395, 17699586140795380339, 5945510490073466812, 15903204252597635175, 13440566263705677186, 209590262109100576, 12293924797795471817, 381755472494682464, 15304606928302536717, 4384508172972908399, 2424796179390744183, 14282696705170005777, 17357309941558633678, 5984339532062391998, 13151273973983287201, 17867831177730566598, 6904378932167211793, 13306331154445998724, 8125542121182161090, 2411314523260964808, 10619284140423422249, 18124032347583201492, 14237062961720970860, 9039112674956714028, 5830645691979773089, 6329296675778712238, 15590798775028715565, 8922862502606757651, 1061880943305349992, 12590094923799222444, 3812320754808170403, 3666875537350128376, 3873343991954995809, 17767940624741073859, 3763147165521910430, 10935805005534200359, 11753387707928115813, 11690375779210488015, 5919135329449486818, 700221349251031801, 9676374887036180055, 15671069516487464547, 5563456685984422667, 6085871775956602096, 2906976415944139634, 7438031857051654255, 18205981215354010894, 5854085223374999469, 3281503812751275413, 5362412756884365131, 148569295741135811, 8041574315262830326, 6282528693053561449, 3672161373461158710, 9794505484592100085, 5395489096233111180, 12638253976457867134, 5352622356447332892, 16065464157626316054, 10790024148011058424, 4962969989894292838, 2681830306461692144, 152942351397072026, 14690005657330506948, 4308380632284155746, 12097424724942329679, 11057114984804838306, 2400480276977057635, 2893281404477553887, 1434427453032496581, 3407692031706738216, 6861786770514528549, 767812639163190173, 4876562582127850528, 5789663248284950792, 3497363720686089569, 11520592727771569340, 2464879920904298698, 1552766823402441809, 12400703229991205472, 17196621500342452628, 10440924401766227248, 6429909752236483409, 7691426050433388733, 11084946134470709089, 15425456851633659420, 17803168504903350261, 14352838854657171137, 11218014874313415327, 17270439692657681913, 13668247925559763252, 18441979546071534596, 18412628310309580451, 137575152288599635, 6724250996586707515, 10053100590998000103, 16655805476480721915, 7502660848305079311, 13257621288949248539, 17877561033631505499, 3834500574530870397, 4576734488169943404, 4635902248272936896, 8987191096312402830, 4654967162984276268, 6391785488931891648, 18013658187865422321, 12750306572585224429, 13231296187315295795, 3293756275914661492, 16417131070884064214, 12183776481625405786, 4449655374481386989, 8568725717188865060, 14397891880631022354, 5341470756577382138, 11801486171057249635, 8769556523011988411, 15662966286807857114, 13197541079272965331, 11615883375686474528, 13445654272100083502, 7194589988656718810, 620870962389248207, 14163254496452469125, 5402408870598466088, 5362715972022236787, 11507681591857223932, 12762324228468481866, 4119283875034091069, 17428177084790002166, 16379492031168355086, 2065148406212225466, 14501097842972112800, 14891844245684866991, 14889239421734261520, 2355145346444466870, 14109827259774940313, 6282957848784574611, 13227594749172830683, 11772552047171120236, 10509293841951589767, 2162066004621832882, 2440324540020796750, 10477447216515852138, 40627865978270091, 14204525364074765693, 10252056511966036253, 16309760230118578810, 17092189087551854497, 9277242616744624427, 10445017594721894787, 9169141154777931991, 14028460342876699061, 7441736665158335338, 2558867453656674991, 3867716552894138687, 8060456446743767048, 1539320387321992785, 9337098658014500326, 9742567832325609918, 15447519475350526775, 4169080756251245062, 4559591881190160775, 17396929364602512647, 9222130062527557436, 14193211594708875332, 300604287025167907, 14971871581536826757, 562484092413649213, 2246249277460732783, 16051040664242500909, 9840021922789902665, 8528460033807546743, 5390814161150191225, 2195184347587642804, 10480839106554712638, 553082894180909774, 266605529521131042, 6542160027582494346, 15875097179999110744, 1719485582561215486, 1294255765134958164, 6383836347514959124, 1036831990099481519, 1915474448998391012, 17963895085350567499, 3981739577393226418, 16495564397422163674, 10788557729589347650, 3690431336121821350, 3540875631584291401, 9186600328305249411, 3496515386005796319, 2269109331818866442, 1197840654656447957, 5655822432609303726, 4548178238793601217, 4062120806132576485, 18090403213438893595, 6099756524865271761, 17892068221680725831, 4523833870403126304, 14272683868411555090, 7795106310714535588, 18238247744175939778, 17087502500600293098, 10862591489551009128, 14032603827599782064, 10861415110552533057, 15679665741056823863, 9718626965372337464, 9490762504309863189, 16719653654384785033, 5778428393145262096, 1434987942935780031, 6358067109962782857, 1252820471355205266, 8110589901626235366, 16557364861373917781, 9867608966149567283, 8075022883388675986, 13846917510353185401, 8299264301638491445, 7879283111660564262, 15421703473002105636, 8604832394320852488, 12683469175970050440, 7050390900517180115, 6442539046929530407, 485678882197884695, 16137914049038706159, 9346733728797348607, 11853529123512301498, 923642157557324682, 9249587622870803236, 1072389364349286255, 5995323896827952825, 1707905772626028624, 3169862168959015120, 18372456987223244094, 4724714814235236443, 11534747885937282768, 9381136438277613372, 8709831692926331085, 2295404445512824151, 17493631384296114066, 3840068489871809643, 16975516542365475649, 4300710217203169442, 7890797939193168438, 1068594146290571662, 2688822768851005757, 12097344166763660407, 16475212534706880179, 4766028164311903875, 9914168542552401093, 2425827940340600458, 13802692117144088260, 18287315317446776582, 7000204929509503720, 18153862838501020642, 17511205495793929860, 2348314106873094585, 6354024347611130019, 7660989644188153689, 307405613988742491, 1287383935752744325, 7366684965358264197, 7814489624591427631, 13289219047129075526, 17608917568730618883, 9666383478813657778, 17810882378187285429, 17730133761602907870, 9896487256254001574, 92131286726915715, 9079548813126251207, 6820933424973814387, 541175435776622054, 149747475381627184, 15497564993629364649, 6232935281178474316, 12529314002195386379, 4633449660687830343, 4906360106037198421, 4779219209841959474, 11441080287171680259, 4886859866146391718, 6213597810297173830, 3155041786460014050, 4196687959938653722, 9171760078890662428, 17160573969885477653, 14908555510822662845, 468890677246361682, 2514121742196436332, 10466066988171039972, 9447948055067950158, 12350687756182607688, 2867015903096656906, 16303124232087238658, 7053517732001977478, 15217881378991955048, 13498963162540566415, 4047593469080227454, 4857060922077992820, 15657343700693589803, 2201571404301956001, 6695292013783312835, 3003720227938757690, 6023591201986653211, 9213018697355237424, 630473108003701458, 11540868645871015437, 13607622399259113585, 5911154110026501091, 13642811609261252825, 7744278712779675226, 15662983994346573834, 13921985496251385572, 5892017500550543528, 4893530384492958654, 546951616119074757, 3440736978732989777, 12599277383021366784, 17483533262576735219, 491980092667779230, 2789839966661690055, 10890231519322144944, 15328673178207374984, 17804453270798223695, 3639202829742896809, 11533514836952763788, 9846493161599952253, 14066282289089528415, 5841412398730199354, 8712906608744692562, 2731670007375055468, 16985323799162347366, 13835480951946557723, 393221199576122034, 17313888844204716450, 18289399255469943354, 8219708363482613526, 5977645438940444864, 10307270193055646508, 5265628648579690878, 4744859604381628128, 9680873175556910440, 17658834639286140482, 11517205870873179768, 1566355924702119667, 17969718747497687798, 15492477665108467793, 13941239181386537140, 6386870684077693163, 13617483796703157173, 15782132016368352385, 6581252551455674698, 723513099997834783, 8346009657861992806, 16207294315322823453, 13412605784222586311, 7366722104454811992, 16162882657589207142, 104736949104175673, 5951991452270537418, 9335329222465494264, 12785691997015719227, 17368446249278232827, 6245142120369654506, 5785808529849802937, 6949551264656483958, 17437205820386382951, 15415213985765471773, 7705607795758189333, 7703625683177850238, 3126745923254164212, 2411177925092465473, 1084366121514810173, 14106751442343910685, 3621320899141880068, 12498224491339044157, 6613194490746553026, 9762599579304079109, 14108344467823827145, 13098814148169912163, 3000326827089575263, 5608432030031765120, 4203508998538158046, 16554821821002503884, 16060715486892852665, 2977574311364291558, 5327953859834511983, 2280923068232930333, 1511422740282191747, 3498342331899654229, 5287255163325820028, 16364415146305086129, 7435225910692117564, 9589324339353166486, 15224630422678333750, 15358878281353537172, 12847333249874279724, 9572641516749931803, 8410704763836645242, 12493819276794683695, 17848962904711238451, 6694549751803368306, 13546712968401629516, 3293863132601703449, 2089429498389352124, 1398345196712380038, 1942440020374854573, 8707354296579979572, 11423017330478078303, 15890123291896780690, 13277775662636335280, 16194150187421697336, 10878693913824621971, 17187014229200294572, 16084744365914230922, 4643591047836760054, 9753913704892525512, 2214102383186249910, 6736435334558756643, 16371791087039487445, 818674395783974309, 11390282282986248840, 1188948261325807839, 3041869911939595416, 15376747772838056451, 13387600028762669040, 14382018225950148489, 9827188477440464874, 13048669672612282670, 4310540303651954725, 3590679934991146015, 11616845250243196299, 10867435342904093886, 2658739645890054252, 12997340759777348081, 14769997700344515755, 467169098171032619, 5420539711674926349, 5471995296063880717, 11083517024353041322, 11246221868373153131, 4441525404073415491, 4425809856313471447, 9267747389129371118, 13286247173775907967, 6852732429840846669, 1158897578423388644, 3245044080669981155, 10501657908037949171, 12934901180653663982, 17416397524322999008, 10899552700093551277, 4985374478559516800, 11372658953483279437, 12835943602280884349, 9251867171135283881, 9034358971537000350, 16985875008246832557, 10467236012862565863, 6055669424495616069, 3557767356199742305, 18212631779872549330, 4975991806638364265, 8207294080753547461, 4719087567353147204, 8459153797186800938, 2880346736595981802, 12995221430574910986, 15495605620333349690, 17843881760816168557, 16269286535962740319, 5372910632627140980, 9221127781715652168, 8282586621479884027, 15606338977950264397, 18391167765644426343, 11266654795604232368, 9301347111903495349, 8146218188106770350, 13319147936481460713, 3140102600953696872, 5977059964186113958, 2720466118425606038, 659521852154085572, 10903256579319338374, 2508768436736790501, 3504356417702949979, 4047366953848120300, 7083101901280480976, 14944747835113222181, 8511292709908287409, 11608289521998075412, 11256155651086806041, 3604286447250101912, 12012270929038806700, 16264156065839995204, 6480469369131646202, 6356587976632294284, 13403961267606260705, 2867953330569773620, 1211002971916559952, 16762731641981666862, 463089621096136162, 5792548039630142486, 8763701917895692700, 13916301767865123279, 2119470137386569598, 6573699332660030919, 18391874899061907481, 10557984687029740253, 15407529300596271307, 18382592969809754874, 3801272583066795652, 11037310615426853870, 15604227846760315731, 9895388374142129253, 17457111166495976470, 17072677719289382598, 2574352643922687397, 13370682089637823521, 14868607583664595964, 15924248531951170380, 119517219043268685, 13220334260427695640, 7693944808362732549, 15851420404768695728, 14126339405126851276, 6497628856753858410, 1381827229411999271, 13844648590004346300, 5549010129730150926, 15451032176677340901, 1591848919522782404, 15966997003254329084, 8154226348341155422, 89402881213047713, 10547521047466355278, 5201569929491414647, 4850083153149725699, 17231014483865686805, 8501565149946590091, 17644099347584965068, 12685255525730628612, 11199714817119849278, 1005045753330858462, 7433440231830812845, 3350542069973440212, 8232779589783693965, 9336988426703137322, 15306640167226186345, 7767651528979344517, 10853060853894678206, 8451798204905702939, 17278130247394522755, 1191068659638256547, 17884262976306930339, 4893390159188965196, 14602960859392296105, 100208425296772274, 11042175620633525159, 1206312758769694071, 2216385886034705501]

def kLanes5 : List Nat := [8093964655529246506, 4285041695384685199, 15233065812717089266, 8205042300797895892, 6306549337950914755, 17267877018012000406, 3851808314885518014, 7011673526916306437, 16115655373696498503, 6419009546395202267, 4851918261440178121, 13345070227310427532, 3469127122239206196, 9277182751028757515, 14685853251844634951, 14496659082280519035, 12731738628685979984, 12743131314120538300, 18152449928162277793, 3503103672163286227, 5437939248653982525, 12080398567500706129, 9866242736058148574, 15912877174625958710, 12016864209367015928, 16215977767524312666, 8323030856264552615, 14687541833463214907, 16143124895312480437, 1744779085592812541, 2961112471461922885, 15670308241471898254, 15219060717874665706, 5808736121405408559, 7895207415997836433, 6459600846748962368, 8946091742944840536, 2366740365633201395, 6506324386867493404, 17137788982280086129, 10677518037102990931, 12024655967061409072, 7792448379655755535, 16728076212697673993, 1933966319534190969, 10982714780729715055, 15861948251406915705, 16993260317329709922, 15685813729985308954, 58180874675191223, 17833557539745369963, 1569861583866151407, 18012243435346464966, 9135038557403234604, 9192419138656408974, 4282173924141783413, 6871179997226700766, 16393101138617832917, 12596639282659651356, 2255336171782771181, 15737000388922823189, 2313049470196362477, 7125549492010008024, 109239874111765611, 16881465217512856505, 13591731093606448617, 13015253229787194725, 8631572741624573828, 3242487010663916967, 17690331087278683853, 5429028500880197089, 3648322777474680997, 16481728111388753479, 16175389019962902980, 10379247140306554304, 2700879186088591701, 5290951952979321396, 1850714740824758916, 2085326807153730893, 6642937315290946930, 18072872757408517768, 2897224110159744241, 12637200040929564798, 14107169019160722906, 14236048491795748928, 763373138795998052, 5088975462482606189, 10327014433698548317, 11813843073048006814, 2749509707966548203, 15444925990756937649, 16090444541812073939, 10161598485293667315, 9323771860061263087, 3109721446088006650, 5352857684050540790, 4445990239255532845, 11508768320205649027, 841473299576478928, 2893727048389834626, 11360173589949340858, 7920659710097305818, 2612672624133087853, 8200522229676471945, 7667700648599046344, 11978311210832464910, 2734523544336141790, 11922955739081158885, 1276726500142557467, 6708141888572676020, 12497180870857653443, 16004114807228753100, 13529963657323091137, 11842963660087500051, 15457585638096906140, 8170098487540887009, 6191311456883049339, 13768127620250987591, 13565979651947061263, 11875971503983654333, 17527287202492339579, 1361901934186891152, 14404621465081327109, 12282630795916317141, 7098748838969583304, 10858034899569130151, 4727046734588753156, 6038532972060037506, 5859448142938950221, 6993806336447595154, 4463087925587287934, 5543386507625223484, 1928519463473987320, 5291568488054728084, 13119276962391704022, 8464183213184184685, 1323171935791102602, 13392896181992606335, 3788240775571993230, 13962094780785496369, 3333592836383931983, 1273556091610857886, 6759662099935258676, 13558918121365703249, 12221565801784967762, 5476354869725260253, 5461228144595840577, 5872955716069324156, 7469761132200325229, 16982868636253713690, 5113519589225123518, 16769676307057702915, 14198228273828306819, 13923089253466050342, 7782670578593774046, 2492103417709079627, 7706237402437438999, 5029712206172713982, 13803055454517793942, 11478765452909550598, 4239194047816693460, 9255278716432276386, 12944507188856015179, 13481679258263395108, 12720289164543477648, 10983698090771566369, 8117318038438310707, 5957681859295840282, 2040104808930479578, 11309827374550326112, 6668794533165957052, 6089745303578330726, 8148006974119540533, 1085084540545045410, 14928233629528472402, 9553791255217322170, 10145887691746827043, 13817636179552878582, 5326692540482052563, 11634164498783380054, 17956114607988313130, 1532207018728527619, 9320453908334090567, 1796795841280906584, 4131432340376941955, 14721680905670047795, 7993057323514982883, 25736900670807406, 12067138041788162872, 1610208807087567462, 1694019580174873989, 11134619450033696173, 8812647221667367126, 11415087031223775230, 8651940141947892143, 9871269668663257476, 8248824381564676554, 15426518860897737075, 8044935548663285370, 14226344988338429858, 14233386431978326822, 1039725046989886504, 18189540267080017099, 17871750968930522967, 6946522524193159429, 1586071707864309395, 8659650958237339349, 8975652548735640877, 17275032578203217137, 1415087785993360508, 9514766020948695930, 17611550118306947634, 6385278110049556135, 11969712018619830625, 1072514267319485593, 3330348132139372490, 11921096618294447531, 9441148066577545897, 14152602121300513564, 1307783637537125216, 5121390996320988943, 11565117784796682140, 2814552983986431721, 764634216281643507, 15523705144232767002, 16925487062430738910, 9033918542143005370, 17218721125983353325, 12590722829766051183, 4932011337203453316, 2783872137977234561, 15218623483585435960, 6696789105164351732, 2227470596459562083, 5693300712051158226, 1329227934071858556, 9193913480306401494, 8511139860267788703, 10499930523525836735, 9138428346549709557, 5485019631294251864, 2390577765509471577, 3050057527897057870, 17933515264004445237, 13449000751230922020, 4715021875584761299, 12380242946410712550, 277243661271760354, 18062622488195859838, 12766365063001949984, 8917541046821650386, 9351472951516973591, 11521075735612794307, 3014913562913253088, 13209579363059836511, 2952306779526995658, 5298022555251906158, 363123667014091457, 10653593297563113178, 15121495228466714643, 9027358220792442162, 13033307372256708358, 838269750469101297, 15688970035178102706, 14449280895345815304, 13725914296957301769, 11772900923949268371, 13455632158928922738, 1657750761093699152, 5570242073165357246, 1869844533854998436, 15192832537722891702, 10523244870651931867, 14029182168513187472, 18252132379078968224, 3887725320259418917, 6673830553803319427, 17848605346243243262, 792988580137171324, 13071304438930879617, 937184609644586529, 7897924064115317705, 13424916084443200001, 7553069347258320659, 4767359853690985291, 13326672215093113556, 8321916753952270333, 5194332021110519939, 9439696154978390512, 17095944619161707243, 655871336400138947, 6140343316397185060, 6845770362941976512, 14957370941684107204, 2674921193568985408, 16780166487752837699, 5058546092904417792, 8776570464753671411, 8014460707033003057, 15573193934064448922, 8301247199249558658, 8671563864163498505, 12451321752024775297, 3162286373906021068, 4464046346637756632, 7679602919207926866, 9509092075296382628, 4427846082435891541, 14832495128505958641, 15218810344677464645, 13281540896568014468, 17533149526638551190, 14665384487652438595, 12746068580729931691, 14206097315125263652, 8546725137510885697, 15216326083338552287, 10097488652503432109, 13633846377713177450, 18428502932841690969, 14744461505349145897, 7341364456394193757, 13649119108182407462, 5813701764533503291, 12482111414357801999, 16625040503284823536, 14239025211134898955, 16754564497867964369, 6734992245509436439, 13627911957448872928, 18151449678141377325, 17922605751478421610, 2224873527776852515, 5786944303290006256, 11642580339092485087, 6041914517493358216, 16617186206650156919, 15494723686975724085, 16556449005418555124, 14080538155536720712, 13565574566416635449, 2430022739995107169, 3228705113693939618, 6757132481460062928, 7249501110586993306, 1520372319561005454, 200799883351385294, 16384691355272592835, 18097933865619494911, 16262995065746687530, 12138513870152898533, 6914069899695610986, 2218307381274124336, 11230153280330508946, 7730298122332359875, 9940391766625792224, 8816318737451929189, 1135968460196902587, 13221320920176585792, 4033389051916302063, 7226176161438643012, 7018566734236899320, 3795100278885394445, 13454758975424185871, 4529993531451537618, 458106791528194672, 1160614858830037569, 9191916899958366374, 4033657301779638730, 16683514406748035387, 10777028093813366500, 1612296470299507475, 9844308303239707846, 16957133676512951880, 13145362791862261560, 2209763548314213205, 1290048547488718954, 16417022467905301844, 2987881392657198672, 3149167973707613236, 12054135408686254265, 15861528339387535879, 6574537384137175841, 16752348883745440881, 16100274010185247527, 9027967421462477526, 14821193990461888670, 4907484999674181240, 2298934213725319305, 16675088110900740514, 3658127933744007606, 6585087807645504424, 9146485438337583387, 14022349389451888805, 11612233762051110268, 6830543579837527335, 1548329002784281463, 13453770928679972709, 7527262064879330475, 678750020214976604, 11823775010161991073, 175011159691847504, 1667464306817381653, 9643272321617306264, 11690629757189904922, 4791969841966452663, 8175450063583800380, 8115732414770200967, 6339830689609007171, 4254458192847937280, 16415893736161271996, 10274303820872174010, 8773419322755550655, 17827114039423943467, 16578003221095129589, 4134869602184804338, 436604387945129364, 7920388263282527431, 12680556744200142110, 766748818921530528, 6528454312505253641, 6135258677678322248, 16375197743117528124, 16626682359482255856, 8971057601231548650, 17955599791806030450, 14887741999976217811, 5373883035301921375, 4004373075579476260, 8005691796656280655, 6272531444000228832, 13791274704719232567, 14361380878800675207, 15118909239870421903, 11468896861910092806, 5098869460908189342, 17656912955510238710, 288038005796405244, 10415174007610631694, 16424995114597816183, 15471606692181946697, 11025888644416700004, 18296192138583952232, 13433756047980085121, 932859853594201199, 12171648946827087518, 11152334450853108946, 16069543913377303912, 1852508893651849189, 12903977416637741819, 351457608259303127, 9322562797661500772, 12826372915992549568, 9002174105773800545, 13079988315200717534, 15095619862985869181, 12984316097448835935, 15418827440868074409, 17483977014633066931, 4005910708149402134, 14091480808221278635, 5113041592749290748, 16475005423339462263, 1428024703789119805, 9884257256539944187, 2856108851714052467, 1943784606290887447, 13992372372522717439, 10014640138283911696, 9714137714760697817, 654602605987635279, 15083189015815677137, 6664520094992406090, 15768026118706115417, 2637715467722342180, 16238440034939277181, 17071150865450880522, 7539775094286460894, 16149789820577186490, 3231789900505323857, 9147719755422947299, 10939635894987731085, 6722908819990138200, 18033672404278084656, 7476957330841079690, 9932169587255272882, 2873163225187325907, 1404065685500117636, 11606889440000321834, 16108711675830663583, 6212070591862710193, 14900118653278682560, 16797461216117147633, 9736131334426063688, 14838451584237797085, 15733921136802889577, 10940854112042004341, 2388372146321143610, 16035213747401857598, 11484542101384275451, 8605068105118447551, 15460623955873342043, 539168167113435067, 14885469345827211776, 10001524074167610211, 2099664494033455693, 7704733692549996945, 14196900619460819450, 1745413304556469538, 18405745917766388862, 1733208584016920422, 2603005987548010005, 457179881122455672, 2493773503995750371, 3276605010619720387, 2721813428624031863, 13757416216955480077, 7247144072970063067, 11476777178685997713, 16676017430688454888, 6636426283912444617, 12861701591633104505, 4280110422993682206, 2703904462861678239, 18316986645309175006, 6475016522343116015, 17541292818798012378, 3684377755754823676, 1629258748326206218, 3948408092942941524, 17708713644546720917, 13407604558661152046, 16374846441675837523, 713982686000839633, 1590072506130071479, 715597175143313663, 12331860167034639619, 7705322974883121194, 15878804759630773013, 1381591912183708427, 2978848011572014686, 14274720973829132628, 3994716168333755456, 16098481702626393018, 9671297428045759919, 9623817753265482180, 737771655051836620, 11052034461953080783, 10214229401982375786, 14437644749931327247, 6049943955747757349, 3750942463065416860, 5877253246325048777, 12896578061581569677, 15309268645556837090, 8343229048756998411, 18377345715103564639, 6685814258040652628, 17104912923040693609, 8448163188864685470, 1265229075764333427, 13389365613148019351, 17547022807698144008, 8842488854906546830, 17455909857100698465, 3673126977493205082, 15341839762238472283, 12951978220160390643, 2343894736439186637, 354559706441080376, 5128483571453649012, 2731210408734000007, 14974451287326083404, 2948592392856006828, 696274226220318863, 11526000808778885447, 3482602007234661618, 4141657598770232510, 7578337223689002652, 14551705925706075406, 17617231451714927121, 12771255342963080318, 10466550192832588706, 2780683327303918743, 15726703449228788436, 4615157834040299417, 9166342399972860578, 6910405330234041167, 15248334984270548476, 16337117721330264569, 5342111180230244712, 16382187498569349157, 3131917099566903536, 13099680671949368791, 836678120210589146, 11404463296200806352, 5332210056660900503, 13821863178656207484, 6693351605238333082, 17566229141219123154, 4687921210443614293, 3851267532461746359, 3329880217375463453, 9726660270710609220, 9990660291208906687, 6032715353710860634, 12484720760549503642, 9072633190910444234, 4717206826823495720, 13510660553310719926, 12586953553526271153, 16535353282921724450, 9059166358081829012, 13429978538729205039, 5361570085679850289, 10736032441718878217, 11272923619731443028, 6249711739631878292, 11051411976158893004, 5976234097279386134, 9883542183157415714, 14236402141783987270, 12546081408613617228, 6166458861599989428, 18028558852747709634, 320353893023181900, 9716752555392756144, 2810802644100638151, 7839522409053428465, 18401812036626721522, 3880022210563340527, 15839681345065791893, 1839198725233689482, 5426735128842627748, 16611274099401031581, 12852307487671695168, 6825749708137604823, 5711388920263200692, 9798966602091077307, 16523781129054223167, 9623386353970083803, 7790885112723044053, 11432660452219911631, 14797620988523381924, 6256619342501506487, 14929969354054856052, 18388399926670778033, 2182004207182946326, 4753144916277202385, 5380557060729224315, 8183919230078233832, 8297691092081635977, 8933325451129467206, 3624836902423803643, 16623591672183891042, 3164014858471691569, 3431789710762739853, 13948031304529049416, 3056472848231243706, 9503657692701350049, 15997847289891305189, 8643373671929245533, 4546049556478828826, 7427627938085604357, 10774088389170826173, 12337720360093587677, 6274274307339334381, 3825420226870501676, 11784733847043041294, 16615040609340123480, 14837111264351995396, 2109540483704003840, 3403022516867891860, 14501400125215903728, 17423857805098975659, 1468527278298908814, 1179327943105356880, 4473611044927938519, 10509257905166150035, 6089873380065647572]

def kLanes6 : List Nat := [6209724393842883982, 17782932088179108268, 1826393674449259245, 9194093621306261702, 8813069274230754474, 6477288582015673959, 15047978290438887430, 4079686027172247163, 5552245054739968911, 7649445000690648737, 17645136987569268488, 7828328145571440780, 7656180163507273023, 5592964935954712197, 6763588688140844514, 7295422307616176105, 11111637419865001908, 11481282509655216273, 15870413232972794273, 13878063666730964718, 17935866800551077344, 8564853465624957627, 2107135468442198639, 2267011750275152087, 8631206978858633216, 10161716153118792134, 6010350640605817048, 4211421975848971357, 6169743097188239558, 4938703057853219601, 486117648604614837, 7928244758773573267, 8016674928549097844, 14329939568552926442, 7440328904820882927, 6722362633667769759, 17308807091154622705, 14411863553228789, 11264114480156846044, 16988539267369429074, 17965884268977397341, 7268171471535583169, 13512238262444220559, 4988082071979419096, 2539027801479792992, 10127999212354471690, 12515876281217681068, 4647222823265813911, 2387785579565933178, 7472131107885208541, 11876352215958066104, 16037592325314655673, 283736022356994655, 7338842688549001341, 14626307964410677900, 17115182270611422446, 4186653622019194392, 18397601916084731916, 8968218067723642143, 11232579663487202243, 15667954833814990260, 18010962663952630790, 16763433001032159366, 3089029129361163054, 1221466812941513320, 10775793720225977793, 4426311601060113550, 1097892108499179170, 3376858995180987538, 195684430071693934, 16688090806693150890, 6027313265248977703, 4773809588200162154, 330240526516157119, 4472953606625871661, 16394451545994901511, 559655422484951974, 1261351004790434737, 16785186075502076471, 1106762386546997132, 3319930538210620434, 15455298139285612541, 3813360757747370927, 3021043734680003842, 1631858793198184669, 874907120268996963, 3549696596392019475, 8239344059652478781, 2047183804189987554, 8579614165509972426, 18216307439051319510, 10588152126253404822, 11765145914111160119, 12372451815572966262, 2584595698812582179, 1754815573450998390, 12097071718806321745, 13149390749248430100, 11327447684891088380, 16318543541126221361, 11451590582538048154, 5021500231273196167, 7988679763972550232, 1269765641545448030, 13998077524081511884, 8197551883786646154, 12074177192083723021, 10535333593059129547, 7539872866416461240, 18092411415254343494, 14963909248862836539, 6477526910274636364, 12092493291783665336, 484351404981320282, 16065681096718843187, 7363661741464517907, 12981435655073282879, 8126191303470526068, 15876342682042793927, 15167114975326362407, 11935838682268500985, 4536207690243886943, 3552257762230824958, 18400849376672438983, 11237433334924145982, 17206392941587584869, 1799005405689279685, 5232223961544019756, 6351756130015350847, 10752119241519869244, 14562721417371670267, 7869566311986963837, 8023441901086248408, 7021968739445016002, 12049676641740439209, 6191999328501772802, 11066215017655856735, 14651133095832115063, 12004348223811832074, 11451676939805974854, 7647128470616027122, 6487455878311436224, 2607742523876315993, 5155661631601072695, 17239775355769352857, 2628519687576665587, 16266644790651678457, 15081529687707043665, 2848744226152682602, 13747752626752286232, 8554435568918174863, 6896676553877436829, 17438839122434298991, 15374483310088808409, 6798156090438013681, 4123057142086256701, 18073532545625412599, 9829072759086909701, 14779191760219512256, 4340542255547018444, 10929455229649597109, 2175544816798085171, 5955983470062652461, 7688743240397670573, 4662582240665288833, 4139111262650612671, 15181419310342818841, 6533691539183078412, 6949754757426638724, 1425213084688181915, 8367311121459120520, 6172033013480193055, 211760339560186076, 10114091510794049672, 8558990874900904180, 5608932110045723631, 10751543942069635770, 15955876578955392865, 11786101077998111817, 13080585369535796508, 217257107628877170, 17508602237855025078, 7172599116716001189, 11594055427749367855, 12079251505556232382, 7949490797616968303, 10142179884113687122, 5361324062240827005, 450015917940667545, 8211424455658526440, 10348892598435599980, 14983543849845769948, 806667854628081109, 12316701774152656425, 7612374166142039047, 14151107875013082220, 6715932568962258515, 8459107763096519530, 7633922743429219451, 571103535612372193, 3329829922515653773, 7954868232926786433, 14289583828451218803, 10762984471554363495, 14087806175442629288, 7983199317296916394, 16326749939605583472, 13625043022853800675, 17207021319656103891, 9438849997988040699, 9465220270557924191, 11419560047053237178, 10029327890073138410, 2978860456212232941, 14034685985185053560, 17659098894798609486, 1637331777706214981, 17144675580835379356, 12556412758533301797, 4222754730853163502, 16866433598606405948, 4248861397289941159, 3224133254525955535, 1725851860762154938, 17896532068513425249, 12078268723926106051, 2425107276122030925, 8475361207498903868, 3545738609864375258, 17877064456753327714, 8857287748898846326, 7617377594477779762, 11332353955803758142, 8339433532856497465, 12182144871214127333, 13071723445105516958, 13093572887660606351, 7827602225107707234, 16987979115946275122, 14084391279444931000, 9849932232455974315, 7523883835919137052, 16395034143661742964, 17047008319207771314, 12887179646462763046, 6994513900889431377, 12287358514149750584, 14703495700942139398, 11676645659445114158, 10260437712607294871, 11408519736508591422, 1932776089450509184, 15121772435674798646, 11553637845043954271, 9286721778211118831, 3783933910617767511, 4949845705425613163, 6183785681393942989, 13420158288534120589, 4878086259587616840, 11206376139180477696, 16044553900030834173, 15227105805540393918, 13236243467784768525, 12213487891478497462, 14310374012332774525, 5098461401422150900, 2772107368929912675, 753985021120220964, 15951551569927896735, 17469198813621268899, 14970278908315794762, 3463060379914558226, 3579594862839027092, 11195337452253465912, 11770731089223755300, 15191809981664350577, 10608863627869790063, 2348108814311383577, 6195120380599533802, 18117403062203161010, 2128830438833788052, 14916125099157395080, 3674003774552601406, 4763080231350784901, 4663756776762737351, 3016144157066312284, 1812788193525125821, 15257575597045840776, 15383766087226927933, 591355914639231872, 16111364124780990744, 9285186076411237633, 7052272670173211469, 2519955774057052551, 7183288308575111038, 1695120229792961531, 3044093447796546214, 15521568364713054536, 11102741872428419290, 250678278597968103, 3076077149117034630, 2447239733918425894, 1460101615348370, 18070762752611425549, 3043712921137873336, 1631798233752085646, 9397836464247062418, 10018421219887211435, 9229373587659871220, 2608257402588110270, 14225111724062995604, 12403343924583075230, 12727993949054745031, 9269676456242790983, 15250329182381081971, 9900716004706951361, 5898253995184401808, 9675083932823037366, 14900270306310465606, 12265080816558574617, 11904042570775763676, 7469706172395632703, 5778631129946154021, 13650083333275922422, 16588647366161467113, 2676736861770021783, 2084579914753976444, 14236424417171316955, 9741394235482277663, 7585959363376696011, 18038537614450227496, 10287575310399226309, 758290311949742908, 2017641819785615755, 18383367919889287358, 12109759682181164150, 2706812014649675791, 14290943434270080705, 6016434117507279478, 10683646038905360636, 9651062774898181449, 12719419096224616281, 3406385934409756368, 1529785253592197324, 4045671692554108267, 2421771989459554928, 9238899441485813870, 2145055892621662658, 4571425329677313000, 10813694825026249245, 11241812763515636136, 15268970610248233221, 9351839771635737595, 7516206756432829999, 17198868259813301969, 12655001422976494576, 18414721369332605451, 13048078750133755940, 17610802957750349261, 10365987480199035762, 624860060646630595, 14222081762071300719, 5656399730168600587, 11684150341096752505, 3581313811675336491, 14372571735872433224, 18133395400828836999, 16240806699999284753, 11780247624727917500, 7562860524828725539, 229960579808482727, 14664298155635940103, 11515721682616504749, 10758447408930125920, 13770965080102840712, 2017923610693545100, 6550050464736814272, 18366922494622541495, 7051171033160915988, 4286595356595487844, 11526081957503024971, 2311943001997260757, 17078372624841172424, 638016308487932238, 12739147257162805815, 15178553249166154642, 6001742187430546665, 6462615152199199159, 9438413782282193580, 4090578914523222698, 14743185064960326088, 4621979341926794384, 17821651586147599743, 14629953468912871112, 15879693354893347786, 4732609786147342560, 3694948970739481886, 9102173970894464762, 12613162910309850926, 14959461649032295605, 10073225876253847369, 18086228607601956016, 14333202387934772006, 3021509390831996620, 11100637848918560495, 18288492672076188053, 3458833703342611479, 5372859573169243524, 8052002981657091328, 6403854380237661586, 3542781489819228980, 17699719824426021142, 11509039195065296827, 8695913261853979445, 9487973105194767221, 9883048819543203767, 1080853755870284470, 16946876485669307506, 18328969093321226307, 16671869591218441611, 1715811337602933413, 5021034628020780865, 8691927326803028961, 7282135149569271367, 15741673831314238975, 15472540921214354696, 6005323706040289540, 17919912020759194169, 1059056627614633648, 12473735953572624822, 10256862147081367454, 6281311219295390973, 3382796678067056489, 10579484805427366567, 9319219531547857497, 7008947723554517239, 16816833516941699439, 537467946569846439, 5902494630760071693, 15512960472563404875, 7679933822935671150, 995808879933634245, 8753893243139554795, 11655594500344967605, 7312479445590700472, 8089787113824420755, 15170246815594173310, 17871003977208892392, 16406578311946319882, 16757444331687403634, 5791311472695632660, 415582951202178783, 5942431190899082972, 1431738565853513465, 14010971953763235669, 15531421123111407736, 5606981266236157148, 2111645979245445590, 12311998830404931994, 1713837410820053037, 1152366502279026993, 5681709958348284729, 653098368933621076, 7014388101777166922, 7603724679319430356, 12584122656648382151, 1937642486501356416, 2569594145517401822, 12919870715078217462, 4546158113851736921, 6294977911493746924, 4867610897844388844, 11692939650579877060, 13682613307761949322, 1182301187784397626, 9199205109620317758, 17542748884485877926, 7725177532298255959, 16029524121702716144, 18409637446687315291, 811585248164008587, 11801873006871666990, 11146216605764214948, 7446811388042836822, 8968774571629331590, 10530706927344369578, 4679233163780096395, 9265030089535157280, 4891509486518174594, 10571389858412633308, 10580637401680078309, 15772043206544617423, 11917635263646930002, 15245576250082697218, 10285295426921841718, 3494421399818904442, 12106042226443198452, 2617387773527238234, 14381847846685737052, 17959471893663522066, 14471502022727425297, 13797949330834399909, 346757186730697339, 5231905810511644707, 13642750337549106180, 12538844031185256187, 15394106030000206399, 8408638298674022865, 16293047547232505520, 1754340102530987054, 16711074874380689633, 16667612822645297662, 5939016643142041322, 14140958916834093361, 15736058267946015130, 11660469995725113722, 17474877723949259754, 11331208846289713028, 14755033062508577632, 11109869961643787900, 1482368828257271017, 7543039039235874243, 18179184252030613596, 17314004466841184825, 594737181895201859, 15525803512346632191, 1614868013552063032, 4773907202550875920, 10077531700507563006, 9575590123320468261, 9465752769387698143, 17878774071490165867, 7507241047844326666, 15124902799190039498, 9121932047482950956, 13640622018070412607, 7457883330973458391, 3554171674423420586, 18028533932256928280, 16836309971096811759, 6693367459791243690, 6973992269184209867, 6847550217969376092, 17135835059499813883, 1932800172300551649, 9323674689620362654, 16999443717363758601, 14410031086591856099, 5438394556172632044, 14736989189524151701, 1176095961444117735, 2728196626292178674, 9018989407697364376, 8564180646189470053, 906763532967838666, 9581149524289000821, 14969370982855170843, 5542585796219352282, 17902981785762424477, 11301983227013311748, 9858376010873528023, 11755449981130934967, 16656569738513878174, 4955594972242320076, 7930353109673791615, 12380624783452967313, 4928100049103565785, 15122138709315472249, 14509892160566732537, 10181263120201092736, 8013910803460002358, 14931476694071019944, 10929258114057048185, 15783385826601959242, 8668929530411712205, 373786300462336882, 17113737268273630433, 221073554576889285, 16925260066139056164, 7793256193719695024, 8164289174726124154, 17693462060096662151, 1457204149467401677, 17091154114871642015, 7313345358183938635, 9529169867161482223, 192005232306817660, 249946135447442672, 3148220627127615065, 8328910705187657912, 2355952408279896976, 8152951095499191883, 18179437556605909281, 14907086604456764286, 10410574944386056958, 14853830713113708682, 3671522862415401581, 2861135605634562238, 203102036376287151, 12864765035943042065, 5244440303061799607, 4648302319955960972, 16734847143934036898, 13682214304412139733, 8912304938065884106, 4780371931688154375, 2698056575935745608, 13235301197138030673, 10048480661917711845, 17917581621987051581, 14415056151814494373, 11476144573320508274, 13416003643389830715, 10487591979412192277, 18399304246983935591, 8665445446535789011, 8236298823909644021, 3875473762955446087, 8813634607876149353, 3907942495387315515, 7295865839549101794, 9430404409539590544, 812363826603850779, 10857308367101761127, 13913051684951856246, 3779609111320754824, 7289364946341749960, 13213458344330637346, 8304241847719952353, 17092599531394146512, 10347811822883490059, 6510416513587884802, 12531713851766769994, 16361821552756865162, 1787397877373930892, 1500598656204799964, 8618920054993313451, 5222795942067756505, 12792954075439562592, 18232984295416840604, 2571046057317534782, 11472465908428918546, 1491250066201098375, 15832778922304383068, 11533795074411993936, 2758063415761051765, 14818015758599849796, 6863860041218882157, 6224074288385895884, 11635161709806770479, 3742462794664395280, 8534919552277558885, 437949165576078656, 7261881570735836668, 5551453460801525871, 347084397017759890, 17458260322229241926, 13860962296255703224, 967864170735345230, 9754038828005967223, 11457583852132557473, 9328332519776280450, 5271400625300570303, 15494332655394150672, 5051562503056500390, 10007419120099255933, 724445090081274247, 16455934964613964731, 17484481315840000160, 11118054804280507714, 8658437748457675010, 10286785404899846706, 6536317300221949709, 16955242572634443524, 280712078427393320, 4166832973874754417, 11907251202368049887, 14236443826105150744, 3329927284713961328]

def kLanes7 : List Nat := [14817500653380942879, 6993685337741170499, 13671865110852935965, 14571754255039131814, 15260414231838775817, 14649032821281450891, 6981552343018761548, 10341599999133771781, 5071237918949663392, 4336284814721037343, 6553389742231106873, 6496702132703583279, 13730841599190468015, 9959987618333949048, 2101076924298091173, 10642807218390058384, 10120284374503278555, 4502586259132691653, 17979335328915895126, 14754228231959161077, 5006064148743803302, 1160669694068784125, 5465536734783330222, 12872042023916585383, 8544983458563240813, 2904713089193493928, 1634595548738763275, 1108064165586624159, 17812476705360996307, 4222772407284059761, 11257874752504406633, 2863742780853101883, 11514729394980750192, 13807697295219651917, 10752456094830099003, 11228521479500271887, 12694884956398607586, 64758452422000245, 12987306816640605080, 11887222362810159175, 16560454705903335702, 7752062171870280798, 8934134207439219286, 9359836744816499186, 5076560171276879529, 7611345063499631142, 16429659213432270350, 16575481817696625156, 11464766876434179883, 15770660316436399753, 358656361461087339, 13536455226498768043, 14496775282484707935, 9079115756230027153, 1072741222396002715, 6557563769549190286, 7563209326101602300, 1299469313323915155, 7809943103073275057, 13641886394295049166, 11671494484286431816, 2684081376742134820, 3666779050540731062, 13954488910317696759, 8360305361004212029, 14761424965453859565, 17888729201160711821, 16763896337685057298, 10068531543539873764, 17001857840664855932, 14503777643247664343, 16748588054885397386, 15480181823769374623, 6079611754438406251, 13206365308918716072, 10528720581949141926, 13003136633802940422, 10036559095366078932, 934632639355482836, 9580719132818540718, 8413171273412874051, 12953387444925031030, 3142825031311451684, 14532075309414381246, 5936873405069920695, 17286161329282843047, 4140367648869299202, 14919352558138237886, 4084609706312292374, 17743834330952481304, 4510980459725198429, 7198213510878480538, 11865316319051412442, 16361790250158151375, 2969756899177378982, 4134049299769942557, 9303907582915624791, 6166238218511210907, 5395310699324825647, 1348698001976996863, 18330392518862082436, 16264646422133383525, 13601613572212525208, 787921710904127403, 8359842713732717626, 10759658257789081551, 10462824343661290185, 16878566879249258474, 9276887514720621578, 6607297133378795657, 10402757188486839346, 11239763346037990037, 13772139940845842165, 225906541097598419, 8299448635489260334, 7862088591902951937, 4290020264315078351, 4964639552907693784, 2888694786877348423, 13898693560404957023, 3351835807369886955, 3668457950806730155, 14019281199678763872, 15741080002328142783, 6944791836441149081, 10583066532299204641, 11408209086031491212, 16776964001251929945, 10589777074350492448, 11366221658834366172, 5629060861079123626, 9537991003605513871, 3297821183065821509, 14838401670331687715, 14854411052537412380, 17331969167774951995, 10109137309894076866, 11312160535547168136, 5921137816646465542, 6275955799815509047, 6706988515068890705, 12385843823207137252, 12437037443690424330, 1504128660919086009, 3301435904544185084, 6723924404418851763, 9207142343971948929, 15629407650583614488, 4986991670311914842, 14658910582987696695, 17139388273379611604, 6184528493233354100, 14028463395908487980, 4041930440862256797, 15540797846835621089, 16232891512410935903, 3678276984839112471, 13087774100522395613, 4158663213765333947, 15477136743313357431, 5571436927231357381, 8191935902965220528, 4090997338441438359, 16365130437969073807, 9910299104936246998, 16867016026882426356, 10116500280975162435, 11768467338514954095, 14659236466825914291, 1928552097837393611, 12419540896524194399, 9044252974446632085, 17520421733485396083, 12142856615183975053, 9684504870060547732, 13119289901312356910, 10860493210770752911, 7581547174660660093, 15969083871335894220, 3247070167099579289, 13417165156200349463, 8071751264467046704, 10639480461932399469, 8992555746581905590, 3831693353101792649, 10798622250515299727, 8378703674859021172, 3574542724449309346, 636328714223565378, 16879942202896978128, 8817206258271113907, 6831124806601205452, 1825754977056341085, 14301294842438312023, 17399830242260033317, 16071825377353195959, 6613138059625367169, 7852741256876683460, 1299349631187811323, 9269980863747392809, 612161455028849385, 14594948280876157580, 6315186089471863743, 12546283755442677517, 4177825373559745352, 584810426680529726, 8439604931246575655, 10879586866710913278, 13952547229261879472, 8010306649176583945, 11103591691971058536, 12726396997868396882, 5283742046562534210, 6832860252062900765, 7464051039206651626, 12719747973109464545, 13705863929882771180, 9196970725694847515, 14558648299713507067, 3195632328991771544, 8489688810525793033, 7940084615774294383, 4966516901817702636, 10614140260419229648, 2362687699913568430, 8600742030173839134, 16081439931071536399, 8275488918650674928, 9493270937042609983, 18190708023417240550, 10294082797493632116, 6292675176499265251, 3778381693292226077, 2647505159435907014, 740739718655701162, 17007540870005198061, 8750564417796420254, 15681562137442969617, 17818782031547400703, 5605610974805726656, 1150463194364763720, 16003649577030283231, 10580177574225114040, 6610920887553096019, 16007023753854381854, 15601355563847420486, 1954339807283173925, 6760783033665158194, 13394712892181102022, 18201833995688932759, 4072686035808040312, 9234480735922626346, 2773151552948865861, 559666492133438383, 13106658930281637963, 7172026747428047857, 10215201684233797797, 4872910715852907427, 16230606217778194574, 15540794074411890208, 4960388922763452881, 5930286932648019520, 10686838547400622122, 5970232441307242155, 14918865637182744314, 4698223167855117406, 1626661128250626104, 7303836156915240467, 14147254712830628589, 17690933371439490446, 8426022852672930186, 5926342904718063975, 6023448996213377480, 1951749118330682887, 4166636653720956072, 12706909537677573777, 13585699751905601522, 14132895085690659719, 1337788338812371241, 13552637192917978548, 8723162570496147333, 6742758485342836995, 13564213376919877011, 11773166227944365264, 10491140114957303030, 13070794981110926574, 7131896927570631828, 16111234198023930019, 11483172740077629650, 7106311962686936426, 5643725787580410157, 9936454981956702526, 780876083886172788, 5002872028748578759, 3205672702168887785, 76252262297286274, 12589374105060604765, 6403868398500116085, 11280639014104227878, 5289665395907402502, 18203020097037237679, 11831418045915846296, 4325894459272471498, 14872548335308533975, 15525702954097341258, 12246354174818143473, 13927249654040067984, 9172929802939799213, 6896584795537942029, 11866847907556056258, 4648452514264967017, 1219517151394329708, 12737240742224986034, 10626710450490210694, 1501360980268210320, 3961149752416260168, 15565358328984761782, 14510693455149499253, 6638677484989759790, 15971930660801426549, 619724423564432560, 4812650595404470425, 5144005879859333407, 1244041363684673101, 17291855284442821719, 12688634363943697497, 5930173221325273522, 4254565890310528828, 634251645007065350, 5434860089097214095, 7665313448984225572, 1547861836595807585, 1911042805126050307, 8668727570926106855, 10431214381247110344, 4957941030847613562, 8335309802695474049, 11537895614717114530, 11966399860633768234, 9230399111571751352, 8474835529053007725, 10301531205871482729, 13522609534304706669, 12655886089996964328, 17687547604638653105, 2432686930322999141, 1216591472231181826, 10127524101196245109, 10081866667096028176, 4589009711195708654, 93739670926210658, 2181565579560511383, 10061342144594456727, 6812836268423279570, 2319338605959504444, 6857097312453159133, 10903103679354183411, 17135808981442379236, 7446556045835165627, 9895966337223550570, 16504839480281016732, 443761770988031282, 8608157288806571320, 738282572622742202, 15008798204391829881, 5067049395788049060, 144987220710988906, 1240316276768798112, 6059854210728209276, 444328522316517129, 8841167221358731811, 1967507233146317444, 5177568249323767316, 7674796880073488112, 10688626071669962305, 5287226658614985596, 969913882704996491, 9150116920419657216, 11895977916153147132, 249865887451482276, 2608566190672133659, 4305707367685442535, 11812657883037881716, 15557437454307855176, 8500903847855832126, 9961536613934526835, 6231174200512585573, 6669766835603239261, 3508423527096947649, 8399959984340178842, 9561734152230121306, 16960708661282172231, 3387065989224285763, 17792107878505226134, 8975651365736649023, 2221398470809826493, 4999121581548845201, 3358320257835606084, 12881793145085526108, 1703917975475212239, 16354140666188197822, 10231881124910701855, 2281776180650498397, 5287895096651610806, 14228921097065024701, 17715847837809756, 11986387398686163060, 3017556133918318130, 16520131713076744055, 14072526335365372432, 6113775329384589907, 8222986177321738192, 685150446306470479, 1735990268174240700, 3724783150203915466, 10945369066844480853, 4349182328202774622, 9048445530686440038, 13315910191567326747, 17422290783102802080, 17771395825549804072, 12561168697392140417, 9914730333684837741, 3190962791372060299, 14772669895546130626, 6013747643409017641, 2317462341413545921, 4766577049050220050, 15108213990327760513, 14174925520312796743, 10293036951168955527, 11756328770843875592, 4237691768377986159, 10130443729869975601, 14483494188907864439, 8420737816646186688, 18385708254382519624, 17437483453638280293, 13181225217158138432, 10387692725511430708, 14834491951949469801, 15871424435473133952, 7305523703800577469, 8806075063412550648, 4075715851604266391, 11371189183757197079, 5525411042334613637, 13501028810954213151, 14286642174210643953, 17625516775651976789, 12147568527743670291, 11894540907998533366, 8258483263857248144, 10064432857833851328, 5210366314467501490, 271342896384513485, 15794884989355148751, 2047521289115135882, 16069515784021670672, 1862096825511192477, 14386982595539451363, 15127535796119570291, 4862382587627609505, 11537682562286397144, 13461403006451467951, 6934996461737381474, 1884257617285629236, 7379385674319405001, 3994711644692760201, 11596151881407806472, 1863860930392043438, 7478692279051815615, 15420964846367417126, 17614137874577317006, 17681105022811073048, 5299089516453486591, 3729866328780582593, 6983535493915476410, 5316881292361081385, 12869879330723136784, 9168621132160096796, 202401032257458197, 16413055331357874148, 7447917474097129282, 14747421704330224014, 17119811389021880089, 972976339998021429, 392931764327671741, 15650384998865368911, 8987939153863465195, 10314934055199590327, 10236062876821482561, 4518970468540195058, 13358265445486118911, 3749508431511134041, 5778261759676853627, 3746922587865317156, 3532490533173083545, 198238893482908613, 16844916156319671819, 14903801608131939557, 17395394266726268835, 9112859147998874303, 15239289236833395857, 929829273755239690, 10188176562228463355, 12053494350771791067, 13756876044144788930, 6720823530947009855, 16433127264929494356, 9230319803367971687, 14991923536172022421, 7473765839449193596, 15286090151896142861, 12828989385408170845, 14703257278876904060, 17729586755396465477, 6898896810029990470, 16667827639661116251, 637638561700739590, 8287576264577529028, 16675232109464286707, 2307200657931269989, 17034122411903475798, 7739745261787481137, 14005675265698336605, 14818076230911797085, 16514536466408588204, 15272748175723976273, 12869965163456651479, 18396026773823436901, 17918579170925343292, 1032049712726222248, 8488665660024102869, 8701021356780381494, 4381689895276050661, 17436959104913910933, 8543903004011981880, 8119304421297794836, 10226957363421245085, 8415637613591605520, 16852199749070968658, 15026104677171233821, 575553801563562476, 10744423452613789153, 7106470218339240371, 16016377885424700930, 4505340328884834105, 3525567073740579240, 16538903049726102625, 10971768087613371790, 3810056109437597667, 17112803634929067283, 565045523112930805, 9227416356450797995, 11619717314755306275, 5102578392538934, 7846969700145068821, 8148350657447115316, 18313336982336934353, 5385514656509366654, 13431730601111577781, 13614291176962515335, 13968499569988442313, 10586294505358952798, 6632494328139868250, 307344727903574018, 1840465962677613539, 3771336348918311127, 16463772821231603129, 17535005750010653348, 8564533434827135396, 13317572905042847018, 3992599164817727193, 13698767442355745532, 9496820098010062311, 5139871310744831500, 1035467063091522677, 1660034200947834593, 13137398768208908149, 13450996632293270156, 1500684130523979066, 1073579335940430112, 77506424623096594, 5591131470353149149, 16596839427549937089, 4714611122372542652, 17810679789795507543, 9723939168585779430, 9760639905714622844, 15525546539424697197, 17139293609067443896, 5379584714975133085, 16261968508324019692, 356680401829127676, 7222418018772004385, 2326138075649956905, 10701176251823579620, 14974981749332160369, 16380420307702445989, 7029363746315194328, 15884576891201486052, 14151197369308874788, 6525037781891680036, 7948658325001539090, 2598025723692148334, 4711577199851089202, 13142063406934756389, 4738925115746675609, 10050820470651618028, 15113257715289244932, 8337564743631941947, 1148833583543727527, 6187701815562322472, 5003984365981589669, 11290244458287889642, 1401503382483322374, 1290877876538911533, 17406724148960926299, 14457798049839751644, 11253921739518327129, 14378024403184535204, 12854836508410794962, 1737969677783686826, 6256929770285274506, 6581771834884925407, 12055995598946255298, 2227924889010797433, 10162314562481596458, 6518515500648102274, 6460145773568054417, 130393651546604268, 15536279343750296124, 1468878353927430320, 8782750536939344668, 3955599773095410459, 16285250997678434412, 5344296263514510650, 5656594385058029510, 9236659726850056844, 17572079916198575964, 7699814972141210412, 2402706875291420568, 3679194032375560755, 6622360651275697708, 3492822268213429292, 2522492877108287577, 1836531028631330616, 10033700803905217384, 11795568182389317121, 6863339306267045458, 30018261252630026, 12106476918632590276, 18101092991796702207, 3091824100621152194, 5493550559467455570, 5934603781122042008, 10809513017082472763, 3744253704393632726, 17549627409477579435, 16049544064175475580, 2238528415951536188, 3616969187535717555, 5114573535426175022, 6951288916638541875, 8996358370955398377, 15380857134793361751, 1225270643264272261, 10462917876572939268, 95444482183689985, 10733659809101723438, 3988865947186685691, 3908970100661731493, 1464416755618888723, 4661064995476219417, 4407859109339731427, 5520430443461078788, 1904853883274361033, 1596813074355822132, 12955434980351567532]

def kLanes8 : List Nat := [4501202697078390355, 14360065839789357939, 3964869052874932986, 130995089938319756, 14868687784759941186, 7890070526264166512, 8090436654510872702, 15925182667665388415, 9941684168508955779, 803982429072831938, 3000976555040959350, 14291807075147024564, 11231701649736597093, 17678409316353681758, 12758495341196014744, 453491731207656988, 12055022538595483232, 9092051936075887472, 9179229199824323561, 11076096237114495949, 16844320708750080946, 10794161761985969714, 13096950862787639491, 2974845446941886136, 13118347742746160120, 6756126861511732250, 15056521107695445019, 1895497281921162584, 588384590654394886, 13514058366615098263, 12762726682835134249, 18174873269513882958, 11106392321060736779, 2328352056509871628, 365723960014152527, 10473560450271046378, 12732852463795653206, 7330065864487273092, 4193910912539217837, 18257990155754866938, 8322075534576677376, 1902412163263552495, 4004175622106590302, 1490835283009013641, 2543364866708900705, 9832758208921574809, 15058156540626664021, 14892266031975421176, 13022927694705671841, 1683047941745154733, 11240358252307811360, 12108098682836375197, 5437886610965034083, 18398396236425799902, 16669647537853121133, 13089548048614187708, 16646016800715408578, 15500756619984488548, 4900134167665395119, 17068408983265936595, 16620088015094102745, 10796282063410576153, 12658885161863854812, 12335265771324318075, 69718667099743148, 13645997176951931418, 6492086151860743192, 4496598433362331405, 1147373714454781193, 6561686763151648532, 15605164106129905353, 14917321577597430453, 13610010484243190448, 16125461048904562983, 10157982359203984192, 17157943148931181221, 14715386240140118490, 11021824108331806580, 15071803913321338685, 10904390220409201113, 1775426661150477730, 572737518642665065, 10824973533540930994, 13120598474372577553, 12032303513920987207, 2744745952792210270, 15454272869663454732, 4717135247260209308, 12789440453883263936, 4041930761920080361, 16564022202820393365, 6376272045460656694, 18129527637956916852, 11928307095948816726, 6561380492129588055, 11016134537677781092, 528802825547947648, 4307676409060577236, 5827588596736431615, 4329302247844223946, 2631315243331727693, 2280902168348856407, 10817309630353539612, 8354575007223984467, 14882170629737123895, 900314754112636025, 8960352778681877410, 8144897472816155273, 13872695443112174441, 10315765619965944586, 16549260315116987333, 7454691995082961837, 188147370991365509, 14021659237334804248, 11421444657709603056, 17983043898922600761, 10160115613989163707, 15337082046210866638, 502655381509787919, 4737768209755403413, 15353162475632878316, 5991504284056329167, 209675166849975594, 15886272248387799446, 11640673262693572820, 3235020554758649637, 15806598651448767711, 4404171026811324942, 13012142664191523502, 8131611328460596079, 17916693064343020377, 16710138426856140374, 16920727207373863903, 1028066731166798487, 11998878527611669781, 11505767589358454385, 11252722831306034992, 18108275555742291987, 13355438548711333984, 13032211187499798225, 6117294478110444645, 8789351733527686397, 9043856648881362707, 11254746785168716808, 13602376656177633542, 17592335333679753795, 4483092752609673973, 8985082229643882618, 7594117304032694691, 15118849339986725488, 3872921177707345566, 8208066582622063353, 9774466736491499448, 17161159829261772338, 5561395591532248064, 9397280156248217375, 3662035711662799328, 5563094206053275380, 1418456129398017066, 8518776366566101841, 4403039832509935129, 10691879411996681468, 169335137202883614, 469573453090952696, 5411768379902287229, 4117801331650314174, 8492215371997065207, 1611116301681309566, 3583404740110116196, 11240769929506793508, 7809793793498397183, 11417563012302922951, 8775695520696238078, 470029859466367734, 7039754564401705223, 18310494909199400845, 16102198759173369354, 10469975016028238810, 10876638118961809824, 2334697775101042112, 944224468783930959, 398805466380591888, 11571858999657360157, 16901391672367755773, 2851885110159236503, 7405882256595247485, 10083391105029253642, 1043739384551142096, 17287909649555288042, 1376038948607650081, 10158773596608219202, 588351621007635838, 3539620420004950, 2850758911038161494, 17156656440094240397, 98012770187100972, 8948576599954076846, 18217709650218397825, 9794797308474659309, 13086744053175612869, 16892436234114130524, 240158614893471895, 3204243517041994718, 603274315137072274, 16608276980049672268, 8934958437841261808, 16839450335155005868, 976960845978355990, 12030879565531144671, 13595084283424953894, 9351651366230287153, 10392721710573523948, 12033640987369817517, 17614331106087155911, 14200716673453432930, 12032666031092375481, 13764552725236508544, 588251891114827871, 6879924838431218682, 13811296766339342290, 1651572077245391167, 9636068593839978541, 7378666566842266915, 5708958269722035414, 17498699056719589573, 9711749714933748849, 13257146470089174854, 9691040243081644922, 17076745952521334399, 12691231645576231291, 10429480089423337921, 18118596902196907530, 10095285434080717982, 50417218356881851, 16055428839894751712, 5508172760977064701, 1397091813753138725, 16268432401464636290, 5326521547010229012, 7939602688568322394, 11273188706513948186, 13529462470841609241, 3478190092257363040, 9461336958082162020, 12618334868103431008, 1559111302301007995, 13006893515713633084, 562561466380596746, 8945752525151011227, 7962419943122533190, 10646206557045967026, 4203677119079362385, 3283604914520541898, 6602148720552808334, 12260857331775515276, 13297953476307349036, 10535033279731540759, 7407885223420661811, 18211600185550695521, 9163377783113769186, 15798155686259064370, 1684955357489650214, 1880997643956485031, 1878949539475048242, 7446553661274526296, 17509545942366892098, 14712058665306871625, 17681920032397183583, 5754638644617305304, 11881565601200811987, 17775614546802155953, 2166838592478653752, 14432824084594952711, 10618126504535622761, 17198189885320946107, 5861396186152843128, 9909164155382204750, 10090794047468911614, 8677599202250477289, 7535252612303577696, 17093016912772558435, 5428406371113068610, 15130209566544822933, 16206827675809969510, 8645999947070790766, 1388273686810653458, 16440122520850775530, 17584180742937261466, 13614557478584008981, 8054929503754384569, 4558340137742313113, 15130815083756386389, 4202873428231323257, 2754171651838360568, 13142205670561752963, 12722852515273446123, 13495687188459265662, 13628306666759900840, 17166748855330071266, 15700068305135691155, 10863893165622117836, 16381326100531093001, 10356168880786271778, 15509057224820184976, 13025503463873050858, 6881768407083553393, 9215434174993132493, 5793528650613478800, 3181412194612562126, 1721687393714342818, 12515489149525143931, 7798459641349532251, 13029679042507747402, 4104513177905455538, 12574605087490115098, 1767720228080935184, 2292470581549615374, 4445693073894986339, 16008912934808240994, 1955459030441953375, 10802056468411791145, 3095903521296504544, 10129339443907976674, 15788714801521541562, 7029983341230554900, 13199653762549249531, 17997901183825246069, 17001827290904740894, 4918513042254523363, 5074965232407727811, 87518420428220397, 13329684483759117611, 10906311095085667718, 3007493661545059593, 2127866755492341582, 3317555197388635751, 5638502568665131721, 2851775700909769971, 5302002177511803898, 16927705796658194360, 2213876645541910952, 4232463681194107671, 6811120791566960540, 13811975381135381052, 10986671362783553131, 13889030057027356375, 1915913513887725543, 4412186934297288044, 1971906023859268660, 11666340688878403580, 1367035341989605360, 4934892817608181071, 4112109058343276536, 4935872565534270598, 13470071040353653327, 6138662225433316435, 9145558831420036738, 9937085464287523467, 13451365862061386021, 3482537111748424268, 8459196433959820890, 2508095548129901882, 18069507778780513905, 12040259026088232603, 3595249369604350476, 1330440913941464580, 6942258909259752137, 4380544451464847019, 9985133194574026565, 13255389528699307003, 15832564509748321023, 7078133894107107842, 11614639041643870820, 7816100974671750045, 9732307916575156562, 5429473595888026987, 8284263843046843906, 6304818406459065435, 5794967746538648833, 15670280317774068788, 11240551509489160398, 8507757922676897048, 18098050891861451365, 13783559829109715377, 3908266061091182812, 8200514563767249652, 3932909766314193584, 12731424263186309321, 15689840407399227115, 10526876162973910140, 1334799975894042606, 5662048744154541290, 11467491340511691084, 6901390070599594507, 3830684766788033924, 1365333395947761479, 14561761674278072581, 14787914416735155691, 14103266845429716992, 11589024712179127819, 11470907410691906584, 2209995838758131546, 12882731613122988330, 7277100442411983903, 11296615956156571398, 11847605891758302345, 10931347381806611248, 10299925068110722061, 3397904915820702078, 4160010136324872373, 5772981567278846599, 797279649717664317, 17480550948214325936, 5639972860260403214, 17669895584739650391, 1247211110769188775, 13036393034598816720, 10919911888183460189, 3536898220692434394, 12781965060640012888, 12034350494498118235, 9911831981374476607, 11338932719855033434, 11855840802728247142, 17387376341032719178, 11141513904174842869, 16043451117309165592, 10539925029301315520, 2281931096373576898, 1199481440503934937, 17288456553753510483, 4970562616334308757, 3356520091819181460, 3517891291828093833, 16045629626984402600, 15279399549044213188, 4348078310910462263, 9040738321235886113, 10234730026604199259, 1456470782659880982, 17819718509876393250, 5819324355697346637, 6388224033567920298, 18353348031170908543, 16674279462233014863, 16656191149493217437, 17134634214159677835, 11846644155095651949, 2893787976597623403, 7878401149640646854, 3101714166635225143, 4230906563004366378, 1191251349363549631, 9476119550418568676, 13519816033130861133, 18055925646121011769, 12335656762405912815, 17743042498634543280, 17966016374113664700, 6190229643109885069, 13651389495503588820, 15522392186961114663, 550384585972977745, 8188908533171403655, 22856014525064845, 7520836549391276757, 4380222251440507814, 7973945436495711136, 7259955586934717693, 17405288496484266359, 796536491555149949, 7341183679244677050, 7297686799263656644, 1191243901203437763, 7731919866737164756, 10463162741096459318, 15196103393282860712, 1385545522137759113, 15593822127693979544, 8292550663174058581, 5993305371120259822, 12826592846624304850, 7740435165713384859, 16269593248017214917, 11105766765316440677, 9412279337803137107, 10354892752366570676, 2421046431146830894, 13151555686216250062, 16537553183503832478, 10255450173797503618, 3270013640634094685, 12473192719917389145, 12903168163306138657, 3894881720455519504, 8495898771598690058, 17977933940141151985, 9504997327165827216, 10689138876149590583, 15004826047777499912, 2324854562097495228, 13931075352618339470, 379304438123796088, 14093093886417333082, 5180661043334036392, 4013035194894195904, 10962485225341598179, 388376486449812946, 14300613226746859531, 4698353160141399973, 1726354437636495455, 10520304418941240848, 792324976145248726, 8263632567221833450, 7295749245413750562, 1212866636200594730, 10728712048535140811, 2797870546583881381, 5585014151847139225, 15658276898337772802, 7087781798663680826, 2131620577414148918, 2231467604259185148, 13169602265547715429, 193863403119260945, 1574768539120099374, 613194179287759177, 7837901934149974156, 11264462064923736389, 13491301881098118793, 10382089233517646413, 11074081432394713295, 11127609705494239866, 6208993709005106548, 15887685278473404830, 4605354612134758591, 9295752749061683167, 17105699879304753179, 11625589347258019084, 4553830420083981345, 11000168894896966408, 495469134211143776, 9784228555934407037, 9788695606811455847, 17968686467101539932, 17782337930727903747, 10988983121665488819, 18181212408762643165, 17526155991571068707, 950135354575560176, 9563998681952062222, 8701606810967203151, 12879432396192435846, 8932071493051679718, 4181594790542014559, 2526271083778818513, 2191677484189101417, 6624959044715782827, 15317977176624254683, 1331051177490136686, 11635322669056323542, 10254926582683450865, 14841306882493997383, 819816879785361644, 18335499668169989962, 10813423676993743788, 9943342938893154476, 10910141890125855598, 4864102274155380208, 6380589454768065710, 15145095771661898328, 10360173174474507885, 6551963650104234817, 14951834910576886226, 133075649957833045, 15860031529687645857, 3242770059273078583, 11895005687312175299, 18026705990141407980, 5701749473783290969, 62585534035950222, 10921810704560233498, 3690907975906083915, 4846711367792028888, 16822573362838481583, 1672536098954890112, 14155568924175449992, 2999575840551379453, 8415094294358984475, 17281427725843988225, 11035720515374295268, 15687651071688223253, 7900422927177749983, 3853584650222943774, 2890427159442117280, 15718914634829500242, 11339401116511896643, 15430707863321227527, 10082647822661885723, 6779796750198031252, 1042457722938448467, 9315957817712064815, 3963030202035269739, 14068757942710393952, 15410840029256730000, 13275523309681319345, 560961376603672401, 6413821915372185002, 14125062517143857815, 10775626845813013457, 5912995612386943166, 11857699070089125319, 447680528471251584, 4222658167672988625, 7318643508372088937, 17809274430690611482, 4388208788953282914, 15102872116471837985, 4019229530487022500, 3483151183909535414, 12576440720460110465, 6460653376019777600, 7350655258750642782, 5705410544044934001, 11653878101262846010, 13727206309656771998, 15547374273566284211, 18166659316828575969, 14898985066046888406, 3793755983231646578, 5433140038715869063, 6813963912943265089, 16291443519815629640, 15526264468223026704, 15944158843661598637, 6458314582636367254, 6934674781487892405, 14221002682672557841, 10529779568696548276, 9397116081895877975, 15757996408955658049, 14730573305981128205, 15103436982193141990, 5602964207421483100, 13688677526194700302, 14952607184919061851, 18240338388843321401, 5955365082808559653, 1710530096678014535, 7778386665644322853, 1537329889183961317, 5948173158717051224, 15019793993596278210, 57077231364188822, 3754428630638674539, 18285881833116593040, 17418835776168085483, 10758482683242358607, 5835501713428893456, 6234574682701800697, 17106319039885050976, 7167332696993061406, 13396251697143669332, 3750041956508303745, 14241430163077947198, 1112796869115486180, 5494034991817544850, 12739844423820152390, 5951002866344426781, 15546126704125687400, 11570397274345261392, 12083451384506077490, 13200994687367409802, 12536028284976999167, 17221180231581640333, 12343709229383788737, 6187470916260094223, 701055104600227775, 13571090801328443965, 9851180527529617286]

def kLanes9 : List Nat := [8300495718100312991, 2176193952472027111, 13408826440191011449, 912202858399677672, 12882462002966220417, 1673475350665590265, 17095825027461887142, 119228271031670741, 1054541800474160309, 9626547098750772397, 10536440661732123638, 15506296359181616251, 18226154941965939524, 16933372919334606622, 1936431657216049873, 11962214613404580516, 4550887553882809732, 9457076588847160131, 1702728462376616361, 16232787681419263420, 1424521498160055188, 8759860915458751351, 2615555706862809702, 935230837812691861, 9660322088810789968, 17907592729291336842, 15553768466201455662, 9295015152011101423, 7946116211208601378, 16207498651846031401, 18330343526850664640, 11806809090647714567, 5520592883437328485, 3755091932494769118, 6393654407766155681, 14915014013820837806, 934243852529729019, 12389575289548512856, 4867061777736063176, 12957151250281971810, 12946284861781363592, 11126615790403707182, 141384726748949892, 124473707986317403, 12142624340478074506, 10798641976392420315, 15222663759337328663, 15280866321654938183, 10688098164423442227, 4054393620308587107, 347203736978682168, 16400231514962124935, 3841721166703150696, 7713111156976638764, 13190503213899558204, 14066862286330160405, 5088989898126822042, 5730580658029428542, 7241157899146393270, 12438621175948530292, 14905154020436589825, 14455981783170102954, 5032112628853885906, 6377352056958538653, 9986604343989730410, 17081527043758491042, 6567793952213608851, 2557851006660137326, 15239556812347033120, 4732710311383233171, 13583671783000081850, 2302495245697397227, 7405356829311882496, 18443764356694908360, 9755831584199831386, 16034975746356302439, 16005636579033780932, 1291759914167685721, 3150104730979097981, 3323384050822678702, 7918847539427475496, 12337526377220886537, 10574988799590857664, 1516889930940788755, 17406882345403146375, 15305317495473090595, 13020062148841419835, 4615137468489866915, 11784907283222260198, 16918238798409214704, 8819615077483738786, 11770035824771994783, 16305486488404363894, 431811241832173227, 17890247334452199486, 1307161608357446086, 10474010390307523208, 13503026168522063150, 17457032767791552446, 17565242431763330908, 2618384003009463612, 13459670536923920303, 2652808430239670738, 8282065658230635607, 7053674837780841984, 13046647379587533392, 5942689378613519198, 10290679514361335936, 13004531682435805586, 7294770760239555701, 581619285625011985, 1241083453187828556, 853799303862907863, 10134093992030692119, 12803177071123341261, 11923553975270163536, 14871015663886610162, 14766394814319277305, 11313812823139874456, 1652996849053705394, 3180951315508536632, 8159698506961345548, 3211089164116374494, 8458208765743937248, 9307852628824311048, 15651760441823450529, 5288694124883149736, 1535113893420818062, 14995155411342807156, 1256605653325653058, 15122794262675066168, 5956910468701576805, 2208595682125323199, 3514345431480359670, 12079188313073305762, 14125897924011215190, 411426770408704555, 6157491346472771715, 17516667318297883636, 10841622101358468134, 16368936789223306275, 8715234091796104102, 11979242066768021876, 9960159241702319577, 9987059581767158751, 6127752269843957447, 9300237453161480224, 2019276775568372962, 17056579272132939089, 7453155879723752250, 7253399757826560033, 1390159039281801472, 12042085938802939417, 14478812124619436334, 4783030023833895480, 8555450996313962467, 14923907441796160570, 2171790379418561090, 9189402256930567839, 1193116477730014020, 11168582607277979761, 6047038885834010319, 17798889666757696975, 16583435660021934901, 9833893930538478204, 8177250549197624192, 1476367932159721314, 12920244906351015798, 13701279318084131735, 14351714242932342948, 13944102013230238966, 14924054342213675996, 11829183316507030132, 3103523892361342323, 8866112972120663361, 2921288573623161556, 2887260665362126155, 15473598118697300698, 1671737075361291641, 11534347059418180533, 15342158558826263636, 11421073646789880847, 6470819426965840957, 9674005407209025047, 12094573400416146885, 6332391492248604393, 1144387194885396909, 12835521093978328655, 9728032682975530080, 7224387967386446813, 14998159440291603101, 7488409460244209058, 2188518372536477520, 6898373160226038547, 8942005857136309784, 18286593738525216191, 10184644527894301948, 7788162250511390227, 16905170261899792694, 10210613447728166888, 10519999956029381242, 17669733397017337805, 13926981183120814318, 8774416841893543054, 4821383805247234591, 8057587510870652227, 7579130174032553562, 16716919028629889808, 11759582383629688508, 14384664776030826393, 13988210084630321103, 18166503838694851307, 16231590563054095104, 5265902621600822373, 9462264319675502341, 13088059374910302644, 9638246690490284996, 100629362017427150, 14186309685607854832, 14018840815974601735, 9608873527795912663, 1447753282343585381, 10886443154222744992, 6681816515074921449, 7208469170727017895, 430953437222090263, 17652064838074241992, 1916679788884216468, 2671869499852656856, 17615413353657319398, 620195670284385130, 3768872698116119021, 14792766278981454632, 6168666019878385339, 10428921161385193409, 5817103450054245380, 10022209308597605642, 12461055053694166782, 12803650958686593516, 10336840784482949855, 6103750193070729492, 13838247708489117456, 12969670946118441367, 5516753604349805665, 6998332090269510217, 11060433770481517546, 3111001235386417420, 4997293281283175552, 2309144368403710560, 5942456345049935241, 7982158617220103072, 2106951078719237446, 3641228180884371273, 18250021997488509356, 8080827127676722453, 10646566111373453567, 8605259393529588047, 8694296401776634128, 9001549714619480533, 13763545728779603553, 9540760310330130739, 16390740216389991141, 9260360688134592488, 6353666509716154683, 5992886843086435558, 2285793964241316856, 4715697975101194167, 1814856790489292397, 5808095316119527019, 15945777752310658850, 2994354515992992492, 10595189286460929833, 14666160000529780472, 11177690748689204652, 11220097270417615590, 16408036876912023483, 1105094256562314651, 4310859913324515924, 9889772395149484981, 16177213327673946871, 5951417716991038894, 8184474797228523583, 13206544612831552033, 5571495251194966527, 3252844600276690163, 3436719148780481396, 13499250847253213402, 17147805930863788492, 3230535305304607811, 3576189031800048359, 1890012888592501330, 11649404561734124555, 1915054458811400077, 6134628295440393535, 950378611936772852, 7159573438101860727, 15642443525393626249, 6247853368152875314, 5737270064462226723, 6949426576129169806, 18050283572637060609, 4381923074573082942, 3525311637201886997, 14428468900659272594, 8876510881420208534, 3511327338713205473, 15806943895103366938, 1824153043020020473, 12490403204504931262, 12399498417269975924, 2556951125299689411, 7818685475669852462, 7948282182467604726, 13065915447894366288, 9413475753191935120, 3548197245953978651, 3430167485388641410, 2772595818179500503, 5098451388440667788, 560558889939669493, 2870303755877043586, 6340707706501163976, 17930763727908116407, 15331901013391690836, 15977647212562241321, 8426049792809286358, 10984830153753951407, 14582100893125254349, 14718622447282388740, 12759352945609941793, 14605438232900514585, 4568523927196556033, 12893400028896975034, 4412991531297564338, 2493171706140327232, 13512850922117824378, 17132461653597033830, 6440836288131992765, 12068450488361740301, 10794382011672358864, 11909616659699471449, 1324447250556767055, 5914907706612494489, 7195787205640685955, 14310410900794392219, 4300312288273790719, 1705380141949813686, 11349851450107083485, 6016657749671023622, 18345789719256908617, 12786109290197026192, 7657963413697336499, 7481154613531149790, 2972395635921300768, 1837277423954211747, 7644635806520465488, 14413138710601949621, 18054728271745882596, 186668961122634363, 7906061309793033152, 13265889833176445634, 16144456031157599076, 1805295264679528272, 16255614531141145064, 11470163322424392099, 6049289212502713133, 1334030856572183684, 8230261471348912774, 14747538559914967891, 14764216651137585286, 10303571495619438791, 285148821971720572, 17368080143686383132, 17137721178832620114, 14114059336417153885, 13896065364279385546, 10554716851091787009, 16930114055201297801, 7186281592920774628, 7606636281775677930, 4254203487182902584, 14163428079687034810, 7252082857822161706, 16561453162605974718, 7977762918241360741, 14693916544150508627, 5314292964512285874, 17629049183480385690, 16884165335792764363, 14065466154048881869, 6684288677955392573, 5144314704402744317, 10898831993888737303, 15527881210736858741, 1022805780302159756, 12150440690056991145, 13737973658052011185, 11247888478001872424, 981414715608110961, 2864720825724127373, 16842872490192930311, 278268999036572405, 17935653714501029324, 17864560504642180752, 13516678386492557080, 16256528704092968068, 9866876519254122967, 3965437860827813361, 2786033601618084070, 3377751715183818806, 5544278663110245426, 15248729113238107516, 13037037685113996934, 16953013913854173466, 17832804368907465364, 1564948427667783397, 1858347603503949242, 1623026761067388114, 11886834152538591696, 9051351389806739677, 1915045304201086552, 16054120387400326243, 7507354132290020066, 7368434421301104271, 17340316798958911210, 1881665541945475628, 7400377273517381415, 11708180038976895778, 15546119848879553110, 16304525215309514581, 5790577808305841662, 8061328169271125329, 8204310690033386287, 6594263092942021063, 12494530226624540768, 9827914304187114271, 10937546679281570638, 17210765972923851429, 2495063201462667805, 13614354993843930712, 9961209492740102477, 2941381844841454317, 7959695597700665634, 5728584323924595733, 9642422506131366342, 11840230200440060571, 629002667800443752, 1061112619348763101, 3827344156923508650, 13379464863796285696, 12129177832233166717, 8755251318889129709, 11153496049151796055, 1638468263908241989, 17701598624473895829, 9033937992443356521, 5913920616856736844, 856146514346121301, 11247232649559296608, 277798234049278417, 14382932769002505758, 14138992082587509257, 15164792487551251810, 1515539391466974371, 1759777209245766512, 14261867482003127255, 15568745105277227835, 13020948502429733966, 917198461068709465, 11642331453883759658, 6357000533276546702, 7096107658660649731, 17205198372388570038, 15527949422087440699, 10131613551760027214, 8297508431022321317, 5249105462781388480, 3397335823554503832, 17772672606739598116, 4356912275779324340, 12296540509911147613, 15962458245707142054, 11178168534529587881, 13911395006583886280, 2119969782436269284, 14114532608738577590, 4615295250867211955, 865622964163286734, 14847456782710978290, 783121317322949511, 4580570897184957784, 3832886661460767103, 12478813688547494440, 3724923419836717991, 15663682626552005701, 14326863995771022702, 3742582151200398656, 312084489444847150, 3850410772147817298, 3750875119743684885, 9167427619349671253, 12686269534046617376, 11913386497738015843, 17734132595169221278, 9856068940461785643, 18356692015657577616, 16784949213109369552, 4175808447254532798, 18254075599667069771, 3628280021282814779, 4028381022160428634, 17463589211753866476, 11027277401930601585, 4989682901789087086, 11629178938811342093, 2964069404983238060, 880932692088551988, 7184029528909800446, 6089791032433010620, 6429900395228191414, 4872330948745018906, 15041446192751075967, 4872810606281631288, 8097176720380282933, 74520180561085727, 5288345597908219237, 11283000252074213587, 9979120038385026703, 17583808545551828254, 8312827242944852623, 13762372402588683115, 17393296821609076675, 13625632210501353418, 2278388440637467894, 8723748027893043182, 965684370594817702, 12523684177398659445, 1548222912065742290, 13153264562949971529, 1003230593817975539, 8874949261802528998, 2311190696038580996, 17627525946983551215, 11513159429932035452, 7470205522951387249, 9363781615888833700, 1763440271808084879, 13719643257975720618, 1400064036849191261, 2148548575042807213, 16399476534080620973, 4696095174439642880, 9901645129403855070, 3300968762652235396, 12416114222195393584, 8947831284457651465, 11872581322423604061, 1120419717485167727, 11945012855076545694, 12598217980955898850, 16218366522247711992, 8218053216986262378, 14921426438162657111, 1385888344339812504, 18109509791212291162, 5625294162289474144, 12260630693262249931, 17673547340384234990, 14713938053458069752, 4925817278934303697, 13572628547722045939, 1041236828941659200, 12166505775167017269, 6093676930034157677, 12300780748273481922, 12873386584028206991, 8052468246075559438, 2440192161868910286, 667846793022478420, 8414181707547040289, 14712621012866400989, 12533933537723169623, 5801036592349184940, 7327524471235512442, 15213314335205690142, 11900129330797526408, 3746097301739180298, 8046911926837770080, 15069024373996410312, 14043381792929242088, 12577089856554806434, 8619480926017988371, 12141002897758227353, 4671249593375965224, 15099156408908229526, 17411156083744280236, 9350901655661957887, 18065206379848128328, 13854440616529909683, 14520499799173157282, 16861569520230520332, 9643185749978974920, 10756352665828420807, 17289695709534547038, 10408133916632288101, 15855953535106269902, 50422846954677433, 15340899892529671758, 4913296049225336870, 4710665842277020374, 2750072449140198327, 6425078348620577745, 16787144755561504181, 6416076784062344552, 5205475713997545827, 732810333120290095, 16406460277079151274, 16367099330059533, 9918693755193636848, 7686489249407661508, 7804356642940374515, 28620070316872359, 13897977172285614758, 916881685804484186, 8280122291688745554, 18233954937671690442, 933131778898051415, 6607643191823389205, 7261127533571611798, 10568018050559922673, 15730956604584110464, 12144998728662202437, 10586332154791485977, 9876932094543329994, 4690990600025549038, 2924007797135131329, 13150326796721394888, 1246404633589735722, 17364914364831417802, 744903635860870427, 10982618975793840392, 11423242613075601448, 3680402406374566522, 3754475953771958199, 9241950857580693148, 4602494269592179100, 16847464356891971259, 2197413493778500913, 5463336755227094223, 2752134887065342383, 6485533304282562014, 12977901845236044242, 5799978361269390127, 15134828882029533656, 17484894291765693079, 3598301432693764828, 16777343197113505234, 1155709299594843713, 13183694213498513260, 9521799106499309689, 13372762861850347290, 12999580830634814677, 12034693197665358459, 16820205180529591459, 9370563735309356625, 18174448461220105406, 14597735264940737367, 9774416323060960608, 12114444992204101715, 16127799042294603057, 2488944161166374473, 16204011023007551702, 11318533180180673033, 9761192524308901001, 15572465210911887006, 3148121622293512241, 2133080380698565552, 2748190956547246176, 16355603227630128444, 12199610928173480604]

def kLanes10 : List Nat := [6783452666061978054, 16951017192118259179, 4484340502282708620, 13546448211866742114, 4973579801078477279, 17244106696677299427, 16931834973525202819, 10303784242438877500, 13575277856332900609, 10105391179054308415, 2862074226244836831, 6620781099332206740, 3897452870673148187, 10855875458864810333, 14498944523663200918, 12828944534339561344, 9999491443726513956, 12819980627164999187, 14746315605938241395, 2155828651456849376, 8527476306229230925, 14902223458663212674, 16981596009615830285, 7284177806141842588, 9131550564559188902, 7019684476456011182, 14254999480673692860, 9569095441213250633, 2653442174010939807, 12779500808913059418, 17794942275311251524, 3913058626926657178, 18444605236691835772, 2490369244492022270, 8739011443934323711, 5299765798850759330, 15637198778017088753, 10428282568866189971, 10957175330245592683, 13011301269666709847, 11389961957171627004, 16703086120903285896, 5625045688301590612, 3759367287187422578, 11516730337764996446, 7687125456889067693, 13894621162050657726, 3892250074986280911, 17391088180570059958, 558565439689301470, 3125102984922351529, 17110934746132003568, 1730710780939378813, 13101820666059341910, 3179339264050083164, 12145687813464227745, 15458136843828020617, 10245229126383692532, 7191168964702754319, 286064342406073588, 14810002119420767682, 2459320005485875244, 2485604111665497468, 4190181222488612177, 3221752840537087437, 6668482352311804740, 5137337318802563663, 5603618127572751108, 14552516450268727238, 15898602075193744828, 15328967257857214330, 8182011045562223611, 11119941389766535467, 15642853320941312793, 14702274551087324325, 2062400199424126347, 9262550696631241733, 5859674006092928639, 15971243861677333091, 15995369682483528531, 3601455578951155409, 12026959482352233704, 3322427984971783259, 13260668179327983920, 4226944676254956517, 9527855571755895016, 12394107507629438878, 17794942063356781004, 9921071547022602633, 4657879100604047506, 5248833834910590928, 4649209857684510343, 17607324232215109860, 15663839688616737983, 17603530021589092760, 11601079060657559958, 2330468163342059392, 15375167233648763096, 15661922177139013568, 7362565534470317533, 15740221236955215609, 69968088801790216, 15124003407083903924, 12694454649450824080, 7133406591544365297, 12040361639360320512, 15039685922524738575, 14638973754666923552, 11781084226624550257, 18166335844781574671, 1843339509706397658, 15755443887432004208, 13499164419140210708, 15735274153456525349, 11497110340353958337, 16632755281326135909, 9477292407264772352, 6951767973212951957, 4691940244911247661, 7861959551075099289, 12383359987802964139, 6223272469763280380, 267920106703018584, 11123471600888966627, 11070350103761761168, 7692969669503100740, 6303042064594982228, 9469280303775771970, 1973282124268581706, 15191041289849487358, 3977366638090745715, 15847268042686581843, 12552780770705880217, 987918146136759716, 8076567787037597853, 12567864512818449809, 525199527714431181, 7197489175967194179, 4657678695948498168, 11532734126460421311, 5931166105090697832, 8578718407702119159, 11652559132097990652, 8268475159409134410, 17188305509090962965, 1562616730884335937, 2241203255293707682, 4101449396003940007, 15983295516713313492, 13894713105642876094, 1992017635077616333, 12172716002853087538, 13547224983458049500, 9900505888352560969, 10640127799518859589, 231078270806394464, 5829054174920409351, 5029454033556609988, 17319685630507343114, 8926781949848155949, 1202102201882349105, 8314392460494745782, 14195640165729772788, 14218682819293935868, 3697961695720438302, 9975217119888153861, 18113445740555852228, 17394537734804745673, 13673492306783566977, 2063985341435237476, 6426123823468202466, 7833218183366979259, 3634443211064771690, 6923816263472330460, 12185044172654226980, 18214560539585010583, 5083039625097286454, 5604589137392144928, 9917254160758489565, 1681949941110648810, 12127519397475724522, 15661827181214740420, 13682250972287406474, 12829674199183428903, 15420876068478036209, 15936727468333494114, 8812860007408267148, 13276788087903927629, 8632987245332083095, 4268578054892152442, 8466191617940410072, 14957331907629366807, 7484059124017054990, 8963173401186504006, 11037975274026919835, 608624745662054982, 2405676287467410247, 9644089843196926234, 15595118095330443557, 1788044830066703729, 13193218898534766971, 2521103420241839970, 13016591822907549166, 3043393859852836379, 5760077426994143888, 4867986187230192552, 11062686885663291479, 5021865250950794336, 15931201883177639294, 5871760413908971153, 3455917309383862983, 12838333201374578295, 14421812097189087476, 8560735105091932805, 6528126921160000967, 7175111830678527482, 18188547813071866580, 13270725750900333299, 4277512944488491737, 15423912089244129707, 17445568213659630639, 10830555217422835424, 12696495994224617171, 5742379227521158011, 16627876406092246011, 8224155864647008625, 15303362551048779315, 9307049372731600006, 1200564207004102467, 3272888498352179380, 8507517314300491682, 840329744730306755, 15800758868774398777, 5115860634169115799, 4996310731933061419, 17423259574335514219, 10111250975746565764, 7443227843445833504, 10701283292404472330, 4273925741397745810, 6863547700423900131, 17586750403665287339, 8289903650442762801, 12344580710372012763, 5397497317437918140, 14181717919631210295, 9776873171389191754, 4902899317956773595, 193501798789826705, 12583484370351719608, 1432554213333786071, 13480593100867069710, 11082357470892592009, 10549213326761352701, 8600974881296138117, 15797177288937726104, 7980931875921477495, 17131350896886613012, 12774984111377680159, 10141304370596005546, 6895599503961270526, 5424871851196830065, 18134138482031872091, 3315657761942917198, 8880255911864427106, 8807805036174161073, 17293150492964087920, 5009671013554282177, 14446562699112579417, 18403303827658523796, 5253983237740876017, 4166077522370935422, 6827268862194382117, 12032354547577750054, 15730206558625908485, 6002277702068014692, 13183422524234154469, 3920976503596029938, 14801739716158784483, 6857227946340407282, 3514878187190922893, 15745763329019984010, 17837466369882082370, 12093611121522921723, 14287153156636563067, 7087706524510230494, 17151186993236090832, 18317408156684449806, 11173532001542401317, 13265317586657668716, 17861181951291303859, 5040793661800213238, 11750207898650645016, 11683924738094571899, 6527375815397930927, 6042317245701891578, 71306005070421007, 8205443081697799864, 10502356424569296651, 16486211268312432627, 15992930225869187073, 14259237219423391827, 17135812977189935869, 9541597569871941288, 13565407272354626658, 8269472736788094346, 2934903750677019777, 14515284598372646379, 6044131746088613574, 4595421755516316347, 10109719078608488601, 4089980820462537760, 11030846347829136293, 12318514804136259010, 8018411168865229629, 14974488261335934690, 11036327668020094021, 17877803458078187636, 14515463985741746258, 2069141530946083869, 1680333087173739981, 9021732840691731160, 190781623125266261, 717672685686577188, 15156167631941880938, 16105539960933405852, 12588839089151255503, 16907251779837694246, 14533264514731729141, 3071981245637399507, 13423307742388957778, 1333119066722811126, 13379978676108254685, 18407239260905465899, 15202577642175640469, 290996383883778612, 10985107548389834539, 12816495448066177713, 15732615055118507650, 6366262707607071690, 6829923336208434237, 11868887588583694587, 11428588522330832608, 9192706690526918065, 11179582197011529658, 4970874365153505763, 5757659833005574509, 13074362142688400871, 18079229590257651500, 17246832702552741687, 8144290569146269313, 2165160902273856818, 1867635945038253312, 17392999733768199468, 10786649576801185576, 5898123753127192351, 7753591348880838642, 5170535536675094293, 10160760138201816821, 6314230955145467199, 8239959565212409324, 2039945232347986620, 17278950932843383838, 5252013927708347597, 15883065421882159977, 13213649790399641693, 7239216788991872146, 17286852229804763520, 16325997948328847513, 1519623049759423829, 9244469938675014411, 2137645062741699250, 10259713791005424552, 11234647976795931966, 12675707060077288360, 2996313349517729415, 1494444738290772362, 14755507389185117314, 10345963934672090786, 5122966510916750064, 18198029695055967780, 15707602024232970670, 5392658908487366568, 636860920895586559, 16744351435924525854, 16708297592890295441, 10603520975032370733, 14031755307385872154, 790496420192523352, 7677426001954523182, 16401939867885392106, 2858081807467524330, 3151338800733093992, 16358484983440829101, 17162141514701765671, 1350022655368391363, 2773068233252772941, 14815147342821782159, 1787700021454941047, 2643653935795647028, 14467909018317173420, 18134730909475743854, 5374659904735945779, 7037232923010134776, 6342403192376341989, 16270604445810202793, 17384172878122263021, 203364132950298094, 4720166464351276414, 665383020066081289, 11531838947814021650, 9398765844406498012, 13903101632248530767, 12372780437537562317, 16289279495869758524, 15128445474539570232, 10952163230453987524, 14144504978344995163, 9153876431339114192, 2182307374856597117, 9342836594458476732, 13543885450603234272, 11591612018786593955, 4014233424653285586, 4729227948500217635, 10214497775631000301, 941363307962988223, 516514481309409713, 2561199873590979073, 5353074241883711588, 9825116641152873690, 16003600831039835566, 14354618395742595249, 10416016087097149575, 839016897678708616, 13451471616438107883, 9069490277044652704, 14101711055290640765, 14976993065615854773, 7370404618044454163, 17889595353128141420, 3873063182410381262, 9724698344869168620, 13732265529463385195, 8463434955560576804, 17933235798313844834, 9956906778764454495, 4427188034416463234, 4542514631808822809, 2054199847451669882, 4714185510054250248, 14351238202778875363, 9198543237097734921, 15307859603971766560, 3819177580740850216, 10438852680966032213, 9171639164697073384, 3019996193310751254, 16462380538906306247, 14674947890695433033, 12985379499376911482, 5322134600465747457, 13381768448911210356, 13931210162408303723, 1192203099315287534, 12245734360980876929, 6612242635174376011, 12247589127618151970, 4498609436634161079, 15756352753457444695, 12754040008582921392, 11993320660562843733, 3650116396969110880, 16282462151478694310, 9030919034283107477, 9521074612081416686, 8620381751477489282, 11131516589686952856, 1592475764322216605, 17505317026351697669, 1210722906423899138, 10107966325984359293, 12891667706059573605, 16479068158209873618, 8689257504959728429, 13976884928841291838, 5011928989464984223, 17464942404104660458, 10404020500294708077, 11807141184562541648, 13429168732625809206, 8800782058715997096, 13515228939576720151, 2947174313705730488, 5764240690236157415, 13747238937748423919, 7080553760560396520, 9164154763857600918, 14574116644750422772, 13836669010436490754, 8637128808347636214, 14605728347384515372, 17790184324987909612, 12673784003806390467, 5030887604705214768, 16455200593976266787, 12402736990083754265, 866751143397275, 12756731547408973007, 727474557289808122, 8817167367584814816, 14900468732088565120, 3076306249374343897, 6989947838386207530, 17747102328352405914, 16107339768551657460, 12239364879931920485, 3638354560384461182, 17691166415876059146, 7903967354036076588, 1733349520676957124, 12585322714970372673, 16055243018410707891, 11415177041376158666, 5403023793699966554, 18077945583281959482, 1169336079709022711, 6324369775289589470, 5559759643633133043, 9587350365917891400, 12686219910861584478, 9537080736536531096, 7022060795924751690, 10635829748483598815, 17266621558760121462, 3650566977207250795, 9017372688599621856, 14882430014303090606, 9951150497922027366, 663703000052371396, 767237022916879711, 14530945567756126347, 13520042407176520857, 2900201675115682016, 13936274979247684607, 14587067492279458088, 7154666808881532696, 6536274304824453338, 5562026566736141461, 11039441227302576148, 14922575354596135497, 3870983245592821613, 14840719881624740163, 7006441052178359862, 5480047675927935864, 16121290337590082472, 12215027660446615771, 827716478345272016, 15248407274601805812, 14062560405917546205, 500712843983149018, 12516514950407026779, 12197383146051726206, 8925235208024905767, 14865806086403498317, 11443594360347250269, 14784809070346902470, 6846277447645567487, 2914443362616252329, 11453076810041094919, 15034158724829385902, 16230821899472739771, 1681217140418938207, 5546824731976122710, 14907624339854300897, 3131698176481251221, 234299232245219182, 10997435442410804670, 6641863857979861672, 10141883667619842695, 17173957693594615482, 12677313320486918840, 17612474932232428321, 12959425936750569206, 10631379483577681510, 18333578868557596920, 11644569334372019358, 597431963892464891, 7789903763920992996, 10933622628905430550, 3520676070597915780, 9428214589973783267, 17299803201602539593, 10355131154310622454, 13273669192028922524, 11807879704109685105, 13673144289140065101, 12213887258689086624, 14166176870830913854, 11965471234282369128, 15271718972960069860, 16260029895783129040, 5475292146212248535, 2308659581817223401, 12794149522757564382, 10766254174461574416, 13620429097115842568, 12940406826780934562, 17242235508201547793, 4533019207944948089, 14783374120505068678, 18068840882362894959, 17509584635767214189, 18266784551840351637, 10974418132008519796, 10442531820155115019, 16224872493984313039, 12689621567840600105, 11955582532556460045, 2366758429313256881, 14836098588653656824, 10611645944268199293, 18058890895974704953, 10988447950524754455, 14203605337493331229, 6660411950710879078, 645035976401771313, 12128522971141861334, 193155337502951438, 1183134655239017493, 1006725098005799874, 9060210946482893995, 16422006921292552588, 9634150423969015403, 9560205568017099276, 16382281119890181216, 3358671002599081028, 15154460177313092147, 2246648042485221349, 12434257781544697871, 1618523958831367873, 13071953717978754036, 4163759521213441708, 4982704225451634618, 7113207257120716704, 6657446043779870401, 13735484167435475420, 17722179162619922250, 8041559572106755285, 18005756728937816476, 1475978126185358387, 14993511905667367274, 10833548789410141783, 254654103503037020, 7142760600706802662, 2400361765420477894, 4337859512354060266, 142828027867935646, 10634105903412650798, 17164938070193274897, 556477577241893372, 13808543648105045643, 10009797441692020087, 13797739965940167212, 14289581071922699987, 17644377903183641644, 3546626394927407486, 1069505535639274188, 9600151391399919510, 15229999572289544993, 5439816908022210981, 3264053023792555482, 981229067418017521, 16609893478355867730, 4379224542680827300, 8105997899270197324, 1218927139200543909, 18409383648652189845, 11780598774672912839, 9526380126216747357]

def kLanes11 : List Nat := [4703166714838541062, 9864651815031798429, 3062020575151131921, 12006964528819125027, 16777382237204541337, 14317555897797188170, 2813186272310054988, 828572863720911405, 8403850651257707597, 13228295139176702865, 10787599621679354238, 18208930236233690802, 17569978068883967968, 15868877113937261375, 7923783252089430703, 13551245330124736285, 4304840215321895914, 11240336403622260038, 15149826272505752960, 1971306544611547086, 6081644922049928778, 9647342077172940033, 16388950640275931007, 6108687102715334495, 10913316867413330143, 4693949621160398444, 7726234873991310885, 16449807953006447765, 11040859881052852972, 480552945129162202, 342274642944888658, 9211548985110321100, 7503955754713218581, 1007348499235678859, 9165112293413389213, 1414241860649145380, 11629302522792018848, 17818085863843005318, 1280220173958469624, 6039653415597145616, 6514288255919907722, 4303054367095493040, 17503499976752194969, 7509673391008373656, 11699911002157538142, 2858465668141629911, 7230024692845786027, 12173690330626536273, 1998210474836586722, 1052559031522465452, 18089053403582959109, 9044478558247743090, 9054307020738556582, 12583875569435163137, 9291383890974892102, 13847811868926258483, 1291133397916924565, 16870504166820115378, 14584986602736615291, 15386520943576889308, 9414584789087195903, 4678967018313585842, 1540173476174282591, 14317701863125430947, 10528010456047547911, 1407676138770164703, 1671122494073370501, 9287426172492705507, 6366830472106910516, 10487857592394462973, 7068721407754612439, 5964415793310391604, 865921485576182571, 17927605115881649726, 15366062457540071668, 910789131874686331, 2578025144547472213, 2464015053501850243, 12282560304444343998, 7652733925954268501, 5747874021347541492, 6098894644775828665, 12752111451675562237, 4590685703999127604, 15615373572514989554, 7446451025764318211, 6324882732471610543, 1879205127397825511, 3689646877465821295, 3929100709259222335, 7184661536191261983, 5338978349357347828, 16609087834375538693, 15152397878700979566, 13615576647731050844, 12902864325168278819, 1090162301780894501, 11414511839099514369, 39476737661466917, 3226724965920840482, 4826095951602737606, 8458553314777097162, 7530065596178812624, 13632930498742714204, 13886414531633750456, 10238530664170455189, 6553918507314214036, 3174072840875112643, 10944953711885521745, 17782175509083655073, 16014886618847609347, 11364923750404330446, 16637081551719569270, 16364580428756587905, 15546356317549117936, 791817148595524364, 10626681419291584777, 16514936079685355033, 9602585278541537185, 17896612461738923215, 8316546633850779595, 12782127449528367138, 6513441158989440151, 2593255494659059018, 9720531978443821080, 1190244878547527835, 5008152594279281716, 8480488273392837257, 11909387567014195560, 10591279081991533923, 1998378368456422398, 794333749936360131, 11644930334775612506, 756327868940479789, 6623076182888306611, 11909313698543111511, 15227106278487076664, 17865837985618593055, 3601363439189612401, 6659835742752526742, 4805418604990139097, 12265087233572284333, 12144116108363673047, 10399611883248877854, 9865383298277896276, 17924511572868960251, 13322980863933462283, 12371367418877150509, 13157206817221276953, 15083786185075076606, 6817972328729986390, 10008434703488946719, 14332789223250304209, 3707617406408219963, 9604156886041441511, 6278461658061350064, 12526171626433820206, 7804993641005714468, 16830026798586823466, 1220062600444776371, 490487577687495926, 1904018163218287702, 2065726633818947482, 8759482862620656149, 1102556908301512859, 5765016372463508414, 12256281071239505752, 11349780936758205357, 12317349353111714382, 10441328083055164158, 3692806402908688495, 17109528390172881079, 7060512430185392202, 475578133139209488, 3114277947936332052, 7549224948934943536, 3355419737217568137, 16580959683422307031, 10869004011730682682, 17939744464650778387, 4957751952159959647, 5459139966934180755, 10386017921755198242, 5866614654036743457, 11387698788071947849, 14466322409628742872, 5831975351208081065, 17821217928234190829, 15139808161427370097, 5825722636685098618, 12898783514171631061, 9356013049449606465, 5351752387695778916, 11630929064949843722, 17810767681805867189, 15271648639667309871, 7558632032374677909, 7445654441955828042, 4110029169328881716, 8804389544851629494, 11533856997832032739, 14535130612912543301, 7402092122991359607, 17970639764493352719, 16075538323365625389, 5537377466792928574, 10069978189842338899, 15924353036391124890, 3790319333667391501, 2569310838314279558, 18235582485452639591, 13749495251827388164, 11495884749611507544, 11888356177583196074, 4819096632540607371, 5221254315131704557, 9988618276989676718, 13584690376563201146, 16124726805276718081, 16510280066853102507, 15723827734913904240, 14126347488989501274, 1149972331760135756, 9140478260512739056, 13160381548945112966, 16600401765405418998, 16860966874303446024, 14400039927422898741, 2643323016619471826, 4519007492548150996, 3624551799607555762, 9975917855989253354, 7001779028288033362, 10720934947724364646, 160270535193775038, 9565542777819110156, 54975354867272391, 11190099922542284660, 13985685235736616499, 12264179895359042671, 16867546110959016914, 9985640171595023540, 2096908583474895841, 1133779310921370726, 9856048320410146738, 7343822259771318822, 2093206409395599944, 3919522404598066611, 8519727580589675500, 1647625578369051398, 109596392059667462, 10581033027487108057, 11864471146289503669, 7779576869734128554, 8427650272237400799, 15186519437726558454, 1636789412973273723, 9023293726403779677, 13940179128783744029, 6732749627965776638, 154752884631316953, 3715212555209369383, 3237934431948405277, 1984143971157895708, 15811646215687163797, 12900499271848397702, 8559486458311246438, 7102727739713597817, 9102047121975544205, 10284152993742122947, 12602091785647615217, 16840847832315315823, 10699504107349950957, 5862895928669132592, 15836184491779156082, 13947500290366201462, 5320968586891877795, 5302695284509438177, 5671050302230453531, 9304207339365497768, 8902146033636507308, 17950285751363272060, 14593751473953064805, 1045922880293030268, 16763573014522230698, 2173476709226121521, 12914164918286333947, 5715916974291337062, 4592626303319413545, 14133706287760444698, 17719764076621043690, 10863655722166588868, 3924263459228512227, 3826441280337327429, 8925152774787839967, 5026507778227343233, 7812566178627518631, 13563679635817533760, 14805246885020124503, 2949700691825962895, 10739874496538076609, 6207811492442792333, 13472203254676726420, 8410096311412773601, 1321707840134673546, 16107199590550263979, 1455997086006608979, 2581933528207486983, 17090561317495185788, 14261679441738789044, 18140060815248789817, 5378538784638093936, 9810300106616292695, 16026279484003192137, 2227458403176568802, 9560297056271232708, 10634613829351103133, 14645278232076741662, 11848501043004505493, 1254681715241865235, 8918612053848163659, 221942962740876335, 18422035472479308035, 12957032089557167265, 4587674489458239576, 9428771054173452119, 6383392801201496241, 15017389032672812992, 3919910399883363857, 16994702441780058106, 9866250575505223447, 171621570689081246, 2655925860786908827, 4703775221642798425, 4221093627616713372, 17064739096933037326, 12007055150723851472, 15221122925290162605, 10520994174329462005, 14732767736190579081, 4994176981787900319, 14255830660646344973, 16280457442775901584, 14772391264491987024, 9619224592832768701, 10953315304557403, 15966067809756701974, 4619852968744124920, 16921562166733291830, 13887687946080681704, 7906326043719827479, 14547458393769898755, 16137316969908167054, 14759457105572679451, 12563708908997770511, 14548567010454274954, 10978612296221849052, 6919149638441623772, 9741651291741569160, 6973867208884559349, 3807644190807630767, 12505250060106181252, 11480377560737215632, 15813446094746758680, 10531659794949887728, 16681167903607618585, 7760060566372364652, 10433950457182785159, 685572140784812178, 360316396546333355, 10270576673404406826, 15908089000740601744, 7859770648606901308, 2891644820091427591, 3581718948890609533, 18182094727811154492, 16773634529442652851, 11508334916777997595, 1006529449348090334, 3325691972604367792, 6671486770081345229, 18375507666818986337, 12089899900480658515, 8868685129255830907, 5386634046211814987, 11152740718912258829, 13644109794213681414, 7428398900521494175, 15584112128519548237, 8701285717837509211, 1978926817133863592, 11666347755459300735, 12322942082300872814, 8251452486238926367, 2908347694223959627, 9218247622270867521, 17371800013991685509, 6684673687729343582, 12736859045083490826, 14151129974737325529, 2659415179120307251, 9515229196577322898, 2874475315636951582, 13229583772914184418, 10957890939925808632, 13485948223688924561, 9541437600426951337, 13811276454694504024, 7907005447832336796, 11697068322102763104, 2397047856361498423, 15104809866023461147, 16319259709748777294, 15673427948189906511, 8786907399286242272, 3189794515580481083, 16340165445959533375, 15544713217133013809, 16682971929511402873, 16169687392110645914, 5624766035312794763, 8413102554986869201, 8181943334575815278, 16241625287801844336, 17990464158593861677, 17529632364997817374, 16643271710317728672, 6021616775907526810, 8070524349571432933, 10753910761154758419, 4435803518268798856, 9332047374469404131, 8571647273908547624, 12891413971270416177, 17803181684057472593, 6071271294087947129, 3659782023982655947, 12248986348545168676, 3525008489082153489, 280021961165967552, 12936550494192803664, 14622435645597203267, 5529998893376021623, 8545224870661659050, 2786741108915338738, 13297017715438575777, 9083907829661269941, 4707883529000219067, 16195314017956140381, 14516604432036665266, 6439201977330713137, 2395570505000033699, 11528740356686649152, 9721145902376880955, 6717371815243446059, 7781027213353912299, 5779752329261948782, 7103451607436199522, 17572789474386293578, 15505659219368650002, 10057509579515460265, 18118726970479319465, 17063770605348560173, 5625764511134986237, 10657022797001351290, 4497296976582345251, 11955945039107811023, 6882714863365785737, 7879381131560590664, 8129973998785760781, 6731810812755138503, 11256595490100786122, 2273502826398808646, 8057406885038640529, 14051773815465906884, 5759426987016866745, 3798565580959929759, 14000854713648309497, 14751473849247757018, 1738106895715128454, 17973574124400652817, 17001663661843305163, 16083416200304047985, 11505687705331286081, 10816503160217236608, 4116378988915078868, 7961660660952695198, 1357543470979018438, 727216538394915994, 15587857408947312356, 17475102380753065021, 9074779307436920332, 16398319534705807866, 7736996513594949044, 6313945018770565485, 10808801781396636877, 17915426806107704524, 10621966435894155770, 10435041468840399478, 2829810806726358783, 14605402249246413895, 563422048685668789, 17187859349505910227, 12140731556907667682, 4007012813128735719, 15595388785882779593, 11886174322718101579, 15073055348988259698, 10213481285009747592, 8130210769713633466, 7847773329453374795, 2761495136807172511, 1874615350884154918, 13649098629736053539, 6604142616450886127, 5606829583505765419, 15148698193757657172, 8219598825032524371, 13270103496457615779, 12067127813485182450, 5237485307981480285, 17000725302438439906, 10333563550281197026, 11597733289211018362, 8174200116097870815, 13495181991987868140, 10014999866606084962, 6133842049134516071, 13031768881651177175, 5603253288285047556, 13662159463405762874, 13063071426523019247, 3415432632614045491, 7186385234668563680, 6154692747563703897, 823805678485198616, 1729941843801856617, 11762371709538314839, 3244941482901959744, 2046378768866781648, 5559346478843200367, 1363264947745965197, 1367116223536998035, 4119915664495839962, 13902181957774322513, 266691254506862034, 8231542068507660884, 15629470954912864681, 8407092462977984444, 9288693476885056429, 14197545835564680279, 11946542240542527662, 3635519599705431770, 13420955049214532010, 17411122045709128930, 12190853241474215037, 6825040397017133897, 2114239501030766845, 14592760590081887298, 10125722764812894961, 2434268614987762515, 3672959646307723589, 14646619051321515459, 1358019882570361046, 7523027391032152596, 4814547554494311320, 9786537450125996606, 9278065705599318221, 1414400240817281640, 4263439506077615307, 9693433551375281875, 15641118526732652721, 2714597200417993900, 6479781128075427901, 7292395956758991353, 14858730381433895364, 11590735731457299808, 13897866150139159484, 16470924708271000696, 17358149322850853838, 9395036151182410006, 11752845961207334969, 17324633250378605519, 532341068506262798, 4065157358322471904, 10538600894270489643, 6909589914121187498, 1819452142218845748, 9613418989348957926, 4590486891293073720, 10275447414267006506, 9770155887397054258, 10938947223599843725, 7358972459291215336, 17437770596031037573, 10454429300287825108, 12706855465428513502, 8372676837667135762, 10923054263980915836, 6626357991520793621, 4246949985453619684, 11595458652123040587, 7861652999823546417, 13425756050332140906, 4164743329991314915, 5907773988713452511, 14873281094483276030, 190357874987751352, 2889732753301347260, 5376807597475351970, 7995419192322173319, 14476802715233043937, 1871582847835382868, 4674793101345432573, 9543708499077729474, 1659711320577660731, 14763331933149525737, 15937808287469854306, 15218804074319374715, 15530483959919688749, 8511495814863748815, 7502788488821421466, 2809600757177005396, 7675185300573562860, 5316650192429901391, 1303854374133469017, 683119824246567854, 10780704615623290111, 15493702142702536846, 9960994157588817234, 12920727001680049162, 15325405781691782977, 3416227363015371427, 10123754943526128767, 2564070745229482864, 12455217710174685369, 4327865883580111802, 14588075594773941049, 9886054542921072371, 12352653460118698981, 14351225399104914818, 328784282867276164, 7439168893307402948, 17490181652364279207, 2218215808788197226, 9609727056143242696, 12812212369145381256, 409660440681875816, 6517599757631436828, 155883692770342327, 10392329723459668176, 3808658093447828977, 4326667829867006571, 5183001230509636543, 12888103799142088880, 11875751074169850738, 8364894335107612945, 5735860687410782173, 945576846268706210, 617715508193180399, 7069126680643244698, 8489363558061806700, 3319804951838188571, 12900468886358520927, 12788593064707324603, 9697915571840288507, 4299242085242141435, 531704691763403420, 18445077145660764502, 5466594956312554012, 9261102899622522905, 3053195747010919029, 12757244782922216858, 13521383799023484322, 14419715405960568634, 8351582646989172303, 14002061141124898699, 9025760452675880193, 13071055733828060793, 16709309762812099788]

def kLanes12 : List Nat := [12430160209115823337, 13196962122194949849, 513871163484465084, 2403072250751868448, 1291732273800170877, 7476609718596982624, 17342230083259672493, 6174992048779011720, 17229839831166282582, 17643060101977641759, 15480291977820122170, 5001288841396397324, 15494743300175849709, 8661409602033679287, 16322215743080501882, 5716217526116270619, 12941270531729378410, 14113446937760703291, 1279482422719867301, 1440804370731064608, 13109176542621697100, 2769724320063060007, 12793591716297264427, 1674790720842582832, 16658822336546472325, 5950046814887651725, 8685701024943835623, 1038810558906255399, 6650983670728982763, 10182333953463128403, 11010565329998220707, 15155869344905672395, 9100166928188397377, 701456517935051377]

def u64Mod : Nat := 18446744073709551616

/-- DIGEST_SIZE from the source: the size in bytes of the sumhash checksum. -/
def DIGEST_SIZE : Nat := 64

/-- DIGEST_BLOCK_SIZE from the source: the block size in bytes. -/
def DIGEST_BLOCK_SIZE : Nat := 64

/-- State of the sumhash core, struct SumhashCore in the source: the
compressor matrix c, the 64-byte chain h, the byte counter len (a u64),
and the optional 64-byte salt. -/
structure SumhashCore where
  c : List (List Nat)
  h : List Nat
  len : Nat
  salt : Option (List Nat)

/-- Modelled from the spec: one 64-bit word as 8 little-endian bytes. -/
def le64 (x : Nat) : List Nat :=
  (List.range 8).map (fun i => (x >>> (8*i)) &&& 255)

/-- Modelled from the spec: the bits of one byte, least significant first. -/
def byteBits (b : Nat) : List Bool :=
  (List.range 8).map (fun i => ((b >>> i) &&& 1) == 1)

/-- Modelled from the spec: accumulate one matrix lane against the input
bits, with wrapping 64-bit addition. -/
def dotRow : List Bool → List Nat → Nat → Nat
  | [], _, acc => acc
  | _ :: _, [], acc => acc
  | b :: bs, x :: xs, acc => dotRow bs xs (if b then (acc + x) % u64Mod else acc)

/-- Modelled from the spec: the compression function.  The 128-byte
compound input is expanded into 1024 bits, least significant bit of each
byte first; each lane of the new chain is the matrix-vector product of
that lane with the bit vector, modulo 2^64 (the lookup table of the
source precomputes exactly these column sums, byte by byte); the 8 lane
values are serialized little-endian into the 64-byte chain. -/
def compress (c : List (List Nat)) (cin : List Nat) : List Nat :=
  (c.map (fun row => dotRow (cin.flatMap byteBits) row 0)).flatMap le64

/-- The block as it enters the compound input: XORed with the salt when a
salt is present, unchanged otherwise. -/
def maskedBlock : Option (List Nat) → List Nat → List Nat
  | some slt, block => List.zipWith (fun a b => a ^^^ b) block slt
  | none, block => block

/-- The 128-byte compound input: the chain followed by the masked block. -/
def cin128 (s : SumhashCore) (block : List Nat) : List Nat :=
  s.h ++ maskedBlock s.salt block

/-- SumhashCore::update from the source: build the 128-byte compound input
cin from the chain and the salt-masked 64-byte block, compress in place,
and add the data length to len (a u64, hence modulo 2^64).  This is the
total version; its callers always pass exactly 64 bytes, and claim 9
treats the panicking branches through updateChecked. -/
def SumhashCore.update (s : SumhashCore) (data : List Nat) : SumhashCore :=
  { s with
    h := compress s.c (s.h ++ (match s.salt with
      | some slt => List.zipWith (fun a b => a ^^^ b) data slt
      | none => data ++ List.replicate (64 - data.length) 0)),
    len := (s.len + data.length) % u64Mod }

/-- SumhashCore::update with its panicking branches made explicit: in
salted mode xor_bytes indexes data at every position of the 64-byte
destination region, so data (or a salt) shorter than 64 bytes panics; in
unsalted mode write_all into the 64-byte tail of cin fails when data is
longer than 64 bytes. -/
def SumhashCore.updateChecked (s : SumhashCore) (data : List Nat) : Option SumhashCore :=
  match s.salt with
  | some slt =>
    if data.length < 64 ∨ slt.length < 64 then none
    else some { s with
      h := compress s.c
        (s.h ++ (List.zipWith (fun a b => a ^^^ b) data slt).take 64),
      len := (s.len + data.length) % u64Mod }
  | none =>
    if 64 < data.length then none
    else some { s with
      h := compress s.c (s.h ++ data ++ List.replicate (64 - data.length) 0),
      len := (s.len + data.length) % u64Mod }

/-- Reset::reset from the source: zero the chain and the counter; a salted
hasher then processes one synthetic all-zero 64-byte block through the
internal update. -/
def SumhashCore.reset (s : SumhashCore) : SumhashCore :=
  let s0 := { s with h := List.replicate 64 0, len := 0 }
  match s.salt with
  | some _ => s0.update (List.replicate 64 0)
  | none => s0

/-- Option-valued variant of reset, threading the panicking update. -/
def SumhashCore.resetChecked (s : SumhashCore) : Option SumhashCore :=
  let s0 := { s with h := List.replicate 64 0, len := 0 }
  match s.salt with
  | some _ => s0.updateChecked (List.replicate 64 0)
  | none => some s0

/-- The fresh core before reset, as built by SumhashCore::new. -/
def initCore (salt : Option (List Nat)) : SumhashCore :=
  { c := sumhashMatrix, h := List.replicate 64 0, len := 0, salt := salt }

/-- SumhashCore::new from the source: allocate the state with the matrix
compressor, zero chain and counter, then reset. -/
def SumhashCore.new (salt : Option (List Nat)) : SumhashCore :=
  (initCore salt).reset

/-- The streaming wrapper around the core: CoreWrapper with an eager
64-byte block buffer in the digest framework used by the source; the
buffer holds at most 63 staged bytes. -/
structure Sumhash where
  core : SumhashCore
  buffer : List Nat

/-- Eager block buffering: bytes are staged until a full 64-byte block is
available, and every full block is immediately passed to the core update. -/
def eatAux : List Nat → SumhashCore → List Nat → Sumhash
  | [], s, buf => ⟨s, buf⟩
  | x :: xs, s, buf =>
    if buf.length = 63 then eatAux xs (s.update (buf ++ [x])) []
    else eatAux xs s (buf ++ [x])

/-- Option-valued variant of the block dispatch, threading the panicking
update. -/
def eatChecked : List Nat → SumhashCore → List Nat → Option Sumhash
  | [], s, buf => some ⟨s, buf⟩
  | x :: xs, s, buf =>
    if buf.length = 63 then
      (s.updateChecked (buf ++ [x])).bind (fun s1 => eatChecked xs s1 [])
    else eatChecked xs s (buf ++ [x])

/-- Write (absorb) data into the hasher. -/
def Sumhash.write (w : Sumhash) (data : List Nat) : Sumhash :=
  eatAux data w.core w.buffer

/-- A fresh hasher with the given optional salt and an empty buffer. -/
def Sumhash.new (salt : Option (List Nat)) : Sumhash :=
  ⟨SumhashCore.new salt, []⟩

/-- Reset of the wrapper: reset the core and empty the buffer. -/
def Sumhash.reset (w : Sumhash) : Sumhash :=
  ⟨w.core.reset, []⟩

/-- The bit length computed in finalize_fixed_core: the byte total as a
u64, shifted left by 3 as a u64. -/
def bitlen (len pos : Nat) : Nat :=
  (((len + pos) % u64Mod) <<< 3) % u64Mod

/-- FixedOutputCore::finalize_fixed_core combined with digest_pad of the
eager block buffer: write the 0x01 delimiter after the buffered bytes,
zero-fill, place the 16-byte little-endian length trailer (low 64 bits
the bit length, high 64 bits zero) in the last 16 bytes of the final
block, absorbing an intermediate block when the delimiter leaves fewer
than 16 free bytes, and return the final core state and the digest. -/
def Sumhash.finalize (w : Sumhash) : SumhashCore × List Nat :=
  let pos := w.buffer.length
  let tmp := le64 (bitlen w.core.len pos) ++ le64 0
  let core :=
    if 64 - pos - 1 < 16 then
      (w.core.update (w.buffer ++ [1] ++ List.replicate (63 - pos) 0)).update
        (List.replicate 48 0 ++ tmp)
    else
      w.core.update (w.buffer ++ [1] ++ List.replicate (47 - pos) 0 ++ tmp)
  (core, core.h)

/-- Option-valued variant of finalize, threading the panicking update. -/
def finalizeChecked (w : Sumhash) : Option (SumhashCore × List Nat) :=
  let pos := w.buffer.length
  let tmp := le64 (bitlen w.core.len pos) ++ le64 0
  if 64 - pos - 1 < 16 then
    (w.core.updateChecked (w.buffer ++ [1] ++ List.replicate (63 - pos) 0)).bind
      (fun c1 => (c1.updateChecked (List.replicate 48 0 ++ tmp)).map (fun c2 => (c2, c2.h)))
  else
    (w.core.updateChecked (w.buffer ++ [1] ++ List.replicate (47 - pos) 0 ++ tmp)).map
      (fun c => (c, c.h))

/-- The salt well-formedness invariant: a present salt has 64 bytes. -/
def saltOk (s : SumhashCore) : Prop :=
  ∀ slt, s.salt = some slt → slt.length = 64

/-- The tail appended by finalization as the specification describes it:
the 0x01 delimiter, zero padding until exactly 16 bytes remain in the
final block, and the 16-byte little-endian length trailer. -/
def padTail (pos bl : Nat) : List Nat :=
  [1] ++ List.replicate ((112 - (pos + 1)) % 64) 0 ++ le64 bl ++ le64 0

/-- The unsalted sumhash512 digest of a byte string. -/
def sumhash512 (data : List Nat) : List Nat :=
  (((Sumhash.new none).write data).finalize).2

/-- The salted sumhash512 digest of a byte string. -/
def sumhash512Salted (salt : List Nat) (data : List Nat) : List Nat :=
  (((Sumhash.new (some salt)).write data).finalize).2

/-- ASCII bytes of the Gandhi quotation test vector. -/
def gandhiBytes : List Nat := [89, 111, 117, 32, 109, 117, 115, 116, 32, 98, 101, 32, 116, 104, 101, 32, 99, 104, 97, 110, 103, 101, 32, 121, 111, 117, 32, 119, 105, 115, 104, 32, 116, 111, 32, 115, 101, 101, 32, 105, 110, 32, 116, 104, 101, 32, 119, 111, 114, 108, 100, 46, 32, 45, 77, 97, 104, 97, 116, 109, 97, 32, 71, 97, 110, 100, 104, 105]

/-- Expected digest for the empty input. -/
def vecEmpty : List Nat := [89, 21, 145, 201, 49, 129, 248, 249, 0, 84, 209, 56, 214, 250, 133, 182, 62, 238, 180, 22, 230, 253, 32, 30, 131, 117, 186, 5, 211, 203, 85, 57, 16, 71, 185, 182, 78, 83, 64, 66, 86, 44, 198, 25, 68, 147, 12, 0, 117, 249, 6, 241, 103, 16, 205, 173, 227, 129, 238, 157, 212, 125, 16, 160]

/-- Expected digest for the one-byte input a. -/
def vecA : List Nat := [234, 6, 126, 178, 86, 34, 198, 51, 245, 234, 215, 10, 184, 63, 29, 29, 118, 167, 222, 248, 209, 64, 165, 135, 203, 41, 6, 139, 99, 203, 100, 7, 16, 122, 206, 236, 253, 255, 169, 37, 121, 237, 67, 219, 30, 170, 91, 190, 180, 120, 18, 35, 166, 224, 125, 213, 181, 161, 45, 94, 139, 222, 130, 198]

/-- Expected digest for the input abc. -/
def vecAbc : List Nat := [168, 233, 184, 37, 154, 147, 184, 210, 85, 116, 52, 144, 87, 144, 17, 74, 42, 46, 151, 159, 189, 200, 170, 111, 211, 115, 49, 90, 50, 43, 240, 146, 10, 155, 73, 243, 220, 58, 116, 77, 140, 37, 92, 70, 205, 80, 255, 25, 100, 21, 200, 36, 92, 219, 178, 137, 157, 236, 69, 63, 202, 43, 160, 244]

/-- Expected digest for the Gandhi quotation. -/
def vecGandhi : List Nat := [92, 95, 99, 172, 36, 57, 45, 100, 14, 87, 153, 196, 22, 75, 124, 192, 53, 147, 254, 238, 200, 88, 68, 204, 150, 145, 234, 6, 18, 169, 124, 170, 188, 135, 117, 72, 38, 36, 225, 205, 1, 251, 140, 225, 236, 168, 42, 23, 221, 157, 75, 115, 224, 10, 244, 192, 70, 143, 215, 216, 230, 194, 228, 181]

/-- A concrete 64-byte salt used for the claim 7 counterexample. -/
def saltEx : List Nat := 1 :: List.replicate 63 0

theorem fN_eq (n : Nat) (k : Nat → List Nat) : fN n k = k n := by
  cases n <;> rfl

theorem fL_eq (l : List Nat) : ∀ k : List Nat → List Nat, fL l k = k l := by
  induction l with
  | nil => intro k; rfl
  | cons x xs ih => intro k; simp only [fL, fN_eq, ih]

theorem iterLs_succ (n : Nat) (s : List Nat) :
    iterLs (n+1) s = iterLs n (keccakP s) := by
  simp only [iterLs, fL_eq]

theorem squeezeLanes_succ (n : Nat) (s : List Nat) :
    squeezeLanes (n+1) s = s.take 17 ++ squeezeLanes n (keccakP s) := by
  simp only [squeezeLanes, fL_eq]

theorem squeezeLanes_split (a : Nat) : ∀ (b : Nat) (s : List Nat),
    squeezeLanes (a+b) s = squeezeLanes a s ++ squeezeLanes b (iterLs a s) := by
  induction a with
  | zero => intro b s; simp [squeezeLanes, iterLs]
  | succ n ih =>
    intro b s
    have h : n+1+b = (n+b)+1 := by omega
    rw [h, squeezeLanes_succ, squeezeLanes_succ, ih, iterLs_succ, List.append_assoc]

theorem shakeAbsorb_seed : shakeAbsorb seedMsg = kSt0 := by rfl

theorem kStep0 : iterLs 40 kSt0 = kSt1 := by rfl

theorem kStep1 : iterLs 40 kSt1 = kSt2 := by rfl

theorem kStep2 : iterLs 40 kSt2 = kSt3 := by rfl

theorem kStep3 : iterLs 40 kSt3 = kSt4 := by rfl

theorem kStep4 : iterLs 40 kSt4 = kSt5 := by rfl

theorem kStep5 : iterLs 40 kSt5 = kSt6 := by rfl

theorem kStep6 : iterLs 40 kSt6 = kSt7 := by rfl

theorem kStep7 : iterLs 40 kSt7 = kSt8 := by rfl

theorem kStep8 : iterLs 40 kSt8 = kSt9 := by rfl

theorem kStep9 : iterLs 40 kSt9 = kSt10 := by rfl

theorem kStep10 : iterLs 40 kSt10 = kSt11 := by rfl

theorem kStep11 : iterLs 40 kSt11 = kSt12 := by rfl

theorem kChunk0 : squeezeLanes 40 kSt0 = kLanes0 := by rfl

theorem kChunk1 : squeezeLanes 40 kSt1 = kLanes1 := by rfl

theorem kChunk2 : squeezeLanes 40 kSt2 = kLanes2 := by rfl

theorem kChunk3 : squeezeLanes 40 kSt3 = kLanes3 := by rfl

theorem kChunk4 : squeezeLanes 40 kSt4 = kLanes4 := by rfl

theorem kChunk5 : squeezeLanes 40 kSt5 = kLanes5 := by rfl

theorem kChunk6 : squeezeLanes 40 kSt6 = kLanes6 := by rfl

theorem kChunk7 : squeezeLanes 40 kSt7 = kLanes7 := by rfl

theorem kChunk8 : squeezeLanes 40 kSt8 = kLanes8 := by rfl

theorem kChunk9 : squeezeLanes 40 kSt9 = kLanes9 := by rfl

theorem kChunk10 : squeezeLanes 40 kSt10 = kLanes10 := by rfl

theorem kChunk11 : squeezeLanes 40 kSt11 = kLanes11 := by rfl

theorem kChunk12 : squeezeLanes 2 kSt12 = kLanes12 := by rfl

theorem sumhashMatrix_eq : sumhashMatrix = rowsAux 8
    (kLanes0 ++ (kLanes1 ++ kLanes2 ++ kLanes3 ++ kLanes4 ++ kLanes5 ++ kLanes6 ++ kLanes7 ++ kLanes8 ++ kLanes9 ++ kLanes10 ++ kLanes11 ++ kLanes12)) := by
  rw [show sumhashMatrix = rowsAux 8 (squeezeLanes 482 (shakeAbsorb seedMsg)) from rfl]
  rw [shakeAbsorb_seed]
  rw [show (482:Nat) = 40 + 442 from rfl, squeezeLanes_split, kStep0, kChunk0]
  rw [show (442:Nat) = 40 + 402 from rfl, squeezeLanes_split, kStep1, kChunk1]
  rw [show (402:Nat) = 40 + 362 from rfl, squeezeLanes_split, kStep2, kChunk2]
  rw [show (362:Nat) = 40 + 322 from rfl, squeezeLanes_split, kStep3, kChunk3]
  rw [show (322:Nat) = 40 + 282 from rfl, squeezeLanes_split, kStep4, kChunk4]
  rw [show (282:Nat) = 40 + 242 from rfl, squeezeLanes_split, kStep5, kChunk5]
  rw [show (242:Nat) = 40 + 202 from rfl, squeezeLanes_split, kStep6, kChunk6]
  rw [show (202:Nat) = 40 + 162 from rfl, squeezeLanes_split, kStep7, kChunk7]
  rw [show (162:Nat) = 40 + 122 from rfl, squeezeLanes_split, kStep8, kChunk8]
  rw [show (122:Nat) = 40 + 82 from rfl, squeezeLanes_split, kStep9, kChunk9]
  rw [show (82:Nat) = 40 + 42 from rfl, squeezeLanes_split, kStep10, kChunk10]
  rw [show (42:Nat) = 40 + 2 from rfl, squeezeLanes_split, kStep11, kChunk11]
  rw [kChunk12]
  simp only [List.append_assoc]

theorem update_c (s : SumhashCore) (d : List Nat) : (s.update d).c = s.c := rfl

theorem update_salt (s : SumhashCore) (d : List Nat) : (s.update d).salt = s.salt := rfl

theorem reset_c (s : SumhashCore) : s.reset.c = s.c := by
  unfold SumhashCore.reset
  cases s.salt <;> rfl

theorem reset_salt (s : SumhashCore) : s.reset.salt = s.salt := by
  unfold SumhashCore.reset
  cases h : s.salt <;> simp [h, SumhashCore.update]

theorem reset_congr (s t : SumhashCore) (hc : s.c = t.c) (hs : s.salt = t.salt) :
    s.reset = t.reset := by
  cases s; cases t
  simp only at hc hs
  subst hc; subst hs
  unfold SumhashCore.reset
  rfl

theorem eat_c (d : List Nat) : ∀ (s : SumhashCore) (buf : List Nat),
    (eatAux d s buf).core.c = s.c := by
  induction d with
  | nil => intro s buf; rfl
  | cons x xs ih =>
    intro s buf
    by_cases h : buf.length = 63 <;> simp [eatAux, h, ih, update_c]

theorem eat_salt (d : List Nat) : ∀ (s : SumhashCore) (buf : List Nat),
    (eatAux d s buf).core.salt = s.salt := by
  induction d with
  | nil => intro s buf; rfl
  | cons x xs ih =>
    intro s buf
    by_cases h : buf.length = 63 <;> simp [eatAux, h, ih, update_salt]

theorem eatAux_append (a : List Nat) : ∀ (b : List Nat) (s : SumhashCore) (buf : List Nat),
    eatAux (a ++ b) s buf = eatAux b (eatAux a s buf).core (eatAux a s buf).buffer := by
  induction a with
  | nil => intro b s buf; rfl
  | cons x xs ih =>
    intro b s buf
    by_cases h : buf.length = 63 <;> simp [eatAux, h, ih]

theorem eatAux_fill (pre : List Nat) : ∀ (buf : List Nat) (s : SumhashCore) (rest : List Nat),
    (buf ++ pre).length = 64 → pre ≠ [] →
    eatAux (pre ++ rest) s buf = eatAux rest (s.update (buf ++ pre)) [] := by
  induction pre with
  | nil => intro buf s rest h hne; exact absurd rfl hne
  | cons x xs ih =>
    intro buf s rest h hne
    cases xs with
    | nil =>
      have hb : buf.length = 63 := by simpa using h
      simp [eatAux, hb]
    | cons y ys =>
      have hlen : buf.length + (ys.length + 1 + 1) = 64 := by
        simpa [List.length_append, List.length_cons] using h
      have hb : ¬ buf.length = 63 := by omega
      have h2 : ((buf ++ [x]) ++ (y :: ys)).length = 64 := by
        simp [List.length_append, List.length_cons]
        omega
      have := ih (buf ++ [x]) s rest h2 (by simp)
      simp only [List.append_assoc, List.cons_append, List.nil_append] at this
      simpa [eatAux, hb] using this

theorem eatAux_block (b : List Nat) (rest : List Nat) (s : SumhashCore)
    (hb : b.length = 64) :
    eatAux (b ++ rest) s [] = eatAux rest (s.update b) [] := by
  have := eatAux_fill b [] s rest (by simpa using hb) (by intro h; subst h; simp at hb)
  simpa using this

/-- Claim C2: for every 64-byte block, the internal update builds the
128-byte compound input whose first 64 bytes are the current chain and
whose last 64 bytes are the block XORed with the salt when present (the
block unchanged otherwise), replaces the chain by the compression of that
compound input with no feed-forward of the previous chain, and adds 64 to
len_bytes (a u64). -/
theorem claim2_update_shape (s : SumhashCore) (block : List Nat)
    (hh : s.h.length = 64) (hb : block.length = 64) :
    s.update block =
      { s with h := compress s.c (cin128 s block), len := (s.len + 64) % u64Mod }
    ∧ (cin128 s block).take 64 = s.h
    ∧ (cin128 s block).drop 64 = maskedBlock s.salt block := by
  refine ⟨?_, ?_, ?_⟩
  · cases hs : s.salt with
    | none =>
      simp [SumhashCore.update, cin128, maskedBlock, hs, hb]
    | some slt =>
      simp [SumhashCore.update, cin128, maskedBlock, hs, hb]
  · rw [cin128, ← hh, List.take_left]
  · rw [cin128, ← hh, List.drop_left]

theorem claim2_witness :
    (SumhashCore.update ⟨[], List.replicate 64 0, 0, none⟩ (List.replicate 64 0) =
      { c := [], h := compress [] (cin128 ⟨[], List.replicate 64 0, 0, none⟩ (List.replicate 64 0)),
        len := (0 + 64) % u64Mod, salt := none }
    ∧ (cin128 ⟨[], List.replicate 64 0, 0, none⟩ (List.replicate 64 0)).take 64 = List.replicate 64 0
    ∧ (cin128 ⟨[], List.replicate 64 0, 0, none⟩ (List.replicate 64 0)).drop 64 =
        maskedBlock none (List.replicate 64 0)) :=
  claim2_update_shape ⟨[], List.replicate 64 0, 0, none⟩ (List.replicate 64 0)
    (by simp) (by simp)

/-- Claim C4: a salted reset (and salted construction) processes exactly
one synthetic all-zero 64-byte block through the internal update before
any user data, counted in len_bytes, so len_bytes is 64 afterwards; an
unsalted reset (and construction) processes none and leaves len_bytes 0. -/
theorem claim4_salted_prelude (c : List (List Nat)) (h0 : List Nat) (l0 : Nat) (slt : List Nat) :
    (SumhashCore.reset ⟨c, h0, l0, none⟩ = ⟨c, List.replicate 64 0, 0, none⟩)
    ∧ (SumhashCore.reset ⟨c, h0, l0, some slt⟩ =
        SumhashCore.update ⟨c, List.replicate 64 0, 0, some slt⟩ (List.replicate 64 0))
    ∧ ((SumhashCore.reset ⟨c, h0, l0, some slt⟩).len = 64)
    ∧ (SumhashCore.new none = ⟨sumhashMatrix, List.replicate 64 0, 0, none⟩)
    ∧ (SumhashCore.new (some slt) =
        SumhashCore.update ⟨sumhashMatrix, List.replicate 64 0, 0, some slt⟩ (List.replicate 64 0))
    ∧ ((SumhashCore.new (some slt)).len = 64) := by
  refine ⟨rfl, rfl, ?_, rfl, rfl, ?_⟩ <;>
    simp [SumhashCore.reset, SumhashCore.new, SumhashCore.update, initCore, u64Mod]

/-- Claim C8: the length counter is converted to bits at finalization by a
shift modulo 2^64, so the encoded bit length is 8 times the byte total
reduced modulo 2^64, and for byte totals of 2^61 or more it differs from
the true bit length (it silently wraps). -/
theorem claim8_bitlen_wraps (len pos : Nat) :
    bitlen len pos = ((len + pos) * 8) % u64Mod
    ∧ (2^61 ≤ len + pos → bitlen len pos ≠ (len + pos) * 8) := by
  constructor
  · rw [bitlen, Nat.shiftLeft_eq]
    norm_num [Nat.mod_mul_mod]
  · intro hge
    rw [bitlen, Nat.shiftLeft_eq]
    have h1 : ((len + pos) % u64Mod) * 2 ^ 3 % u64Mod < u64Mod :=
      Nat.mod_lt _ (by norm_num [u64Mod])
    have h2 : u64Mod ≤ (len + pos) * 8 := by
      have : 2^61 * 8 ≤ (len + pos) * 8 := Nat.mul_le_mul_right 8 hge
      simpa [u64Mod] using this
    omega

theorem claim8_witness :
    bitlen (2^61) 0 = ((2^61 + 0) * 8) % u64Mod
    ∧ bitlen (2^61) 0 ≠ (2^61 + 0) * 8 :=
  ⟨(claim8_bitlen_wraps (2^61) 0).1, (claim8_bitlen_wraps (2^61) 0).2 (by norm_num)⟩

/-- Claim C10: update, reset and finalization leave the lookup-table field
c and the salt field unchanged; only the chain and the length counter are
mutated. -/
theorem claim10_frame (s : SumhashCore) (data buf : List Nat) :
    ((s.update data).c = s.c ∧ (s.update data).salt = s.salt)
    ∧ (s.reset.c = s.c ∧ s.reset.salt = s.salt)
    ∧ ((Sumhash.finalize ⟨s, buf⟩).1.c = s.c ∧ (Sumhash.finalize ⟨s, buf⟩).1.salt = s.salt) := by
  refine ⟨⟨rfl, rfl⟩, ⟨reset_c s, reset_salt s⟩, ?_, ?_⟩ <;>
    · rw [Sumhash.finalize]
      split <;> rfl

/-- Claim C5: absorbing x, resetting, absorbing y and finalizing gives the
same digest as a fresh hasher absorbing y and finalizing, for unsalted and
salted hashers alike. -/
theorem claim5_reset_equiv (salt : Option (List Nat)) (x y : List Nat) :
    ((((Sumhash.new salt).write x).reset.write y).finalize).2 =
      (((Sumhash.new salt).write y).finalize).2 := by
  have hc : (((Sumhash.new salt).write x).core).c = (initCore salt).c := by
    rw [Sumhash.write, eat_c]
    exact reset_c (initCore salt)
  have hs : (((Sumhash.new salt).write x).core).salt = (initCore salt).salt := by
    rw [Sumhash.write, eat_salt]
    exact reset_salt (initCore salt)
  have hreset : ((Sumhash.new salt).write x).reset = Sumhash.new salt := by
    rw [Sumhash.reset, Sumhash.new, SumhashCore.new]
    exact congrArg (fun t => Sumhash.mk t []) (reset_congr _ _ hc hs)
  rw [hreset]

/-- Claim C6: absorbing a then b gives the same digest as absorbing the
concatenation of a and b in one call; the digest is a pure function of the
concatenation of the absorbed bytes. -/
theorem claim6_concat (salt : Option (List Nat)) (a b : List Nat) :
    ((((Sumhash.new salt).write a).write b).finalize).2 =
      (((Sumhash.new salt).write (a ++ b)).finalize).2 := by
  rw [Sumhash.write, Sumhash.write, Sumhash.write, eatAux_append]

theorem le64_length (x : Nat) : (le64 x).length = 8 := by simp [le64]

/-- Claim C3: finalization appends 0x01, zero-pads (absorbing an
intermediate block when fewer than 16 bytes remain after the 0x01) until
exactly 16 bytes remain, writes the 16-byte little-endian length trailer,
absorbs the final block, and returns the resulting chain as the digest;
the padded tail always completes the data to a multiple of 64 bytes. -/
theorem claim3_finalize_pad (core : SumhashCore) (buf : List Nat) (hb : buf.length < 64) :
    Sumhash.finalize ⟨core, buf⟩ =
      ((eatAux (buf ++ padTail buf.length (bitlen core.len buf.length)) core []).core,
       (eatAux (buf ++ padTail buf.length (bitlen core.len buf.length)) core []).core.h)
    ∧ (buf ++ padTail buf.length (bitlen core.len buf.length)).length % 64 = 0
    ∧ (eatAux (buf ++ padTail buf.length (bitlen core.len buf.length)) core []).buffer = [] := by
  rcases Nat.lt_or_ge buf.length 48 with hc | hc
  · have hz : (112 - (buf.length + 1)) % 64 = 47 - buf.length := by omega
    have hblock : buf ++ padTail buf.length (bitlen core.len buf.length) =
        buf ++ [1] ++ List.replicate (47 - buf.length) 0 ++
          (le64 (bitlen core.len buf.length) ++ le64 0) := by
      simp only [padTail]
      rw [hz]
      simp only [List.append_assoc]
    have hlen : (buf ++ [1] ++ List.replicate (47 - buf.length) 0 ++
        (le64 (bitlen core.len buf.length) ++ le64 0)).length = 64 := by
      simp [le64]
      omega
    have heat : eatAux (buf ++ padTail buf.length (bitlen core.len buf.length)) core [] =
        ⟨core.update (buf ++ [1] ++ List.replicate (47 - buf.length) 0 ++
          (le64 (bitlen core.len buf.length) ++ le64 0)), []⟩ := by
      rw [hblock]
      have h2 := eatAux_block _ [] core hlen
      simpa using h2
    refine ⟨?_, ?_, ?_⟩
    · rw [heat]
      simp only [Sumhash.finalize]
      rw [if_neg (by omega)]
    · rw [hblock]
      rw [hlen]
    · rw [heat]
  · have hz : (112 - (buf.length + 1)) % 64 = 111 - buf.length := by omega
    have hsplit : List.replicate (111 - buf.length) (0:Nat) =
        List.replicate (63 - buf.length) 0 ++ List.replicate 48 0 := by
      rw [← List.replicate_add]
      congr 1
      omega
    have hblock : buf ++ padTail buf.length (bitlen core.len buf.length) =
        (buf ++ [1] ++ List.replicate (63 - buf.length) 0) ++
          (List.replicate 48 0 ++ (le64 (bitlen core.len buf.length) ++ le64 0)) := by
      simp only [padTail]
      rw [hz, hsplit]
      simp only [List.append_assoc]
    have hlen1 : (buf ++ [1] ++ List.replicate (63 - buf.length) 0).length = 64 := by
      simp
      omega
    have hlen2 : (List.replicate 48 (0:Nat) ++
        (le64 (bitlen core.len buf.length) ++ le64 0)).length = 64 := by
      simp [le64]
    have heat : eatAux (buf ++ padTail buf.length (bitlen core.len buf.length)) core [] =
        ⟨(core.update (buf ++ [1] ++ List.replicate (63 - buf.length) 0)).update
          (List.replicate 48 0 ++ (le64 (bitlen core.len buf.length) ++ le64 0)), []⟩ := by
      rw [hblock, eatAux_block _ _ core hlen1]
      have h2 := eatAux_block _ [] (core.update (buf ++ [1] ++ List.replicate (63 - buf.length) 0)) hlen2
      simpa using h2
    refine ⟨?_, ?_, ?_⟩
    · rw [heat]
      simp only [Sumhash.finalize]
      rw [if_pos (by omega)]
    · rw [hblock]
      rw [List.length_append, hlen1, hlen2]
    · rw [heat]

theorem claim3_witness :
    Sumhash.finalize ⟨⟨[], List.replicate 64 0, 0, none⟩, []⟩ =
      ((eatAux ([] ++ padTail (List.length ([]:List Nat)) (bitlen 0 (List.length ([]:List Nat))))
          ⟨[], List.replicate 64 0, 0, none⟩ []).core,
       (eatAux ([] ++ padTail (List.length ([]:List Nat)) (bitlen 0 (List.length ([]:List Nat))))
          ⟨[], List.replicate 64 0, 0, none⟩ []).core.h)
    ∧ ([] ++ padTail (List.length ([]:List Nat)) (bitlen 0 (List.length ([]:List Nat)))).length % 64 = 0
    ∧ (eatAux ([] ++ padTail (List.length ([]:List Nat)) (bitlen 0 (List.length ([]:List Nat))))
        ⟨[], List.replicate 64 0, 0, none⟩ []).buffer = [] :=
  claim3_finalize_pad ⟨[], List.replicate 64 0, 0, none⟩ [] (by simp)

theorem updateChecked_eq (s : SumhashCore) (d : List Nat)
    (hok : saltOk s) (hd : d.length = 64) :
    s.updateChecked d = some (s.update d) := by
  cases hs : s.salt with
  | none =>
    simp [SumhashCore.updateChecked, SumhashCore.update, hs, hd]
  | some slt =>
    have hslt : slt.length = 64 := hok slt hs
    have hzip : (List.zipWith (fun a b => a ^^^ b) d slt).take 64 =
        List.zipWith (fun a b => a ^^^ b) d slt := by
      apply List.take_of_length_le
      simp [List.length_zipWith, hd, hslt]
    simp [SumhashCore.updateChecked, SumhashCore.update, hs, hd, hslt, hzip]

theorem eatChecked_eq (d : List Nat) : ∀ (s : SumhashCore) (buf : List Nat), saltOk s →
    eatChecked d s buf = some (eatAux d s buf) := by
  induction d with
  | nil => intro s buf _; rfl
  | cons x xs ih =>
    intro s buf hok
    by_cases h : buf.length = 63
    · have h64 : (buf ++ [x]).length = 64 := by simp [h]
      have hok2 : saltOk (s.update (buf ++ [x])) := fun slt hs => hok slt hs
      simp [eatChecked, eatAux, h, updateChecked_eq s (buf ++ [x]) hok h64, ih _ [] hok2]
    · simp [eatChecked, eatAux, h, ih _ (buf ++ [x]) hok]

theorem resetChecked_eq (s : SumhashCore) (hok : saltOk s) :
    s.resetChecked = some s.reset := by
  simp only [SumhashCore.resetChecked, SumhashCore.reset]
  cases hs : s.salt with
  | none => rfl
  | some slt =>
    exact updateChecked_eq _ _ (fun a b => hok a (hs.trans b)) (by simp)

theorem finalizeChecked_eq (core : SumhashCore) (buf : List Nat)
    (hok : saltOk core) (hb : buf.length < 64) :
    finalizeChecked ⟨core, buf⟩ = some (Sumhash.finalize ⟨core, buf⟩) := by
  by_cases hcond : 64 - buf.length - 1 < 16
  · have hl1 : (buf ++ [1] ++ List.replicate (63 - buf.length) 0).length = 64 := by
      simp
      omega
    have hl2 : (List.replicate 48 (0:Nat) ++
        (le64 (bitlen core.len buf.length) ++ le64 0)).length = 64 := by
      simp [le64]
    have hok2 : saltOk (core.update (buf ++ [1] ++ List.replicate (63 - buf.length) 0)) :=
      fun slt hs => hok slt hs
    simp only [finalizeChecked, Sumhash.finalize]
    rw [if_pos hcond, if_pos hcond]
    rw [updateChecked_eq _ _ hok hl1]
    simp only [Option.some_bind]
    rw [updateChecked_eq _ _ hok2 hl2]
    simp
  · have hl3 : (buf ++ [1] ++ List.replicate (47 - buf.length) 0 ++
        (le64 (bitlen core.len buf.length) ++ le64 0)).length = 64 := by
      simp [le64]
      omega
    simp only [finalizeChecked, Sumhash.finalize]
    rw [if_neg hcond, if_neg hcond]
    rw [updateChecked_eq _ _ hok hl3]
    simp

/-- Claim C9: in salted mode the internal update indexes the data slice at
every position of the 64-byte destination region, so it panics (returns
none in the checked model) on data shorter than 64 bytes; under the
invariant that every internal caller passes exactly 64 bytes, the checked
versions of the block dispatch, the finalization padding and the salted
reset never reach that branch and agree with the total functions. -/
theorem claim9_update_total (s : SumhashCore) (d : List Nat) :
    (∀ slt, s.salt = some slt → slt.length = 64 → d.length < 64 →
      s.updateChecked d = none)
    ∧ (saltOk s → d.length = 64 → s.updateChecked d = some (s.update d))
    ∧ (saltOk s → ∀ buf, eatChecked d s buf = some (eatAux d s buf))
    ∧ (saltOk s → ∀ buf, buf.length < 64 →
        finalizeChecked ⟨s, buf⟩ = some (Sumhash.finalize ⟨s, buf⟩))
    ∧ (saltOk s → s.resetChecked = some s.reset) := by
  refine ⟨?_, fun hok hd => updateChecked_eq s d hok hd,
    fun hok buf => eatChecked_eq d s buf hok,
    fun hok buf hbuf => finalizeChecked_eq s buf hok hbuf,
    fun hok => resetChecked_eq s hok⟩
  intro slt hs hslt hd
  simp [SumhashCore.updateChecked, hs, hd]

theorem claim9_witness :
    SumhashCore.updateChecked
        ⟨[], List.replicate 64 0, 0, some (List.replicate 64 0)⟩ (List.replicate 63 0) = none
    ∧ SumhashCore.updateChecked
        ⟨[], List.replicate 64 0, 0, some (List.replicate 64 0)⟩ (List.replicate 64 0)
      = some (SumhashCore.update
          ⟨[], List.replicate 64 0, 0, some (List.replicate 64 0)⟩ (List.replicate 64 0)) :=
  ⟨(claim9_update_total ⟨[], List.replicate 64 0, 0, some (List.replicate 64 0)⟩
      (List.replicate 63 0)).1 (List.replicate 64 0) rfl (by simp) (by simp),
   (claim9_update_total ⟨[], List.replicate 64 0, 0, some (List.replicate 64 0)⟩
      (List.replicate 64 0)).2.1 (fun slt hs => by cases hs; simp) (by simp)⟩

theorem zipWith_xor_replicate_zero (s : List Nat) : ∀ n : Nat,
    List.zipWith (fun a b => a ^^^ b) (List.replicate n 0) s = s.take n := by
  induction s with
  | nil => intro n; cases n <;> simp
  | cons x xs ih =>
    intro n
    cases n with
    | zero => simp
    | succ m => simp [List.replicate_succ, ih m]

theorem absorb_blocks_xor (blocks : List (List Nat)) :
    ∀ (c : List (List Nat)) (h : List Nat) (l : Nat) (s : List Nat),
      s.length = 64 → (∀ b ∈ blocks, b.length = 64) →
      ((eatAux blocks.flatten ⟨c, h, l, some s⟩ []).core.h =
        (eatAux ((blocks.map (fun b => List.zipWith (fun a d => a ^^^ d) b s)).flatten)
          ⟨c, h, l, none⟩ []).core.h
      ∧ (eatAux blocks.flatten ⟨c, h, l, some s⟩ []).core.len =
        (eatAux ((blocks.map (fun b => List.zipWith (fun a d => a ^^^ d) b s)).flatten)
          ⟨c, h, l, none⟩ []).core.len
      ∧ (eatAux blocks.flatten ⟨c, h, l, some s⟩ []).buffer = []
      ∧ (eatAux ((blocks.map (fun b => List.zipWith (fun a d => a ^^^ d) b s)).flatten)
          ⟨c, h, l, none⟩ []).buffer = []) := by
  induction blocks with
  | nil => intro c h l s hs _; simp [eatAux]
  | cons b bs ih =>
    intro c h l s hs hlen
    have hb : b.length = 64 := hlen b (by simp)
    have hbx : (List.zipWith (fun a d => a ^^^ d) b s).length = 64 := by
      simp [List.length_zipWith, hb, hs]
    rw [List.flatten, List.map_cons, List.flatten]
    rw [eatAux_block _ _ _ hb, eatAux_block _ _ _ hbx]
    have e1 : SumhashCore.update ⟨c, h, l, some s⟩ b =
        ⟨c, compress c (h ++ List.zipWith (fun a d => a ^^^ d) b s),
          (l + 64) % u64Mod, some s⟩ := by
      simp [SumhashCore.update, hb]
    have e2 : SumhashCore.update ⟨c, h, l, none⟩ (List.zipWith (fun a d => a ^^^ d) b s) =
        ⟨c, compress c (h ++ List.zipWith (fun a d => a ^^^ d) b s),
          (l + 64) % u64Mod, none⟩ := by
      simp [SumhashCore.update, hbx]
    rw [e1, e2]
    exact ih c _ ((l + 64) % u64Mod) s hs (fun b2 hb2 => hlen b2 (by simp [hb2]))

/-- Claim C7 (amended): for a 64-byte salt s and any sequence of full
64-byte blocks, the salted hasher state after absorbing the blocks has the
same chain and the same byte count as the unsalted hasher state after
absorbing s followed by the salt-XORed blocks (the zero prelude block XOR
s equals s), with both buffers empty; the full digests differ in general
because the finalization padding blocks are XORed with the salt only in
the salted computation. -/
theorem claim7_amended_state (s : List Nat) (blocks : List (List Nat))
    (hs : s.length = 64) (hb : ∀ b ∈ blocks, b.length = 64) :
    (((Sumhash.new (some s)).write blocks.flatten).core.h =
      ((Sumhash.new none).write
        (s ++ (blocks.map (fun b => List.zipWith (fun a d => a ^^^ d) b s)).flatten)).core.h)
    ∧ (((Sumhash.new (some s)).write blocks.flatten).core.len =
      ((Sumhash.new none).write
        (s ++ (blocks.map (fun b => List.zipWith (fun a d => a ^^^ d) b s)).flatten)).core.len)
    ∧ ((Sumhash.new (some s)).write blocks.flatten).buffer = []
    ∧ ((Sumhash.new none).write
        (s ++ (blocks.map (fun b => List.zipWith (fun a d => a ^^^ d) b s)).flatten)).buffer
      = [] := by
  have hzip : List.zipWith (fun a b => a ^^^ b) (List.replicate 64 0) s = s := by
    rw [zipWith_xor_replicate_zero s 64]
    exact List.take_of_length_le (le_of_eq hs)
  have hcore1 : SumhashCore.new (some s) =
      ⟨sumhashMatrix, compress sumhashMatrix (List.replicate 64 0 ++ s), 64, some s⟩ := by
    simp only [SumhashCore.new, SumhashCore.reset, initCore, SumhashCore.update]
    rw [hzip]
    simp [u64Mod]
  have hupd : SumhashCore.update ⟨sumhashMatrix, List.replicate 64 0, 0, none⟩ s =
      ⟨sumhashMatrix, compress sumhashMatrix (List.replicate 64 0 ++ s), 64, none⟩ := by
    simp [SumhashCore.update, hs, u64Mod]
  simp only [Sumhash.write, Sumhash.new]
  rw [hcore1]
  rw [show SumhashCore.new none = ⟨sumhashMatrix, List.replicate 64 0, 0, none⟩ from rfl]
  rw [eatAux_block s _ _ hs, hupd]
  exact absorb_blocks_xor blocks sumhashMatrix _ 64 s hs hb

theorem claim7_witness :
    (((Sumhash.new (some (List.replicate 64 0))).write
        (List.flatten ([] : List (List Nat)))).core.h =
      ((Sumhash.new none).write
        (List.replicate 64 0 ++
          (List.map (fun b => List.zipWith (fun a d => a ^^^ d) b (List.replicate 64 0))
            ([] : List (List Nat))).flatten)).core.h)
    ∧ (((Sumhash.new (some (List.replicate 64 0))).write
        (List.flatten ([] : List (List Nat)))).core.len =
      ((Sumhash.new none).write
        (List.replicate 64 0 ++
          (List.map (fun b => List.zipWith (fun a d => a ^^^ d) b (List.replicate 64 0))
            ([] : List (List Nat))).flatten)).core.len)
    ∧ ((Sumhash.new (some (List.replicate 64 0))).write
        (List.flatten ([] : List (List Nat)))).buffer = []
    ∧ ((Sumhash.new none).write
        (List.replicate 64 0 ++
          (List.map (fun b => List.zipWith (fun a d => a ^^^ d) b (List.replicate 64 0))
            ([] : List (List Nat))).flatten)).buffer = [] :=
  claim7_amended_state (List.replicate 64 0) [] (by simp) (by simp)

/-- Claim C1: the unsalted hasher reproduces the published test vectors
for the short inputs of the specification table: the empty string, a,
abc and the Gandhi quotation. -/
theorem claim1_test_vectors :
    sumhash512 [] = vecEmpty
    ∧ sumhash512 [97] = vecA
    ∧ sumhash512 [97, 98, 99] = vecAbc
    ∧ sumhash512 gandhiBytes = vecGandhi := by
  refine ⟨?_, ?_, ?_, ?_⟩ <;>
  · simp only [sumhash512, Sumhash.write, Sumhash.new, SumhashCore.new, initCore]
    rw [sumhashMatrix_eq]
    rfl

/-- Claim C7 (counterexample): with a 64-byte salt and the empty message,
the salted digest differs from the unsalted digest of the salt-trans-
formed input, because the finalization padding block is XORed with the
salt only in the salted computation. -/
theorem claim7_counterexample :
    sumhash512Salted saltEx [] ≠
      sumhash512 (List.zipWith (fun a b => a ^^^ b) (List.replicate 64 0) saltEx) := by
  simp only [sumhash512Salted, sumhash512, Sumhash.write, Sumhash.new, SumhashCore.new,
    initCore, saltEx]
  rw [sumhashMatrix_eq]
  decide
